import Mathlib

/-!
Verification development for the media device access orchestrator
(`content/browser/renderer_host/media/media_stream_manager.cc`).

The C++ control-plane code is shallowly embedded as executable Lean
definitions.  Mutable member state of `MediaStreamManager` becomes the
`MSMState` structure (the request registry, the two enumeration caches,
the monitoring flag, and the per-kind active-enumeration ref counts).
Each member function becomes a pure function from state to state, also
returning the list of externally visible effects (`Event`) it performs:
calls into the device providers (`EnumerateDevices`, `Open`, `Close`),
notifications to the requester, runs of the access-check callback, the
`RequestAccess` call into the permission surface, and device-change
notifications.  External collaborators that the orchestrator merely
invokes (the HMAC device-id transform, the tab-capture id parser, the
provider's session allocation, audio parameters of an opened device)
are oracles collected in an `Env` parameter.
-/

set_option maxHeartbeats 1000000
set_option maxRecDepth 4000

namespace MediaStream

/-- Media stream types, mirroring the `MediaStreamType` enum.  The values are
in C++ enum order; `NUM_MEDIA_TYPES` is included because the source passes it
to `DeviceRequest::SetState` as a broadcast sentinel. -/
inductive MediaStreamType where
  | MEDIA_NO_SERVICE
  | MEDIA_DEVICE_AUDIO_CAPTURE
  | MEDIA_DEVICE_VIDEO_CAPTURE
  | MEDIA_TAB_AUDIO_CAPTURE
  | MEDIA_TAB_VIDEO_CAPTURE
  | MEDIA_LOOPBACK_AUDIO_CAPTURE
  | MEDIA_DESKTOP_VIDEO_CAPTURE
  | NUM_MEDIA_TYPES
deriving DecidableEq

open MediaStreamType

/-- Index of a media stream type in the C++ enum (used to index the per-type
state vector and the ref-count array). -/
def MediaStreamType.toIdx : MediaStreamType → Nat
  | MEDIA_NO_SERVICE => 0
  | MEDIA_DEVICE_AUDIO_CAPTURE => 1
  | MEDIA_DEVICE_VIDEO_CAPTURE => 2
  | MEDIA_TAB_AUDIO_CAPTURE => 3
  | MEDIA_TAB_VIDEO_CAPTURE => 4
  | MEDIA_LOOPBACK_AUDIO_CAPTURE => 5
  | MEDIA_DESKTOP_VIDEO_CAPTURE => 6
  | NUM_MEDIA_TYPES => 7

/-- The six concrete capture types, in enum order.  This is the range of the
C++ loops `for (int i = MEDIA_NO_SERVICE + 1; i < NUM_MEDIA_TYPES; ++i)`. -/
def allCaptureTypes : List MediaStreamType :=
  [MEDIA_DEVICE_AUDIO_CAPTURE, MEDIA_DEVICE_VIDEO_CAPTURE,
   MEDIA_TAB_AUDIO_CAPTURE, MEDIA_TAB_VIDEO_CAPTURE,
   MEDIA_LOOPBACK_AUDIO_CAPTURE, MEDIA_DESKTOP_VIDEO_CAPTURE]

/-- Per-media-kind request progress states, mirroring `MediaRequestState`. -/
inductive MediaRequestState where
  | MEDIA_REQUEST_STATE_NOT_REQUESTED
  | MEDIA_REQUEST_STATE_REQUESTED
  | MEDIA_REQUEST_STATE_PENDING_APPROVAL
  | MEDIA_REQUEST_STATE_OPENING
  | MEDIA_REQUEST_STATE_DONE
  | MEDIA_REQUEST_STATE_CLOSING
  | MEDIA_REQUEST_STATE_ERROR
deriving DecidableEq

open MediaRequestState

/-- Request kinds, mirroring `MediaStreamRequestType`. -/
inductive MediaStreamRequestType where
  | MEDIA_DEVICE_ACCESS
  | MEDIA_GENERATE_STREAM
  | MEDIA_ENUMERATE_DEVICES
  | MEDIA_OPEN_DEVICE
deriving DecidableEq

open MediaStreamRequestType

/-- Security origin (`GURL`): value plus validity, as tested by
`GURL::is_valid()`. -/
structure GURL where
  url : String := ""
  valid : Bool := false
deriving DecidableEq

/-- Audio parameters stored inside a device descriptor
(the `input` / `matched_output` members used by `Opened` and
`HandleAccessRequestResponse`). -/
structure MediaAudioParams where
  sample_rate : Int := 0
  channel_layout : Int := 0
deriving DecidableEq

/-- The numeric value standing for `media::CHANNEL_LAYOUT_STEREO`. -/
def CHANNEL_LAYOUT_STEREO : Int := 3

/-- A device descriptor (`MediaStreamDevice`). -/
structure MediaStreamDevice where
  type : MediaStreamType := MEDIA_NO_SERVICE
  id : String := ""
  name : String := ""
  input : MediaAudioParams := {}
  matched_output : MediaAudioParams := {}
deriving DecidableEq

/-- A resolved device session (`StreamDeviceInfo`): descriptor plus session
id; `-1` models `StreamDeviceInfo::kNoId` (no session opened). -/
structure StreamDeviceInfo where
  device : MediaStreamDevice := {}
  session_id : Int := -1
deriving DecidableEq

instance : Inhabited StreamDeviceInfo := ⟨{}⟩

/-- Options supplied by the entry points (`StreamOptions`). -/
structure StreamOptions where
  audio_type : MediaStreamType := MEDIA_NO_SERVICE
  audio_device_id : String := ""
  video_type : MediaStreamType := MEDIA_NO_SERVICE
  video_device_id : String := ""
deriving DecidableEq

/-- The immutable-ish request descriptor (`MediaStreamRequest`).  The
`render_process_id` / `render_view_id` / `tab_capture_device_id` fields are
rewritten by `SetupTabCaptureRequest`; `requested_*_device_id` are rewritten
by `TranslateRequestedSourceIdToDeviceId`. -/
structure MediaStreamRequest where
  render_process_id : Int := 0
  render_view_id : Int := 0
  page_request_id : Int := 0
  security_origin : GURL := {}
  request_type : MediaStreamRequestType := MEDIA_GENERATE_STREAM
  requested_audio_device_id : String := ""
  requested_video_device_id : String := ""
  audio_type : MediaStreamType := MEDIA_NO_SERVICE
  video_type : MediaStreamType := MEDIA_NO_SERVICE
  tab_capture_device_id : String := ""
deriving DecidableEq

/-- One `MediaStreamManager::DeviceRequest`.  Pointer-valued members are
modelled by what the orchestrator's control flow observes of them:
`requester` and `callback` record non-nullness, `ui_proxy` records whether a
permission-surface proxy has been attached, and `resource_context` is an
opaque handle consumed by the HMAC oracle (0 stands for null).  The state
vector is a list with one entry per media type below `NUM_MEDIA_TYPES`,
mirroring `std::vector<MediaRequestState> state_(NUM_MEDIA_TYPES, ...)`. -/
structure DeviceRequest where
  requester : Bool := false
  request : MediaStreamRequest := {}
  requesting_process_id : Int := 0
  requesting_view_id : Int := 0
  resource_context : Nat := 0
  devices : List StreamDeviceInfo := []
  callback : Bool := false
  ui_proxy : Bool := false
  state_ : List MediaRequestState :=
    List.replicate 7 MEDIA_REQUEST_STATE_NOT_REQUESTED
deriving DecidableEq

/-- The `DeviceRequest` constructor: stores the five arguments and
initializes the state vector to `NUM_MEDIA_TYPES` copies of
`MEDIA_REQUEST_STATE_NOT_REQUESTED`. -/
def DeviceRequest.make (requester : Bool) (request : MediaStreamRequest)
    (requesting_process_id requesting_view_id : Int)
    (resource_context : Nat) : DeviceRequest :=
  { requester := requester
    request := request
    requesting_process_id := requesting_process_id
    requesting_view_id := requesting_view_id
    resource_context := resource_context
    devices := []
    callback := false
    ui_proxy := false
    state_ := List.replicate 7 MEDIA_REQUEST_STATE_NOT_REQUESTED }

/-- `DeviceRequest::SetState`.  A concrete type updates that type's slot;
the sentinel `NUM_MEDIA_TYPES` runs the C++ loop setting every slot from
`MEDIA_NO_SERVICE + 1` up to `NUM_MEDIA_TYPES - 1` (slot 0 is untouched).
The observer notification performed by the C++ function is an outbound
report with no effect on orchestrator state and is not tracked. -/
def DeviceRequest.SetState (r : DeviceRequest) (stream_type : MediaStreamType)
    (new_state : MediaRequestState) : DeviceRequest :=
  if stream_type = NUM_MEDIA_TYPES then
    { r with state_ :=
        match r.state_ with
        | [] => []
        | x :: xs => x :: xs.map (fun _ => new_state) }
  else
    { r with state_ := r.state_.set stream_type.toIdx new_state }

/-- `DeviceRequest::state`: read one slot of the state vector. -/
def DeviceRequest.state (r : DeviceRequest) (stream_type : MediaStreamType) :
    MediaRequestState :=
  r.state_.getD stream_type.toIdx MEDIA_REQUEST_STATE_NOT_REQUESTED

/-- The static helper `Requested`: whether a stream type is part of the
request descriptor. -/
def Requested (request : MediaStreamRequest) (stream_type : MediaStreamType) :
    Prop :=
  request.audio_type = stream_type ∨ request.video_type = stream_type

instance (request : MediaStreamRequest) (t : MediaStreamType) :
    Decidable (Requested request t) := by
  unfold Requested; infer_instance

/-- Modelled from the spec: `IsAudioMediaType` (declared in
`content/public/common/media_stream_request.h`, not part of this fragment).
The audio capture kinds are microphone audio, tab audio and loopback audio
(spec glossary "Media kind"). -/
def IsAudioMediaType (t : MediaStreamType) : Prop :=
  t = MEDIA_DEVICE_AUDIO_CAPTURE ∨ t = MEDIA_TAB_AUDIO_CAPTURE ∨
    t = MEDIA_LOOPBACK_AUDIO_CAPTURE

instance (t : MediaStreamType) : Decidable (IsAudioMediaType t) := by
  unfold IsAudioMediaType; infer_instance

/-- Modelled from the spec: `IsVideoMediaType` (declared in
`content/public/common/media_stream_request.h`, not part of this fragment).
The video capture kinds are camera video, tab video and desktop video
(spec glossary "Media kind"). -/
def IsVideoMediaType (t : MediaStreamType) : Prop :=
  t = MEDIA_DEVICE_VIDEO_CAPTURE ∨ t = MEDIA_TAB_VIDEO_CAPTURE ∨
    t = MEDIA_DESKTOP_VIDEO_CAPTURE

instance (t : MediaStreamType) : Decidable (IsVideoMediaType t) := by
  unfold IsVideoMediaType; infer_instance

/-- One per-kind `EnumerationCache`: validity flag plus last device list. -/
structure EnumerationCache where
  valid : Bool := false
  devices : List StreamDeviceInfo := []
deriving DecidableEq

/-- The request registry `DeviceRequests` (a `std::map<std::string,
DeviceRequest*>`), modelled as an association list whose order is the map's
iteration order.  Labels are unique (fresh labels are generated with
collision retry in `AddRequest`). -/
abbrev Registry := List (String × DeviceRequest)

/-- `FindRequest`: look a label up in the registry. -/
def findRequest : Registry → String → Option DeviceRequest
  | [], _ => none
  | p :: rest, label => if p.1 = label then some p.2 else findRequest rest label

/-- `DeleteRequest`: erase a label's entry from the registry. -/
def deleteRequest : Registry → String → Registry
  | [], _ => []
  | p :: rest, label =>
    if p.1 = label then deleteRequest rest label
    else p :: deleteRequest rest label

/-- Mutation of the request a label points at (the C++ code mutates the
request in place through its pointer). -/
def updateRequest (reg : Registry) (label : String)
    (f : DeviceRequest → DeviceRequest) : Registry :=
  reg.map (fun p => if p.1 = label then (p.1, f p.2) else p)

/-- Externally visible effects of one orchestrator step.  Provider calls,
requester notifications, the access-check callback, permission-surface calls
and device-change notifications are recorded in order of occurrence. -/
inductive Event where
  | EnumerateDevicesCall (t : MediaStreamType)
  | OpenCall (t : MediaStreamType) (device : MediaStreamDevice)
  | CloseCall (t : MediaStreamType) (session_id : Int)
  | StreamGenerated (label : String) (audio video : List StreamDeviceInfo)
  | StreamGenerationFailed (label : String)
  | DeviceOpenedEvt (label : String) (device : StreamDeviceInfo)
  | DevicesEnumeratedEvt (label : String) (devices : List StreamDeviceInfo)
  | DeviceStoppedEvt (view_id : Int) (label : String)
      (device : StreamDeviceInfo)
  | AccessCallbackRun (label : String) (devices : List MediaStreamDevice)
  | RequestAccessCall (label : String)
  | OnStartedCall (label : String)
  | DevicesChangedNotice (t : MediaStreamType)
      (devices : List MediaStreamDevice)
deriving DecidableEq

/-- Oracles for the external collaborators the orchestrator calls into.
`hmac` is `content::GetHMACForMediaDeviceID` (resource context, security
origin, true device id); the spec describes it as the keyed one-way
transform `sourceId = HMAC(key, origin, trueId)`.  `extractTabCaptureTarget`
is `WebContentsCaptureUtil::ExtractTabCaptureTarget`, returning the target
render process/view ids on success.  `openSession` is the session id the
device provider's `Open` allocates (a valid handle, hence modelled as a
natural number).  `openedDeviceInfo` is
`AudioInputDeviceManager::GetOpenedDeviceInfoById`.  `systemMonitorPresent`
is whether `base::SystemMonitor::Get()` is non-null. -/
structure Env where
  hmac : Nat → GURL → String → String
  appendWebContentsDeviceScheme : String → String
  extractTabCaptureTarget : String → Option (Int × Int)
  openSession : MediaStreamType → MediaStreamDevice → Nat
  openedDeviceInfo : Int → StreamDeviceInfo
  defaultOutputSampleRate : Int
  systemMonitorPresent : Bool

/-- Modelled from the spec: `content::DoesMediaDeviceIDMatchHMAC` — a source
id matches a device id iff the keyed transform of the device id for this
(resource context, origin) equals the source id. -/
def doesMediaDeviceIDMatchHMAC (env : Env) (rc : Nat) (security_origin : GURL)
    (source_id device_id : String) : Prop :=
  env.hmac rc security_origin device_id = source_id

instance (env : Env) (rc : Nat) (o : GURL) (s d : String) :
    Decidable (doesMediaDeviceIDMatchHMAC env rc o s d) := by
  unfold doesMediaDeviceIDMatchHMAC; infer_instance

/-- Member state of `MediaStreamManager` relevant to the control plane. -/
structure MSMState where
  requests_ : Registry := []
  audio_enumeration_cache_ : EnumerationCache := {}
  video_enumeration_cache_ : EnumerationCache := {}
  monitoring_started_ : Bool := false
  active_enumeration_ref_count_ : MediaStreamType → Int := fun _ => 0

/-- The manager state right after construction: empty registry, invalid
caches, monitoring not started, all ref counts zeroed (`memset`). -/
def msmInitial : MSMState := {}

/-- Read one slot of `active_enumeration_ref_count_`. -/
def refGet (st : MSMState) (t : MediaStreamType) : Int :=
  st.active_enumeration_ref_count_ t

/-- Write one slot of `active_enumeration_ref_count_`. -/
def refSet (st : MSMState) (t : MediaStreamType) (v : Int) : MSMState :=
  { st with active_enumeration_ref_count_ :=
      fun u => if u = t then v else st.active_enumeration_ref_count_ u }

/-- The cache selection `stream_type == MEDIA_DEVICE_AUDIO_CAPTURE ?
&audio_enumeration_cache_ : &video_enumeration_cache_` used by
`TranslateSourceIdToDeviceId` and `DevicesEnumerated`. -/
def cacheOf (st : MSMState) (stream_type : MediaStreamType) :
    EnumerationCache :=
  if stream_type = MEDIA_DEVICE_AUDIO_CAPTURE then
    st.audio_enumeration_cache_
  else st.video_enumeration_cache_

/-- Writing through the same cache selection. -/
def setCacheOf (st : MSMState) (stream_type : MediaStreamType)
    (c : EnumerationCache) : MSMState :=
  if stream_type = MEDIA_DEVICE_AUDIO_CAPTURE then
    { st with audio_enumeration_cache_ := c }
  else { st with video_enumeration_cache_ := c }

/-- `RequestDone`: for each of the audio and the video slot, either that
slot does not name a requested capture kind, or its state is `DONE` or
`ERROR`. -/
def RequestDone (request : DeviceRequest) : Bool :=
  let requested_audio := IsAudioMediaType request.request.audio_type
  let requested_video := IsVideoMediaType request.request.video_type
  let audio_done :=
    ¬requested_audio ∨
      request.state request.request.audio_type = MEDIA_REQUEST_STATE_DONE ∨
      request.state request.request.audio_type = MEDIA_REQUEST_STATE_ERROR
  if ¬audio_done then false
  else
    let video_done :=
      ¬requested_video ∨
        request.state request.request.video_type = MEDIA_REQUEST_STATE_DONE ∨
        request.state request.request.video_type = MEDIA_REQUEST_STATE_ERROR
    if ¬video_done then false
    else true

/-- The inner loop of `CloseDevice` over one request's device list: each
entry matching the closed (type, session) marks the request `CLOSING` for
the type. -/
def closeDeviceMark (type : MediaStreamType) (session_id : Int)
    (r : DeviceRequest) : DeviceRequest :=
  r.devices.foldl
    (fun r' d =>
      if d.session_id = session_id ∧ d.device.type = type then
        r'.SetState type MEDIA_REQUEST_STATE_CLOSING
      else r')
    r

/-- `CloseDevice(type, session_id)`: ask the owning device provider to close
the session, then mark every request holding a matching device entry as
`CLOSING` for that type. -/
def closeDevice (type : MediaStreamType) (session_id : Int) (reg : Registry) :
    Registry × List Event :=
  (reg.map (fun p => (p.1, closeDeviceMark type session_id p.2)),
    [Event.CloseCall type session_id])

/-- The inner device loop of `StopDevice`, for the request named `label`.
`kept` holds the already scanned, non-matching prefix of the device list;
`todo` the remaining entries; the registry's copy of the request's device
list is `kept ++ todo` throughout.  A matching entry first triggers
`CloseDevice` when the request's state for the type is `DONE` (reading the
state live, since `CloseDevice` itself rewrites it to `CLOSING`), then is
erased. -/
def stopDeviceDevLoop (type : MediaStreamType) (session_id : Int)
    (label : String) (kept : List StreamDeviceInfo) :
    List StreamDeviceInfo → Registry → Registry × List Event
  | [], reg => (reg, [])
  | d :: rest, reg =>
    if d.device.type ≠ type ∨ d.session_id ≠ session_id then
      stopDeviceDevLoop type session_id label (kept ++ [d]) rest reg
    else
      match findRequest reg label with
      | some r =>
        if r.state type = MEDIA_REQUEST_STATE_DONE then
          let step1 := closeDevice type session_id reg
          let reg2 := updateRequest step1.1 label
            (fun r' => { r' with devices := kept ++ rest })
          let step2 := stopDeviceDevLoop type session_id label kept rest reg2
          (step2.1, step1.2 ++ step2.2)
        else
          let reg2 := updateRequest reg label
            (fun r' => { r' with devices := kept ++ rest })
          stopDeviceDevLoop type session_id label kept rest reg2
      | none =>
        let reg2 := updateRequest reg label
          (fun r' => { r' with devices := kept ++ rest })
        stopDeviceDevLoop type session_id label kept rest reg2

/-- The outer request loop of `StopDevice`: scan each request's device list,
then delete the request if its device list is now empty. -/
def stopDeviceReqLoop (type : MediaStreamType) (session_id : Int) :
    List String → Registry → Registry × List Event
  | [], reg => (reg, [])
  | label :: rest, reg =>
    match findRequest reg label with
    | none => stopDeviceReqLoop type session_id rest reg
    | some r =>
      let step1 := stopDeviceDevLoop type session_id label [] r.devices reg
      let reg2 :=
        match findRequest step1.1 label with
        | some r1 =>
          if r1.devices.isEmpty then deleteRequest step1.1 label else step1.1
        | none => step1.1
      let step2 := stopDeviceReqLoop type session_id rest reg2
      (step2.1, step1.2 ++ step2.2)

/-- `StopDevice(type, session_id)`. -/
def stopDevice (type : MediaStreamType) (session_id : Int) (reg : Registry) :
    Registry × List Event :=
  stopDeviceReqLoop type session_id (reg.map Prod.fst) reg

/-- The device loop of `CancelRequest`: for each device entry of the request
being cancelled, read the request's live state for the entry's type and,
when it is `OPENING` or `DONE`, run `CloseDevice` on that session. -/
def cancelRequestDevLoop (label : String) :
    List StreamDeviceInfo → Registry → Registry × List Event
  | [], reg => (reg, [])
  | d :: rest, reg =>
    match findRequest reg label with
    | some r =>
      if r.state d.device.type ≠ MEDIA_REQUEST_STATE_OPENING ∧
          r.state d.device.type ≠ MEDIA_REQUEST_STATE_DONE then
        cancelRequestDevLoop label rest reg
      else
        let step1 := closeDevice d.device.type d.session_id reg
        let step2 := cancelRequestDevLoop label rest step1.1
        (step2.1, step1.2 ++ step2.2)
    | none => cancelRequestDevLoop label rest reg

/-- `CancelRequest(label)`: an unknown label is logged and ignored; a pending
enumeration request is deleted immediately; otherwise the opening/opened
device sessions are closed, the whole request is broadcast to `CLOSING`
(`SetState(NUM_MEDIA_TYPES, ...)`) and the request is deleted. -/
def cancelRequest (label : String) (reg : Registry) : Registry × List Event :=
  match findRequest reg label with
  | none => (reg, [])
  | some r =>
    if r.request.request_type = MEDIA_ENUMERATE_DEVICES then
      (deleteRequest reg label, [])
    else
      let step1 := cancelRequestDevLoop label r.devices reg
      let reg2 := updateRequest step1.1 label
        (fun r' => r'.SetState NUM_MEDIA_TYPES MEDIA_REQUEST_STATE_CLOSING)
      (deleteRequest reg2 label, step1.2)

/-- `CancelAllRequests(render_process_id)`: cancel every request owned by the
process.  The C++ iterates the live map advancing past the current label
before cancelling it; since `CancelRequest` deletes only its own label and
never inserts, folding over the initial matching labels is equivalent. -/
def cancelAllRequests (render_process_id : Int) (reg : Registry) :
    Registry × List Event :=
  let labels := (reg.filter
    (fun p => decide (p.2.requesting_process_id = render_process_id))).map
      Prod.fst
  labels.foldl
    (fun acc l =>
      let step := cancelRequest l acc.1
      (step.1, acc.2 ++ step.2))
    (reg, [])

/-- The search loop of `StopStreamDevice`: the first registered
`MEDIA_GENERATE_STREAM` request of this process/view holding a device entry
with the given (anonymized) device id yields that entry's type and session. -/
def stopStreamDeviceFind (render_process_id render_view_id : Int)
    (device_id : String) : Registry → Option (MediaStreamType × Int)
  | [] => none
  | (_, r) :: rest =>
    if r.requesting_process_id = render_process_id ∧
        r.requesting_view_id = render_view_id ∧
        r.request.request_type = MEDIA_GENERATE_STREAM then
      match r.devices.find? (fun d => d.device.id == device_id) with
      | some d => some (d.device.type, d.session_id)
      | none => stopStreamDeviceFind render_process_id render_view_id
          device_id rest
    else stopStreamDeviceFind render_process_id render_view_id device_id rest

/-- `StopStreamDevice(render_process_id, render_view_id, device_id)`. -/
def stopStreamDevice (render_process_id render_view_id : Int)
    (device_id : String) (reg : Registry) : Registry × List Event :=
  match stopStreamDeviceFind render_process_id render_view_id device_id reg with
  | some (t, sid) => stopDevice t sid reg
  | none => (reg, [])

/-- The registry scan of `StopRemovedDevice`: per request compute the HMAC
of the removed device's true id under that request's resource context and
origin, collect the session ids of the request's device entries matching
that source id and type, and notify the requester (`DeviceStopped`) for each
matching entry. -/
def stopRemovedDeviceScan (env : Env) (device : MediaStreamDevice) :
    Registry → List Int × List Event
  | [] => ([], [])
  | (l, r) :: rest =>
    let source_id :=
      env.hmac r.resource_context r.request.security_origin device.id
    let hits := r.devices.filter
      (fun d => decide (d.device.id = source_id ∧ d.device.type = device.type))
    let sids := hits.map (fun d => d.session_id)
    let evs :=
      if r.requester then
        hits.map (fun d => Event.DeviceStoppedEvt r.requesting_view_id l d)
      else []
    let step := stopRemovedDeviceScan env device rest
    (sids ++ step.1, evs ++ step.2)

/-- `StopRemovedDevice(device)`: collect the affected session ids (notifying
owners), then run `StopDevice` for each collected session. -/
def stopRemovedDevice (env : Env) (device : MediaStreamDevice)
    (reg : Registry) : Registry × List Event :=
  let scan := stopRemovedDeviceScan env device reg
  scan.1.foldl
    (fun acc sid =>
      let step := stopDevice device.type sid acc.1
      (step.1, acc.2 ++ step.2))
    (reg, scan.2)

/-- `StopRemovedDevices(old_devices, new_devices)`: every old device whose id
is absent from the new list is torn down via `StopRemovedDevice`. -/
def stopRemovedDevices (env : Env) (old_devices new_devices :
    List StreamDeviceInfo) (reg : Registry) : Registry × List Event :=
  old_devices.foldl
    (fun acc old_dev =>
      if new_devices.any (fun nd => nd.device.id == old_dev.device.id) then acc
      else
        let step := stopRemovedDevice env old_dev.device acc.1
        (step.1, acc.2 ++ step.2))
    (reg, [])

/-- `FindExistingRequestedDeviceInfo`: the first registered request of the
same requesting process, view and request kind holding a device entry whose
(anonymized) id matches the HMAC of the new device's id and whose type
matches, together with that request's state for the type. -/
def findExistingRequestedDeviceInfo (env : Env) (reg : Registry)
    (new_request : DeviceRequest) (new_device : MediaStreamDevice) :
    Option (StreamDeviceInfo × MediaRequestState) :=
  let source_id := env.hmac new_request.resource_context
    new_request.request.security_origin new_device.id
  reg.findSome? (fun p =>
    if p.2.requesting_process_id = new_request.requesting_process_id ∧
        p.2.requesting_view_id = new_request.requesting_view_id ∧
        p.2.request.request_type = new_request.request.request_type then
      match p.2.devices.find?
          (fun d => decide (d.device.id = source_id ∧
            d.device.type = new_device.type)) with
      | some d => some (d, p.2.state d.device.type)
      | none => none
    else none)

/-- `TranslateDeviceIdToSourceId`: for ordinary-device requests, replace a
device's true id by its per-origin HMAC. -/
def translateDeviceIdToSourceId (env : Env) (request : DeviceRequest)
    (device : MediaStreamDevice) : MediaStreamDevice :=
  if request.request.audio_type = MEDIA_DEVICE_AUDIO_CAPTURE ∨
      request.request.video_type = MEDIA_DEVICE_VIDEO_CAPTURE then
    let source_id := env.hmac request.resource_context
      request.request.security_origin device.id
    { device with id := source_id }
  else device

/-- `FinalizeGenerateStream`: partition the request's devices into audio and
video and notify the requester with `StreamGenerated`.  (The requester of a
generate-stream request is non-null.) -/
def finalizeGenerateStream (label : String) (request : DeviceRequest) :
    List Event :=
  let audio_devices := request.devices.filter
    (fun d => decide (IsAudioMediaType d.device.type))
  let video_devices := request.devices.filter
    (fun d => decide (IsVideoMediaType d.device.type))
  [Event.StreamGenerated label audio_devices video_devices]

/-- `FinalizeRequestFailed`: notify the requester (if any) with
`StreamGenerationFailed`, run the access-check callback with an empty device
list for a `MEDIA_DEVICE_ACCESS` request, and delete the request. -/
def finalizeRequestFailed (label : String) (request : DeviceRequest)
    (reg : Registry) : Registry × List Event :=
  (deleteRequest reg label,
    (if request.requester then [Event.StreamGenerationFailed label] else []) ++
    (if request.request.request_type = MEDIA_DEVICE_ACCESS ∧ request.callback
      then [Event.AccessCallbackRun label []] else []))

/-- `FinalizeOpenDevice`: notify the requester with the front device entry.
(The requester of an open-device request is non-null; the device list is
non-empty when the request is done.) -/
def finalizeOpenDevice (label : String) (request : DeviceRequest) :
    List Event :=
  [Event.DeviceOpenedEvt label (request.devices.headD default)]

/-- `FinalizeEnumerateDevices`: with an invalid security origin the requester
receives an empty list; otherwise every stored device entry's id is rewritten
in place to its per-origin source id and the rewritten list is delivered.
(The requester of an enumeration request is non-null, `DCHECK`ed at
creation.)  Returns the rewritten request together with the notification. -/
def finalizeEnumerateDevices (env : Env) (label : String)
    (request : DeviceRequest) : DeviceRequest × List Event :=
  if ¬request.request.security_origin.valid then
    (request, [Event.DevicesEnumeratedEvt label []])
  else
    let devices' := request.devices.map
      (fun d => { d with device := translateDeviceIdToSourceId env request d.device })
    let request' := { request with devices := devices' }
    (request', [Event.DevicesEnumeratedEvt label request'.devices])

/-- `FinalizeMediaAccessRequest`: run the access-check callback (when set)
with the approved devices and delete the request. -/
def finalizeMediaAccessRequest (label : String) (request : DeviceRequest)
    (devices : List MediaStreamDevice) (reg : Registry) :
    Registry × List Event :=
  (deleteRequest reg label,
    if request.callback then [Event.AccessCallbackRun label devices] else [])

/-- `HandleRequestDone`: dispatch finalization by request kind (the `switch`
with a `NOTREACHED` default), then register the "stream started" stop hook
with the permission surface when a proxy is attached. -/
def handleRequestDone (label : String) (request : DeviceRequest) :
    List Event :=
  (match request.request.request_type with
    | MEDIA_OPEN_DEVICE => finalizeOpenDevice label request
    | MEDIA_GENERATE_STREAM => finalizeGenerateStream label request
    | _ => []) ++
  (if request.ui_proxy then [Event.OnStartedCall label] else [])

/-- The per-request body of `Opened`: the first device entry matching the
opened (type, session) is transitioned to `DONE` and, for non-tab audio,
filled with the parameters reported by the audio input device manager; if
the request is then done it is finalized.  The source `CHECK`s that the
request's state for the type is `OPENING` — a fatal programming-error fault
on violation, so violating matches are modelled as skipped. -/
def openedProcessRequest (env : Env) (stream_type : MediaStreamType)
    (capture_session_id : Int) (label : String) (reg : Registry) :
    Registry × List Event :=
  match findRequest reg label with
  | none => (reg, [])
  | some r =>
    match r.devices.findIdx? (fun d =>
        decide (d.device.type = stream_type ∧
          d.session_id = capture_session_id)) with
    | none => (reg, [])
    | some i =>
      let d := r.devices.getD i default
      if r.state d.device.type ≠ MEDIA_REQUEST_STATE_OPENING then (reg, [])
      else
        let r1 := r.SetState d.device.type MEDIA_REQUEST_STATE_DONE
        let d1 :=
          if IsAudioMediaType d.device.type ∧
              d.device.type ≠ MEDIA_TAB_AUDIO_CAPTURE then
            let info := env.openedDeviceInfo d.session_id
            let dev' :=
              { d.device with
                  input := info.device.input,
                  matched_output := info.device.matched_output }
            { d with device := dev' }
          else d
        let r2 := { r1 with devices := r1.devices.set i d1 }
        let reg1 := updateRequest reg label (fun _ => r2)
        if RequestDone r2 then (reg1, handleRequestDone label r2)
        else (reg1, [])

/-- The request loop of `Opened`. -/
def openedLoop (env : Env) (stream_type : MediaStreamType)
    (capture_session_id : Int) :
    List String → Registry → Registry × List Event
  | [], reg => (reg, [])
  | l :: rest, reg =>
    let step1 := openedProcessRequest env stream_type capture_session_id l reg
    let step2 := openedLoop env stream_type capture_session_id rest step1.1
    (step2.1, step1.2 ++ step2.2)

/-- `Opened(stream_type, capture_session_id)`: the device provider reports a
session as open; every request holding the session is updated. -/
def opened (env : Env) (stream_type : MediaStreamType)
    (capture_session_id : Int) (reg : Registry) : Registry × List Event :=
  openedLoop env stream_type capture_session_id (reg.map Prod.fst) reg

/-- The device loop of `HandleAccessRequestResponse`: process each approved
device in order, re-deriving tab-capture ids and default tab-audio
parameters, tracking whether a device of the requested audio/video kind was
seen, deduplicating against an equivalent already-open session for
generate-stream requests, and otherwise opening the device, anonymizing its
id, recording the session and marking the kind `OPENING`.  Returns the
updated registry, the two found flags and the provider calls made. -/
def harrDeviceLoop (env : Env) (label : String) :
    List MediaStreamDevice → Bool → Bool → Registry →
    Registry × Bool × Bool × List Event
  | [], found_audio, found_video, reg => (reg, found_audio, found_video, [])
  | d :: rest, found_audio, found_video, reg =>
    match findRequest reg label with
    | none => (reg, found_audio, found_video, [])
    | some r =>
      let dev0 :=
        if d.type = MEDIA_TAB_VIDEO_CAPTURE ∨
            d.type = MEDIA_TAB_AUDIO_CAPTURE then
          { d with id := r.request.tab_capture_device_id }
        else d
      let dev1 :=
        if d.type = MEDIA_TAB_AUDIO_CAPTURE then
          let sr0 := env.defaultOutputSampleRate
          let sr := if sr0 ≤ 0 ∨ 96000 < sr0 then 44100 else sr0
          { dev0 with input :=
              { sample_rate := sr, channel_layout := CHANNEL_LAYOUT_STEREO } }
        else dev0
      let found_audio' := found_audio ||
        decide (dev1.type = r.request.audio_type)
      let found_video' :=
        if dev1.type = r.request.audio_type then found_video
        else found_video || decide (dev1.type = r.request.video_type)
      let dedup : Option (StreamDeviceInfo × MediaRequestState) :=
        if r.request.request_type = MEDIA_GENERATE_STREAM then
          findExistingRequestedDeviceInfo env reg r dev1
        else none
      match dedup with
      | some ex =>
        let r1 := { r with devices := r.devices ++ [ex.1] }
        let r2 := r1.SetState ex.1.device.type ex.2
        let reg1 := updateRequest reg label (fun _ => r2)
        harrDeviceLoop env label rest found_audio' found_video' reg1
      | none =>
        let session_id : Int := (env.openSession dev1.type dev1 : Nat)
        let dev2 := translateDeviceIdToSourceId env r dev1
        let info : StreamDeviceInfo :=
          { device := dev2, session_id := session_id }
        let r1 := { r with devices := r.devices ++ [info] }
        let r2 := r1.SetState dev2.type MEDIA_REQUEST_STATE_OPENING
        let reg1 := updateRequest reg label (fun _ => r2)
        let step := harrDeviceLoop env label rest found_audio' found_video' reg1
        (step.1, step.2.1, step.2.2.1,
          Event.OpenCall dev1.type dev1 :: step.2.2.2)

/-- `HandleAccessRequestResponse(label, devices)`: the permission surface's
answer.  A vanished label is ignored; an access-check request is finalized
with the approved devices; an empty device set fails the request; otherwise
the approved devices are processed, kinds that received no device are marked
`ERROR`, and a now-done request is finalized. -/
def handleAccessRequestResponse (env : Env) (label : String)
    (devices : List MediaStreamDevice) (reg : Registry) :
    Registry × List Event :=
  match findRequest reg label with
  | none => (reg, [])
  | some r =>
    if r.request.request_type = MEDIA_DEVICE_ACCESS then
      finalizeMediaAccessRequest label r devices reg
    else if devices.isEmpty then
      finalizeRequestFailed label r reg
    else
      let step := harrDeviceLoop env label devices false false reg
      let found_audio := step.2.1
      let found_video := step.2.2.1
      let ev1 := step.2.2.2
      let reg2 :=
        if ¬found_audio ∧ IsAudioMediaType r.request.audio_type then
          updateRequest step.1 label
            (fun r' => r'.SetState r.request.audio_type
              MEDIA_REQUEST_STATE_ERROR)
        else step.1
      let reg3 :=
        if ¬found_video ∧ IsVideoMediaType r.request.video_type then
          updateRequest reg2 label
            (fun r' => r'.SetState r.request.video_type
              MEDIA_REQUEST_STATE_ERROR)
        else reg2
      match findRequest reg3 label with
      | some r3 =>
        if RequestDone r3 then (reg3, ev1 ++ handleRequestDone label r3)
        else (reg3, ev1)
      | none => (reg3, ev1)

/-- `StopMediaStreamFromBrowser(label)`: notify the requester that each
device of the stream stops, then cancel the request. -/
def stopMediaStreamFromBrowser (label : String) (reg : Registry) :
    Registry × List Event :=
  match findRequest reg label with
  | none => (reg, [])
  | some r =>
    let evs :=
      if r.requester then
        r.devices.map
          (fun d => Event.DeviceStoppedEvt r.requesting_view_id label d)
      else []
    let step := cancelRequest label reg
    (step.1, evs ++ step.2)

/-- The linear cache scan of `TranslateSourceIdToDeviceId`: the first cached
device whose id HMAC-matches the source id. -/
def translateSourceIdScan (env : Env) (rc : Nat) (security_origin : GURL)
    (source_id : String) : List StreamDeviceInfo → Option String
  | [] => none
  | d :: rest =>
    if doesMediaDeviceIDMatchHMAC env rc security_origin source_id
        d.device.id then
      some d.device.id
    else translateSourceIdScan env rc security_origin source_id rest

/-- `TranslateSourceIdToDeviceId(stream_type, rc, security_origin,
source_id)`: resolve a caller-supplied per-origin source id against the
current enumeration cache of the kind; fails when the cache is invalid or no
cached device matches. -/
def translateSourceIdToDeviceId (env : Env) (stream_type : MediaStreamType)
    (rc : Nat) (security_origin : GURL) (source_id : String)
    (st : MSMState) : Option String :=
  if ¬(cacheOf st stream_type).valid then none
  else
    translateSourceIdScan env rc security_origin source_id
      (cacheOf st stream_type).devices

/-- The video half of `TranslateRequestedSourceIdToDeviceId` (reached only
when the audio half succeeded or was not attempted). -/
def translateRequestedVideoPart (env : Env) (st : MSMState)
    (request : DeviceRequest) (ms : MediaStreamRequest) :
    Bool × DeviceRequest :=
  if ms.video_type = MEDIA_DEVICE_VIDEO_CAPTURE ∧
      ms.requested_video_device_id ≠ "" then
    match translateSourceIdToDeviceId env MEDIA_DEVICE_VIDEO_CAPTURE
        request.resource_context ms.security_origin
        ms.requested_video_device_id st with
    | none =>
      (true, { request with request :=
        { ms with requested_video_device_id := "" } })
    | some did =>
      (true, { request with request :=
        { ms with requested_video_device_id := did } })
  else (true, { request with request := ms })

/-- `TranslateRequestedSourceIdToDeviceId(request)`: resolve the requested
audio and video source ids.  An unresolvable id is cleared to empty and
treated as an optional constraint; note that a failed audio resolution
returns `true` immediately, skipping the video half (mirroring the source's
early `return true`). -/
def translateRequestedSourceIdToDeviceId (env : Env) (st : MSMState)
    (request : DeviceRequest) : Bool × DeviceRequest :=
  let ms := request.request
  if ms.audio_type = MEDIA_DEVICE_AUDIO_CAPTURE ∧
      ms.requested_audio_device_id ≠ "" then
    match translateSourceIdToDeviceId env MEDIA_DEVICE_AUDIO_CAPTURE
        request.resource_context ms.security_origin
        ms.requested_audio_device_id st with
    | none =>
      (true, { request with request :=
        { ms with requested_audio_device_id := "" } })
    | some did =>
      translateRequestedVideoPart env st request
        { ms with requested_audio_device_id := did }
  else translateRequestedVideoPart env st request ms

/-- `PostRequestToUI(label, request)`: translate the requested source ids
(the failure branch calls `FinalizeRequestFailed`, though translation in
fact always succeeds), mark the requested kinds `PENDING_APPROVAL`, attach a
permission-surface proxy (the fake and the real branch only differ in which
proxy object is created) and call its `RequestAccess`. -/
def postRequestToUI (env : Env) (label : String) (st : MSMState) :
    MSMState × List Event :=
  match findRequest st.requests_ label with
  | none => (st, [])
  | some r =>
    let tr := translateRequestedSourceIdToDeviceId env st r
    if ¬tr.1 then
      let step := finalizeRequestFailed label tr.2 st.requests_
      ({ st with requests_ := step.1 }, step.2)
    else
      let r1 := tr.2
      let audio_type := r1.request.audio_type
      let video_type := r1.request.video_type
      let r2 :=
        if IsAudioMediaType audio_type then
          r1.SetState audio_type MEDIA_REQUEST_STATE_PENDING_APPROVAL
        else r1
      let r3 :=
        if IsVideoMediaType video_type then
          r2.SetState video_type MEDIA_REQUEST_STATE_PENDING_APPROVAL
        else r2
      let r4 := { r3 with ui_proxy := true }
      ({ st with requests_ := updateRequest st.requests_ label (fun _ => r4) },
        [Event.RequestAccessCall label])

/-- `StartMonitoring`: absent a system monitor this is a no-op; otherwise,
when monitoring has not started, register for device-change notifications
and enumerate both the audio and the video devices (one ref-count increment
and one provider dispatch each). -/
def startMonitoring (env : Env) (st : MSMState) : MSMState × List Event :=
  if ¬env.systemMonitorPresent then (st, [])
  else if st.monitoring_started_ then (st, [])
  else
    let st1 := { st with monitoring_started_ := true }
    let st2 := refSet st1 MEDIA_DEVICE_AUDIO_CAPTURE
      (refGet st1 MEDIA_DEVICE_AUDIO_CAPTURE + 1)
    let st3 := refSet st2 MEDIA_DEVICE_VIDEO_CAPTURE
      (refGet st2 MEDIA_DEVICE_VIDEO_CAPTURE + 1)
    (st3, [Event.EnumerateDevicesCall MEDIA_DEVICE_AUDIO_CAPTURE,
      Event.EnumerateDevicesCall MEDIA_DEVICE_VIDEO_CAPTURE])

/-- `StopMonitoring`: deregister and clear both enumeration caches
(`ClearEnumerationCache` resets the validity flag). -/
def stopMonitoring (st : MSMState) : MSMState × List Event :=
  if st.monitoring_started_ then
    let acache := { st.audio_enumeration_cache_ with valid := false }
    let vcache := { st.video_enumeration_cache_ with valid := false }
    let st1 :=
      { st with
          monitoring_started_ := false,
          audio_enumeration_cache_ := acache,
          video_enumeration_cache_ := vcache }
    (st1, [])
  else (st, [])

/-- `EnsureDeviceMonitorStarted`. -/
def ensureDeviceMonitorStarted (env : Env) (st : MSMState) :
    MSMState × List Event :=
  if ¬st.monitoring_started_ then startMonitoring env st else (st, [])

/-- The type loop of `StartEnumeration`: for every capture type the request
descriptor names, set its state to `REQUESTED` and, when no enumeration for
that type is active, increment the ref count and dispatch the provider
enumeration. -/
def startEnumerationLoop (label : String) :
    List MediaStreamType → MSMState → MSMState × List Event
  | [], st => (st, [])
  | t :: rest, st =>
    match findRequest st.requests_ label with
    | none => startEnumerationLoop label rest st
    | some r =>
      if Requested r.request t then
        let reg1 := updateRequest st.requests_ label
          (fun r' => r'.SetState t MEDIA_REQUEST_STATE_REQUESTED)
        let st1 := { st with requests_ := reg1 }
        if refGet st1 t = 0 then
          let st2 := refSet st1 t (refGet st1 t + 1)
          let step := startEnumerationLoop label rest st2
          (step.1, Event.EnumerateDevicesCall t :: step.2)
        else startEnumerationLoop label rest st1
      else startEnumerationLoop label rest st

/-- `StartEnumeration(request)`: start monitoring on the first enumeration,
then enumerate every requested device type, deduplicating against active
enumerations via the ref counts. -/
def startEnumeration (env : Env) (label : String) (st : MSMState) :
    MSMState × List Event :=
  let step0 :=
    if ¬st.monitoring_started_ ∧ env.systemMonitorPresent then
      startMonitoring env st
    else (st, [])
  let step1 := startEnumerationLoop label allCaptureTypes step0.1
  (step1.1, step0.2 ++ step1.2)

/-- `SetupTabCaptureRequest(request)`: decode the target render process and
view from the requested device id; fail when the id does not decode or when
the requested kinds are incompatible with tab capture, else store the
decoded target into the request descriptor. -/
def setupTabCaptureRequest (env : Env) (request : DeviceRequest) :
    Option DeviceRequest :=
  let ms := request.request
  let tab_capture_device_id := env.appendWebContentsDeviceScheme
    (if ms.requested_video_device_id ≠ "" then ms.requested_video_device_id
     else ms.requested_audio_device_id)
  match env.extractTabCaptureTarget tab_capture_device_id with
  | none => none
  | some target =>
    if (ms.audio_type ≠ MEDIA_TAB_AUDIO_CAPTURE ∧
        ms.audio_type ≠ MEDIA_NO_SERVICE) ∨
       (ms.video_type ≠ MEDIA_TAB_VIDEO_CAPTURE ∧
        ms.video_type ≠ MEDIA_NO_SERVICE) then none
    else
      let ms' :=
        { ms with
            tab_capture_device_id := tab_capture_device_id,
            render_process_id := target.1,
            render_view_id := target.2 }
      some { request with request := ms' }

/-- `SetupScreenCaptureRequest(request)`: only desktop video capture alone,
or desktop video capture with loopback audio capture, is valid. -/
def setupScreenCaptureRequest (request : DeviceRequest) : Bool :=
  let ms := request.request
  if ms.video_type ≠ MEDIA_DESKTOP_VIDEO_CAPTURE ∨
      (ms.audio_type ≠ MEDIA_NO_SERVICE ∧
       ms.audio_type ≠ MEDIA_LOOPBACK_AUDIO_CAPTURE) then false
  else true

/-- `SetupRequest(label)`: the scheduled continuation of the generate /
open / access-check entry points.  A vanished label is ignored; an invalid
security origin fails the request; tab capture and screen capture are
special-cased; ordinary kinds enumerate when a needed cache is invalid and
otherwise proceed to the permission step. -/
def setupRequest (env : Env) (label : String) (st : MSMState) :
    MSMState × List Event :=
  match findRequest st.requests_ label with
  | none => (st, [])
  | some r =>
    if ¬r.request.security_origin.valid then
      let step := finalizeRequestFailed label r st.requests_
      ({ st with requests_ := step.1 }, step.2)
    else
      let audio_type := r.request.audio_type
      let video_type := r.request.video_type
      let is_web_contents_capture : Bool :=
        decide (audio_type = MEDIA_TAB_AUDIO_CAPTURE ∨
          video_type = MEDIA_TAB_VIDEO_CAPTURE)
      let tabResult :=
        if is_web_contents_capture then setupTabCaptureRequest env r
        else some r
      match tabResult with
      | none =>
        let step := finalizeRequestFailed label r st.requests_
        ({ st with requests_ := step.1 }, step.2)
      | some r1 =>
        let st1 :=
          if is_web_contents_capture then
            let reg1 := updateRequest st.requests_ label (fun _ => r1)
            { st with requests_ := reg1 }
          else st
        let is_screen_capture : Bool :=
          decide (video_type = MEDIA_DESKTOP_VIDEO_CAPTURE)
        if is_screen_capture ∧ ¬setupScreenCaptureRequest r1 then
          let step := finalizeRequestFailed label r1 st1.requests_
          ({ st1 with requests_ := step.1 }, step.2)
        else if ¬is_web_contents_capture ∧ ¬is_screen_capture ∧
            ((IsAudioMediaType audio_type ∧
              ¬st1.audio_enumeration_cache_.valid) ∨
             (IsVideoMediaType video_type ∧
              ¬st1.video_enumeration_cache_.valid)) then
          startEnumeration env label st1
        else postRequestToUI env label st1

/-- The body of `DoEnumerateDevices` once the per-kind cache has been
selected: with a valid cache the cached list is copied into the request and
delivered at once, otherwise enumeration is started. -/
def doEnumerateDevicesWith (env : Env) (label : String)
    (r : DeviceRequest) (type : MediaStreamType) (cache : EnumerationCache)
    (st : MSMState) : MSMState × List Event :=
  if cache.valid then
    let r1 := r.SetState type MEDIA_REQUEST_STATE_REQUESTED
    let r2 := { r1 with devices := cache.devices }
    let fin := finalizeEnumerateDevices env label r2
    let reg1 := updateRequest st.requests_ label (fun _ => fin.1)
    ({ st with requests_ := reg1 }, fin.2)
  else startEnumeration env label st

/-- `DoEnumerateDevices(label)`: the scheduled continuation of the
enumerate-devices entry point.  A vanished label is ignored; the cache of
the requested kind (audio when the descriptor requests microphone audio,
else video) is consulted. -/
def doEnumerateDevices (env : Env) (label : String) (st : MSMState) :
    MSMState × List Event :=
  match findRequest st.requests_ label with
  | none => (st, [])
  | some r =>
    if r.request.audio_type = MEDIA_DEVICE_AUDIO_CAPTURE then
      doEnumerateDevicesWith env label r MEDIA_DEVICE_AUDIO_CAPTURE
        st.audio_enumeration_cache_ st
    else
      doEnumerateDevicesWith env label r MEDIA_DEVICE_VIDEO_CAPTURE
        st.video_enumeration_cache_ st

/-- The delivery loop of `DevicesEnumerated` over the labels collected in
the first pass: a pure enumeration request receives the fresh list when it
changed and a requester is attached; any other request waits while some
requested kind is still `REQUESTED` and otherwise proceeds to the
permission step. -/
def devicesEnumeratedSecondLoop (env : Env) (stream_type : MediaStreamType)
    (devices : List StreamDeviceInfo) (need_update_clients : Bool) :
    List String → MSMState → MSMState × List Event
  | [], st => (st, [])
  | l :: rest, st =>
    match findRequest st.requests_ l with
    | none =>
      devicesEnumeratedSecondLoop env stream_type devices need_update_clients
        rest st
    | some r =>
      match r.request.request_type with
      | MEDIA_ENUMERATE_DEVICES =>
        if need_update_clients ∧ r.requester then
          let r1 := { r with devices := devices }
          let fin := finalizeEnumerateDevices env l r1
          let reg1 := updateRequest st.requests_ l (fun _ => fin.1)
          let st1 := { st with requests_ := reg1 }
          let step := devicesEnumeratedSecondLoop env stream_type devices
            need_update_clients rest st1
          (step.1, fin.2 ++ step.2)
        else
          devicesEnumeratedSecondLoop env stream_type devices
            need_update_clients rest st
      | _ =>
        if r.state r.request.audio_type = MEDIA_REQUEST_STATE_REQUESTED ∨
            r.state r.request.video_type = MEDIA_REQUEST_STATE_REQUESTED then
          devicesEnumeratedSecondLoop env stream_type devices
            need_update_clients rest st
        else
          let step1 := postRequestToUI env l st
          let step2 := devicesEnumeratedSecondLoop env stream_type devices
            need_update_clients rest step1.1
          (step2.1, step1.2 ++ step2.2)

/-- `DevicesEnumerated(stream_type, devices)`: the provider's enumeration
result.  When the list content changed (`StreamDeviceInfo::IsEqual`
element comparison together with the size check amounts to list equality),
sessions of removed devices are force-closed, the cache is replaced (valid
only when non-empty) and observers are notified; then every request waiting
on this kind is advanced and served; finally the kind's active-enumeration
ref count is decremented. -/
def DevicesEnumerated (env : Env) (stream_type : MediaStreamType)
    (devices : List StreamDeviceInfo) (st : MSMState) :
    MSMState × List Event :=
  let cache := cacheOf st stream_type
  let need_update_clients : Bool :=
    !cache.valid || decide (devices ≠ cache.devices)
  let stepA :=
    if need_update_clients then
      let srd := stopRemovedDevices env cache.devices devices st.requests_
      let st1 := { st with requests_ := srd.1 }
      let st2 := setCacheOf st1 stream_type
        { devices := devices, valid := !devices.isEmpty }
      (st2, srd.2)
    else (st, [])
  let st2 := stepA.1
  let ev2 :=
    if need_update_clients ∧ st2.monitoring_started_ then
      [Event.DevicesChangedNotice stream_type (devices.map (·.device))]
    else []
  let labels := (st2.requests_.filter (fun p =>
    decide (p.2.state stream_type = MEDIA_REQUEST_STATE_REQUESTED ∧
      Requested p.2.request stream_type))).map Prod.fst
  let reg2 := st2.requests_.map (fun p =>
    if p.2.state stream_type = MEDIA_REQUEST_STATE_REQUESTED ∧
        Requested p.2.request stream_type ∧
        p.2.request.request_type ≠ MEDIA_ENUMERATE_DEVICES then
      (p.1, p.2.SetState stream_type MEDIA_REQUEST_STATE_PENDING_APPROVAL)
    else p)
  let st3 := { st2 with requests_ := reg2 }
  let stepB := devicesEnumeratedSecondLoop env stream_type devices
    need_update_clients labels st3
  let st4 := refSet stepB.1 stream_type (refGet stepB.1 stream_type - 1)
  (st4, stepA.2 ++ ev2 ++ stepB.2)

/-- The `base::SystemMonitor` device change categories the hot-plug callback
distinguishes. -/
inductive SystemMonitorDeviceType where
  | DEVTYPE_AUDIO_CAPTURE
  | DEVTYPE_VIDEO_CAPTURE
  | DEVTYPE_UNKNOWN
deriving DecidableEq

/-- `OnDevicesChanged(device_type)`: a hot-plug notification triggers an
unconditional enumeration of the affected kind (even if one is in flight,
since in-flight ones may predate the change). -/
def onDevicesChanged (device_type : SystemMonitorDeviceType)
    (st : MSMState) : MSMState × List Event :=
  match device_type with
  | SystemMonitorDeviceType.DEVTYPE_AUDIO_CAPTURE =>
    (refSet st MEDIA_DEVICE_AUDIO_CAPTURE
      (refGet st MEDIA_DEVICE_AUDIO_CAPTURE + 1),
      [Event.EnumerateDevicesCall MEDIA_DEVICE_AUDIO_CAPTURE])
  | SystemMonitorDeviceType.DEVTYPE_VIDEO_CAPTURE =>
    (refSet st MEDIA_DEVICE_VIDEO_CAPTURE
      (refGet st MEDIA_DEVICE_VIDEO_CAPTURE + 1),
      [Event.EnumerateDevicesCall MEDIA_DEVICE_VIDEO_CAPTURE])
  | SystemMonitorDeviceType.DEVTYPE_UNKNOWN => (st, [])

/-- `AddRequest(request)`: register the request under a fresh unique label
(generated with collision retry; here the fresh label is supplied and its
freshness is a side condition of the operation). -/
def addRequest (label : String) (request : DeviceRequest) (st : MSMState) :
    MSMState :=
  { st with requests_ := st.requests_ ++ [(label, request)] }

/-- `MakeMediaAccessRequest(...)`: create a `MEDIA_DEVICE_ACCESS` request
with a null requester and a null resource context, store the completion
callback, register it, and schedule `SetupRequest` (the continuation runs as
a separate operation). -/
def makeMediaAccessRequest (render_process_id render_view_id
    page_request_id : Int) (options : StreamOptions) (security_origin : GURL)
    (has_callback : Bool) (label : String) (st : MSMState) :
    MSMState × List Event :=
  let stream_request : MediaStreamRequest :=
    { render_process_id := render_process_id
      render_view_id := render_view_id
      page_request_id := page_request_id
      security_origin := security_origin
      request_type := MEDIA_DEVICE_ACCESS
      requested_audio_device_id := ""
      requested_video_device_id := ""
      audio_type := options.audio_type
      video_type := options.video_type }
  let request := DeviceRequest.make false stream_request render_process_id
    render_view_id 0
  (addRequest label { request with callback := has_callback } st, [])

/-- `GenerateStream(...)`: create a `MEDIA_GENERATE_STREAM` request,
register it and schedule `SetupRequest`. -/
def generateStream (requester : Bool) (render_process_id render_view_id : Int)
    (rc : Nat) (page_request_id : Int) (options : StreamOptions)
    (security_origin : GURL) (label : String) (st : MSMState) :
    MSMState × List Event :=
  let stream_request : MediaStreamRequest :=
    { render_process_id := render_process_id
      render_view_id := render_view_id
      page_request_id := page_request_id
      security_origin := security_origin
      request_type := MEDIA_GENERATE_STREAM
      requested_audio_device_id := options.audio_device_id
      requested_video_device_id := options.video_device_id
      audio_type := options.audio_type
      video_type := options.video_type }
  let request := DeviceRequest.make requester stream_request
    render_process_id render_view_id rc
  (addRequest label request st, [])

/-- `OpenDevice(...)`: single-device variant; the `NOTREACHED` branch for a
non-capture type creates nothing. -/
def openDevice (requester : Bool) (render_process_id render_view_id : Int)
    (rc : Nat) (page_request_id : Int) (device_id : String)
    (type : MediaStreamType) (security_origin : GURL) (label : String)
    (st : MSMState) : MSMState × List Event :=
  let options : Option StreamOptions :=
    if IsAudioMediaType type then
      some { audio_type := type, audio_device_id := device_id }
    else if IsVideoMediaType type then
      some { video_type := type, video_device_id := device_id }
    else none
  match options with
  | none => (st, [])
  | some opts =>
    let stream_request : MediaStreamRequest :=
      { render_process_id := render_process_id
        render_view_id := render_view_id
        page_request_id := page_request_id
        security_origin := security_origin
        request_type := MEDIA_OPEN_DEVICE
        requested_audio_device_id := opts.audio_device_id
        requested_video_device_id := opts.video_device_id
        audio_type := opts.audio_type
        video_type := opts.video_type }
    let request := DeviceRequest.make requester stream_request
      render_process_id render_view_id rc
    (addRequest label request st, [])

/-- `EnumerateDevices(...)`: list-only variant (requester non-null,
`DCHECK`ed); the `NOTREACHED` branch for a non-device type creates
nothing. -/
def enumerateDevices (requester : Bool) (render_process_id
    render_view_id : Int) (rc : Nat) (page_request_id : Int)
    (type : MediaStreamType) (security_origin : GURL) (label : String)
    (st : MSMState) : MSMState × List Event :=
  let options : Option StreamOptions :=
    if type = MEDIA_DEVICE_AUDIO_CAPTURE then some { audio_type := type }
    else if type = MEDIA_DEVICE_VIDEO_CAPTURE then some { video_type := type }
    else none
  match options with
  | none => (st, [])
  | some opts =>
    let stream_request : MediaStreamRequest :=
      { render_process_id := render_process_id
        render_view_id := render_view_id
        page_request_id := page_request_id
        security_origin := security_origin
        request_type := MEDIA_ENUMERATE_DEVICES
        requested_audio_device_id := ""
        requested_video_device_id := ""
        audio_type := opts.audio_type
        video_type := opts.video_type }
    let request := DeviceRequest.make requester stream_request
      render_process_id render_view_id rc
    (addRequest label request st, [])

/-!  The operation alphabet of the orchestrator: the client-facing entry
points, the continuations they schedule, and the asynchronous callbacks from
the device providers, the permission surface and the hot-plug notifier.  All
of them run serialized on the single control (IO) thread; a trace is a
sequence of these operations. -/
inductive MSMOp where
  | opGenerateStream (requester : Bool) (render_process_id
      render_view_id : Int) (rc : Nat) (page_request_id : Int)
      (options : StreamOptions) (security_origin : GURL) (label : String)
  | opOpenDevice (requester : Bool) (render_process_id
      render_view_id : Int) (rc : Nat) (page_request_id : Int)
      (device_id : String) (type : MediaStreamType) (security_origin : GURL)
      (label : String)
  | opEnumerateDevices (requester : Bool) (render_process_id
      render_view_id : Int) (rc : Nat) (page_request_id : Int)
      (type : MediaStreamType) (security_origin : GURL) (label : String)
  | opMakeMediaAccessRequest (render_process_id render_view_id
      page_request_id : Int) (options : StreamOptions)
      (security_origin : GURL) (has_callback : Bool) (label : String)
  | opSetupRequest (label : String)
  | opDoEnumerateDevices (label : String)
  | opCancelRequest (label : String)
  | opCancelAllRequests (render_process_id : Int)
  | opStopStreamDevice (render_process_id render_view_id : Int)
      (device_id : String)
  | opStopMediaStreamFromBrowser (label : String)
  | opHandleAccessRequestResponse (label : String)
      (devices : List MediaStreamDevice)
  | opOpened (stream_type : MediaStreamType) (capture_session_id : Int)
  | opDevicesEnumerated (stream_type : MediaStreamType)
      (devices : List StreamDeviceInfo)
  | opOnDevicesChanged (device_type : SystemMonitorDeviceType)
  | opEnsureDeviceMonitorStarted
  | opStopMonitoring

open MSMOp

/-- Lift a registry-level function to the manager state. -/
def liftReg (f : Registry → Registry × List Event) (st : MSMState) :
    MSMState × List Event :=
  let step := f st.requests_
  ({ st with requests_ := step.1 }, step.2)

/-- One operation of the orchestrator, as a function on the manager state. -/
def msmStep (env : Env) (op : MSMOp) (st : MSMState) :
    MSMState × List Event :=
  match op with
  | opGenerateStream requester pid vid rc prid options origin label =>
    generateStream requester pid vid rc prid options origin label st
  | opOpenDevice requester pid vid rc prid device_id type origin label =>
    openDevice requester pid vid rc prid device_id type origin label st
  | opEnumerateDevices requester pid vid rc prid type origin label =>
    enumerateDevices requester pid vid rc prid type origin label st
  | opMakeMediaAccessRequest pid vid prid options origin has_callback label =>
    makeMediaAccessRequest pid vid prid options origin has_callback label st
  | opSetupRequest label => setupRequest env label st
  | opDoEnumerateDevices label => doEnumerateDevices env label st
  | opCancelRequest label => liftReg (cancelRequest label) st
  | opCancelAllRequests pid => liftReg (cancelAllRequests pid) st
  | opStopStreamDevice pid vid device_id =>
    liftReg (stopStreamDevice pid vid device_id) st
  | opStopMediaStreamFromBrowser label =>
    liftReg (stopMediaStreamFromBrowser label) st
  | opHandleAccessRequestResponse label devices =>
    liftReg (handleAccessRequestResponse env label devices) st
  | opOpened stream_type capture_session_id =>
    liftReg (opened env stream_type capture_session_id) st
  | opDevicesEnumerated stream_type devices =>
    DevicesEnumerated env stream_type devices st
  | opOnDevicesChanged device_type => onDevicesChanged device_type st
  | opEnsureDeviceMonitorStarted => ensureDeviceMonitorStarted env st
  | opStopMonitoring => stopMonitoring st

/-- How many `EnumerateDevices` provider dispatches for kind `t` an effect
list contains. -/
def enumCallCount (t : MediaStreamType) (evs : List Event) : Nat :=
  evs.countP (fun e => e == Event.EnumerateDevicesCall t)

/-- Environment conditions under which an operation can actually occur,
reflecting the system's scheduling discipline rather than the function
bodies themselves:

* entry points register under a fresh label (`AddRequest` retries until the
  random label is unused);
* `SetupRequest` is the continuation posted only by the generate / open /
  access-check entry points, `DoEnumerateDevices` only by the
  enumerate-devices entry point, and labels are never reused;
* the permission surface answers with approved devices drawn from the kinds
  the request asked for (spec section 4.7: an approved subset, with any
  requested kind that received no matching device marked as error) and
  approved devices are concrete capture devices;
* a `DevicesEnumerated` callback is the completion of a previously
  dispatched provider enumeration of the same kind (`infl` counts dispatches
  not yet completed), the reported descriptors carry that kind, and
  enumerated descriptors carry no open session
  (`StreamDeviceInfo::kNoId = -1`; sessions exist only after `Open`). -/
def OpAllowed (op : MSMOp) (st : MSMState)
    (infl : MediaStreamType → Nat) : Prop :=
  match op with
  | opGenerateStream _ _ _ _ _ _ _ label =>
    findRequest st.requests_ label = none
  | opOpenDevice _ _ _ _ _ _ _ _ label =>
    findRequest st.requests_ label = none
  | opEnumerateDevices _ _ _ _ _ _ _ label =>
    findRequest st.requests_ label = none
  | opMakeMediaAccessRequest _ _ _ _ _ _ label =>
    findRequest st.requests_ label = none
  | opSetupRequest label =>
    ∀ r, findRequest st.requests_ label = some r →
      r.request.request_type ≠ MEDIA_ENUMERATE_DEVICES
  | opDoEnumerateDevices label =>
    ∀ r, findRequest st.requests_ label = some r →
      r.request.request_type = MEDIA_ENUMERATE_DEVICES
  | opHandleAccessRequestResponse label devices =>
    ∀ r, findRequest st.requests_ label = some r →
      ∀ d ∈ devices,
        (d.type = r.request.audio_type ∨ d.type = r.request.video_type) ∧
        (IsAudioMediaType d.type ∨ IsVideoMediaType d.type)
  | opDevicesEnumerated stream_type devices =>
    0 < infl stream_type ∧
      ∀ d ∈ devices, d.device.type = stream_type ∧ d.session_id = -1
  | _ => True

/-- Ghost accounting of in-flight provider enumerations across one step:
every dispatch in the step's effects adds one; a `DevicesEnumerated`
callback consumes the dispatch it completes. -/
def updateInflight (op : MSMOp) (evs : List Event)
    (infl : MediaStreamType → Nat) : MediaStreamType → Nat :=
  fun t =>
    (match op with
      | opDevicesEnumerated stream_type _ =>
        if t = stream_type then infl t - 1 else infl t
      | _ => infl t) + enumCallCount t evs

/-- The states reachable from the freshly constructed manager by any
sequence of allowed operations, together with the ghost in-flight
enumeration count. -/
inductive Reaches (env : Env) : MSMState → (MediaStreamType → Nat) → Prop
  | init : Reaches env msmInitial (fun _ => 0)
  | step {st infl} (op : MSMOp) :
      Reaches env st infl →
      OpAllowed op st infl →
      Reaches env (msmStep env op st).1
        (updateInflight op (msmStep env op st).2 infl)

/-! Concrete fixtures used by witnesses and counterexamples. -/

/-- A concrete environment: the HMAC oracle tags its input with the origin
(injective in the device id for a fixed origin), tab-capture ids never
decode, `Open` always allocates session 7. -/
def wEnv : Env :=
  { hmac := fun _ o id => "h:" ++ o.url ++ ":" ++ id
    appendWebContentsDeviceScheme := fun s => "wc://" ++ s
    extractTabCaptureTarget := fun _ => none
    openSession := fun _ _ => 7
    openedDeviceInfo := fun _ => default
    defaultOutputSampleRate := 44100
    systemMonitorPresent := true }

/-- A concrete valid security origin. -/
def wOrigin : GURL := { url := "o", valid := true }

/-- A generate-stream request for microphone audio plus camera video, in the
state `PostRequestToUI` leaves it in (both kinds pending approval, a
permission-surface proxy attached). -/
def wPendingReq : DeviceRequest :=
  { requester := true
    request :=
      { security_origin := wOrigin
        request_type := MEDIA_GENERATE_STREAM
        audio_type := MEDIA_DEVICE_AUDIO_CAPTURE
        video_type := MEDIA_DEVICE_VIDEO_CAPTURE }
    requesting_process_id := 1
    requesting_view_id := 2
    resource_context := 3
    ui_proxy := true
    state_ := [MEDIA_REQUEST_STATE_NOT_REQUESTED,
      MEDIA_REQUEST_STATE_PENDING_APPROVAL,
      MEDIA_REQUEST_STATE_PENDING_APPROVAL,
      MEDIA_REQUEST_STATE_NOT_REQUESTED, MEDIA_REQUEST_STATE_NOT_REQUESTED,
      MEDIA_REQUEST_STATE_NOT_REQUESTED,
      MEDIA_REQUEST_STATE_NOT_REQUESTED] }

/-- A concrete camera device as approved by the permission surface. -/
def wVideoDevice : MediaStreamDevice :=
  { type := MEDIA_DEVICE_VIDEO_CAPTURE, id := "cam" }

/-- The session entry the orchestrator records for `wVideoDevice`: id
anonymized under `wEnv`/`wOrigin`, session 7 allocated by the provider. -/
def wOpenedVideoInfo : StreamDeviceInfo :=
  { device := { type := MEDIA_DEVICE_VIDEO_CAPTURE, id := "h:o:cam" }
    session_id := 7 }

/-- C1.  `RequestDone(request)` is true iff, for each media kind the request
descriptor actually requested (audio and/or video, per
`IsAudioMediaType`/`IsVideoMediaType` of the descriptor slots), that kind's
state is `DONE` or `ERROR`, never-requested kinds counting vacuously as
done.  Consequently (second and third conjunct, evaluated on a concrete
audio-plus-video request): when the permission surface approves only the
video device, `HandleAccessRequestResponse` marks audio `ERROR` and opens
only the video device, and once `Opened` moves video to `DONE` the request
finalizes, delivering the partial result `StreamGenerated(label, [],
[video])`. -/
theorem c1_request_done_characterization :
    (∀ request : DeviceRequest,
      RequestDone request = true ↔
        ((IsAudioMediaType request.request.audio_type →
            request.state request.request.audio_type =
              MEDIA_REQUEST_STATE_DONE ∨
            request.state request.request.audio_type =
              MEDIA_REQUEST_STATE_ERROR) ∧
         (IsVideoMediaType request.request.video_type →
            request.state request.request.video_type =
              MEDIA_REQUEST_STATE_DONE ∨
            request.state request.request.video_type =
              MEDIA_REQUEST_STATE_ERROR))) ∧
    (handleAccessRequestResponse wEnv "L" [wVideoDevice]
        [("L", wPendingReq)]).2 =
      [Event.OpenCall MEDIA_DEVICE_VIDEO_CAPTURE wVideoDevice] ∧
    (opened wEnv MEDIA_DEVICE_VIDEO_CAPTURE 7
        (handleAccessRequestResponse wEnv "L" [wVideoDevice]
          [("L", wPendingReq)]).1).2 =
      [Event.StreamGenerated "L" [] [wOpenedVideoInfo],
       Event.OnStartedCall "L"] := by
  refine ⟨fun request => ?_, by decide, by decide⟩
  simp only [RequestDone]
  split_ifs with h1 h2
  · exact ⟨fun _ => ⟨fun ha => h1.resolve_left (not_not_intro ha),
      fun hv => h2.resolve_left (not_not_intro hv)⟩, fun _ => rfl⟩
  · simp only [false_iff]
    tauto
  · simp only [false_iff]
    tauto

/-- C2.  An empty device set from the permission surface fails the whole
request: a generate-stream or open-device request gets exactly a
`StreamGenerationFailed` notification and is deleted, with no provider
`Open` call (the effect list is exactly the failure notification); an
access-check request gets exactly its completion callback run with the
empty device list and is deleted. -/
theorem c2_empty_response_fails_request (env : Env) (reg : Registry)
    (label : String) (r : DeviceRequest)
    (hfind : findRequest reg label = some r) :
    ((r.request.request_type = MEDIA_GENERATE_STREAM ∨
        r.request.request_type = MEDIA_OPEN_DEVICE) →
      r.requester = true →
      handleAccessRequestResponse env label [] reg =
        (deleteRequest reg label, [Event.StreamGenerationFailed label])) ∧
    (r.request.request_type = MEDIA_DEVICE_ACCESS →
      r.callback = true →
      handleAccessRequestResponse env label [] reg =
        (deleteRequest reg label, [Event.AccessCallbackRun label []])) := by
  constructor
  · rintro (h | h) hreq <;>
      simp [handleAccessRequestResponse, hfind, h, finalizeRequestFailed, hreq]
  · intro h hcb
    simp [handleAccessRequestResponse, hfind, h, finalizeMediaAccessRequest,
      hcb]

/-- Witness for C2 at a concrete input (a registered generate-stream
request denied by the permission surface). -/
theorem c2_empty_response_fails_request_witness :
    handleAccessRequestResponse wEnv "L" [] [("L", wPendingReq)] =
      (deleteRequest [("L", wPendingReq)] "L",
        [Event.StreamGenerationFailed "L"]) :=
  (c2_empty_response_fails_request wEnv [("L", wPendingReq)] "L" wPendingReq
    (by decide)).1 (Or.inl (by decide)) (by decide)

/-- C3.  Once a label is no longer in the registry, each later orchestration
callback carrying it — the `SetupRequest` continuation, the
`DoEnumerateDevices` continuation, the permission-surface response
`HandleAccessRequestResponse`, and the browser-initiated stop — looks the
label up, finds nothing, and returns the state completely unchanged (same
registry, request states, enumeration caches and ref counts) with no
external effect. -/
theorem c3_deleted_label_callbacks_noop (env : Env) (st : MSMState)
    (label : String) (devices : List MediaStreamDevice)
    (hfind : findRequest st.requests_ label = none) :
    setupRequest env label st = (st, []) ∧
    doEnumerateDevices env label st = (st, []) ∧
    handleAccessRequestResponse env label devices st.requests_ =
      (st.requests_, []) ∧
    stopMediaStreamFromBrowser label st.requests_ = (st.requests_, []) := by
  refine ⟨?_, ?_, ?_, ?_⟩
  · simp [setupRequest, hfind]
  · simp [doEnumerateDevices, hfind]
  · simp [handleAccessRequestResponse, hfind]
  · simp [stopMediaStreamFromBrowser, hfind]

/-- Witness for C3 at a concrete input (the empty registry and an arbitrary
label). -/
theorem c3_deleted_label_callbacks_noop_witness :
    setupRequest wEnv "gone" msmInitial = (msmInitial, []) ∧
    doEnumerateDevices wEnv "gone" msmInitial = (msmInitial, []) ∧
    handleAccessRequestResponse wEnv "gone" [] msmInitial.requests_ =
      (msmInitial.requests_, []) ∧
    stopMediaStreamFromBrowser "gone" msmInitial.requests_ =
      (msmInitial.requests_, []) :=
  c3_deleted_label_callbacks_noop wEnv msmInitial "gone" [] rfl

/-! Registry bookkeeping lemmas. -/

theorem findRequest_updateRequest (reg : Registry) (label : String)
    (f : DeviceRequest → DeviceRequest) :
    findRequest (updateRequest reg label f) label =
      (findRequest reg label).map f := by
  induction reg with
  | nil => rfl
  | cons p rest ih =>
    by_cases h : p.1 = label
    · simp [updateRequest, findRequest, h]
    · simpa [updateRequest, findRequest, h] using ih

theorem findRequest_updateRequest_ne (reg : Registry) (label l : String)
    (f : DeviceRequest → DeviceRequest) (hne : l ≠ label) :
    findRequest (updateRequest reg label f) l = findRequest reg l := by
  induction reg with
  | nil => rfl
  | cons p rest ih =>
    show (if (if p.1 = label then (p.1, f p.2) else p).1 = l
        then some (if p.1 = label then (p.1, f p.2) else p).2
        else findRequest (updateRequest rest label f) l) =
      (if p.1 = l then some p.2 else findRequest rest l)
    split_ifs <;> simp_all

theorem findRequest_updateRequest_isSome (reg : Registry) (label l : String)
    (f : DeviceRequest → DeviceRequest) :
    (findRequest (updateRequest reg label f) l).isSome =
      (findRequest reg l).isSome := by
  by_cases h : l = label
  · subst h
    rw [findRequest_updateRequest]
    cases findRequest reg l <;> rfl
  · rw [findRequest_updateRequest_ne reg label l f h]

theorem findRequest_deleteRequest (reg : Registry) (label : String) :
    findRequest (deleteRequest reg label) label = none := by
  induction reg with
  | nil => rfl
  | cons p rest ih =>
    by_cases h : p.1 = label <;> simp [deleteRequest, findRequest, h, ih]

theorem findRequest_deleteRequest_ne (reg : Registry) (label l : String)
    (hne : l ≠ label) :
    findRequest (deleteRequest reg label) l = findRequest reg l := by
  induction reg with
  | nil => rfl
  | cons p rest ih =>
    show findRequest (if p.1 = label then deleteRequest rest label
        else p :: deleteRequest rest label) l =
      (if p.1 = l then some p.2 else findRequest rest l)
    split_ifs <;> simp_all [findRequest]

/-! Facts shared by the source-id translation claims: the translation never
reports failure. -/

theorem translateRequestedVideoPart_fst (env : Env) (st : MSMState)
    (request : DeviceRequest) (ms : MediaStreamRequest) :
    (translateRequestedVideoPart env st request ms).1 = true := by
  unfold translateRequestedVideoPart
  split
  · split <;> rfl
  · rfl

theorem translateRequestedSourceIdToDeviceId_fst (env : Env) (st : MSMState)
    (request : DeviceRequest) :
    (translateRequestedSourceIdToDeviceId env st request).1 = true := by
  simp only [translateRequestedSourceIdToDeviceId]
  split
  · split
    · rfl
    · exact translateRequestedVideoPart_fst env st request _
  · exact translateRequestedVideoPart_fst env st request _

/-- `PostRequestToUI` on a registered label: exactly a `RequestAccess` call
into the permission surface, the label still registered (the failure branch
is unreachable since translation always succeeds). -/
theorem postRequestToUI_spec (env : Env) (label : String) (st : MSMState)
    (r : DeviceRequest) (hfind : findRequest st.requests_ label = some r) :
    (postRequestToUI env label st).2 = [Event.RequestAccessCall label] ∧
    (findRequest (postRequestToUI env label st).1.requests_ label).isSome =
      true := by
  have ht := translateRequestedSourceIdToDeviceId_fst env st r
  constructor
  · simp [postRequestToUI, hfind, ht]
  · simp [postRequestToUI, hfind, ht, findRequest_updateRequest_isSome, hfind]

/-! The enumeration path emits only provider enumeration dispatches and
keeps every registered label registered. -/

theorem startMonitoring_events (env : Env) (st : MSMState) :
    ∀ e ∈ (startMonitoring env st).2, ∃ t, e = Event.EnumerateDevicesCall t := by
  unfold startMonitoring
  split_ifs <;> intro e he <;> simp at he <;>
    (rcases he with rfl | rfl <;> exact ⟨_, rfl⟩)

theorem startMonitoring_requests (env : Env) (st : MSMState) :
    (startMonitoring env st).1.requests_ = st.requests_ := by
  unfold startMonitoring
  split_ifs <;> rfl

theorem startEnumerationLoop_events (label : String)
    (ts : List MediaStreamType) (st : MSMState) :
    ∀ e ∈ (startEnumerationLoop label ts st).2,
      ∃ t, e = Event.EnumerateDevicesCall t := by
  induction ts generalizing st with
  | nil => simp [startEnumerationLoop]
  | cons t rest ih =>
    intro e he
    simp only [startEnumerationLoop] at he
    split at he
    · exact ih st e he
    · split at he
      · split at he
        · rcases List.mem_cons.mp he with h' | h'
          · exact ⟨t, h'⟩
          · exact ih _ e h'
        · exact ih _ e he
      · exact ih _ e he

theorem startEnumerationLoop_find_isSome (label : String)
    (ts : List MediaStreamType) (st : MSMState) (l : String) :
    (findRequest (startEnumerationLoop label ts st).1.requests_ l).isSome =
      (findRequest st.requests_ l).isSome := by
  induction ts generalizing st with
  | nil => rfl
  | cons t rest ih =>
    simp only [startEnumerationLoop]
    split
    · exact ih st
    · split
      · split
        · rw [ih]
          exact findRequest_updateRequest_isSome st.requests_ label l
            (fun r' => r'.SetState t MEDIA_REQUEST_STATE_REQUESTED)
        · rw [ih]
          exact findRequest_updateRequest_isSome st.requests_ label l
            (fun r' => r'.SetState t MEDIA_REQUEST_STATE_REQUESTED)
      · exact ih st

theorem startEnumeration_events (env : Env) (label : String) (st : MSMState) :
    ∀ e ∈ (startEnumeration env label st).2,
      ∃ t, e = Event.EnumerateDevicesCall t := by
  intro e he
  unfold startEnumeration at he
  rcases List.mem_append.mp he with h | h
  · refine startMonitoring_events env st e ?_
    revert h
    split <;> simp
  · revert h
    split
    · exact fun h => startEnumerationLoop_events label _ _ e h
    · exact fun h => startEnumerationLoop_events label _ _ e h

theorem startEnumeration_find_isSome (env : Env) (label : String)
    (st : MSMState) (l : String) :
    (findRequest (startEnumeration env label st).1.requests_ l).isSome =
      (findRequest st.requests_ l).isSome := by
  unfold startEnumeration
  split
  · rw [startEnumerationLoop_find_isSome, startMonitoring_requests]
  · rw [startEnumerationLoop_find_isSome]

/-! The possible outcomes of `SetupRequest` on a registered request with a
valid security origin, by requested kind combination. -/

theorem setupTabCaptureRequest_none_of_video (env : Env) (r : DeviceRequest)
    (h1 : r.request.video_type ≠ MEDIA_TAB_VIDEO_CAPTURE)
    (h2 : r.request.video_type ≠ MEDIA_NO_SERVICE) :
    setupTabCaptureRequest env r = none := by
  simp only [setupTabCaptureRequest]
  cases env.extractTabCaptureTarget _ with
  | none => rfl
  | some tgt => simp [h1, h2]

theorem setupTabCaptureRequest_none_of_audio (env : Env) (r : DeviceRequest)
    (h1 : r.request.audio_type ≠ MEDIA_TAB_AUDIO_CAPTURE)
    (h2 : r.request.audio_type ≠ MEDIA_NO_SERVICE) :
    setupTabCaptureRequest env r = none := by
  simp only [setupTabCaptureRequest]
  cases env.extractTabCaptureTarget _ with
  | none => rfl
  | some tgt => simp [h1, h2]

/-- Desktop video with no audio or loopback audio: the screen-capture check
passes and setup goes straight to the permission step (no enumeration). -/
theorem setupRequest_desktop_pass (env : Env) (st : MSMState) (label : String)
    (r : DeviceRequest) (hfind : findRequest st.requests_ label = some r)
    (horigin : r.request.security_origin.valid = true)
    (hv : r.request.video_type = MEDIA_DESKTOP_VIDEO_CAPTURE)
    (ha : r.request.audio_type = MEDIA_NO_SERVICE ∨
      r.request.audio_type = MEDIA_LOOPBACK_AUDIO_CAPTURE) :
    setupRequest env label st = postRequestToUI env label st := by
  rcases ha with ha | ha <;>
    simp [setupRequest, hfind, horigin, hv, ha, setupScreenCaptureRequest]

/-- A request rejected by `SetupRequest` ends as `FinalizeRequestFailed`
does: failure notification / access-check callback only, request deleted. -/
theorem setupRequest_screen_reject (env : Env) (st : MSMState)
    (label : String) (r : DeviceRequest)
    (hfind : findRequest st.requests_ label = some r)
    (horigin : r.request.security_origin.valid = true)
    (hv : r.request.video_type = MEDIA_DESKTOP_VIDEO_CAPTURE)
    (ha1 : r.request.audio_type ≠ MEDIA_NO_SERVICE)
    (ha2 : r.request.audio_type ≠ MEDIA_LOOPBACK_AUDIO_CAPTURE)
    (hta : r.request.audio_type ≠ MEDIA_TAB_AUDIO_CAPTURE) :
    (setupRequest env label st).2 =
      (if r.requester = true then [Event.StreamGenerationFailed label]
       else []) ++
      (if r.request.request_type = MEDIA_DEVICE_ACCESS ∧ r.callback = true
       then [Event.AccessCallbackRun label []] else []) ∧
    findRequest (setupRequest env label st).1.requests_ label = none := by
  constructor <;>
    simp [setupRequest, hfind, horigin, hv, ha1, ha2, hta,
      setupScreenCaptureRequest, finalizeRequestFailed,
      findRequest_deleteRequest]

/-- A tab-capture-flagged request whose tab setup fails is likewise
rejected. -/
theorem setupRequest_tab_reject (env : Env) (st : MSMState)
    (label : String) (r : DeviceRequest)
    (hfind : findRequest st.requests_ label = some r)
    (horigin : r.request.security_origin.valid = true)
    (hwc : r.request.audio_type = MEDIA_TAB_AUDIO_CAPTURE ∨
      r.request.video_type = MEDIA_TAB_VIDEO_CAPTURE)
    (htab : setupTabCaptureRequest env r = none) :
    (setupRequest env label st).2 =
      (if r.requester = true then [Event.StreamGenerationFailed label]
       else []) ++
      (if r.request.request_type = MEDIA_DEVICE_ACCESS ∧ r.callback = true
       then [Event.AccessCallbackRun label []] else []) ∧
    findRequest (setupRequest env label st).1.requests_ label = none := by
  constructor <;>
    rcases hwc with hwc | hwc <;>
      simp [setupRequest, hfind, horigin, hwc, htab, finalizeRequestFailed,
        findRequest_deleteRequest]

/-- An ordinary (non-tab, non-screen) request proceeds to enumeration or to
the permission step. -/
theorem setupRequest_ordinary_path (env : Env) (st : MSMState)
    (label : String) (r : DeviceRequest)
    (hfind : findRequest st.requests_ label = some r)
    (horigin : r.request.security_origin.valid = true)
    (hta : r.request.audio_type ≠ MEDIA_TAB_AUDIO_CAPTURE)
    (htv : r.request.video_type ≠ MEDIA_TAB_VIDEO_CAPTURE)
    (hdv : r.request.video_type ≠ MEDIA_DESKTOP_VIDEO_CAPTURE) :
    setupRequest env label st = startEnumeration env label st ∨
    setupRequest env label st = postRequestToUI env label st := by
  by_cases hc :
      (IsAudioMediaType r.request.audio_type ∧
        st.audio_enumeration_cache_.valid = false) ∨
      (IsVideoMediaType r.request.video_type ∧
        st.video_enumeration_cache_.valid = false)
  · left
    simp [setupRequest, hfind, horigin, hta, htv, hdv, hc]
  · right
    simp [setupRequest, hfind, horigin, hta, htv, hdv, hc]

/-- C6 (amended).  Among combinations whose video kind is desktop video
capture, exactly desktop video alone and desktop video plus loopback audio
pass setup — straight to the permission prompt, bypassing enumeration — and
every other desktop-video combination is rejected with failure (request
deleted, only failure notifications emitted, so no enumeration, prompt or
open).  A loopback audio kind without desktop video is, however, not
screened by the screen-capture check: combined with tab video it fails the
tab-capture check, but in any other combination setup proceeds down the
ordinary device path (enumeration or permission prompt), the request
surviving with no failure notification. -/
theorem c6_screen_capture_combinations_amended (env : Env) (st : MSMState)
    (label : String) (r : DeviceRequest)
    (hfind : findRequest st.requests_ label = some r)
    (horigin : r.request.security_origin.valid = true) :
    (r.request.video_type = MEDIA_DESKTOP_VIDEO_CAPTURE →
      ((r.request.audio_type = MEDIA_NO_SERVICE ∨
          r.request.audio_type = MEDIA_LOOPBACK_AUDIO_CAPTURE) →
        (setupRequest env label st).2 = [Event.RequestAccessCall label] ∧
        (findRequest (setupRequest env label st).1.requests_ label).isSome =
          true) ∧
      (r.request.audio_type ≠ MEDIA_NO_SERVICE →
        r.request.audio_type ≠ MEDIA_LOOPBACK_AUDIO_CAPTURE →
        (setupRequest env label st).2 =
          (if r.requester = true then [Event.StreamGenerationFailed label]
           else []) ++
          (if r.request.request_type = MEDIA_DEVICE_ACCESS ∧
              r.callback = true then [Event.AccessCallbackRun label []]
           else []) ∧
        findRequest (setupRequest env label st).1.requests_ label = none)) ∧
    (r.request.audio_type = MEDIA_LOOPBACK_AUDIO_CAPTURE →
      r.request.video_type = MEDIA_TAB_VIDEO_CAPTURE →
      findRequest (setupRequest env label st).1.requests_ label = none) ∧
    (r.request.audio_type = MEDIA_LOOPBACK_AUDIO_CAPTURE →
      r.request.video_type ≠ MEDIA_DESKTOP_VIDEO_CAPTURE →
      r.request.video_type ≠ MEDIA_TAB_VIDEO_CAPTURE →
      Event.StreamGenerationFailed label ∉ (setupRequest env label st).2 ∧
      (findRequest (setupRequest env label st).1.requests_ label).isSome =
        true) := by
  refine ⟨fun hv => ⟨fun ha => ?_, fun ha1 ha2 => ?_⟩,
    fun ha hv => ?_, fun ha hdv htv => ?_⟩
  · rw [setupRequest_desktop_pass env st label r hfind horigin hv ha]
    exact postRequestToUI_spec env label st r hfind
  · by_cases hta : r.request.audio_type = MEDIA_TAB_AUDIO_CAPTURE
    · exact setupRequest_tab_reject env st label r hfind horigin
        (Or.inl hta)
        (setupTabCaptureRequest_none_of_video env r (by simp [hv])
          (by simp [hv]))
    · exact setupRequest_screen_reject env st label r hfind horigin hv
        ha1 ha2 hta
  · exact (setupRequest_tab_reject env st label r hfind horigin
      (Or.inr hv)
      (setupTabCaptureRequest_none_of_audio env r (by simp [ha])
        (by simp [ha]))).2
  · have hta : r.request.audio_type ≠ MEDIA_TAB_AUDIO_CAPTURE := by
      simp [ha]
    rcases setupRequest_ordinary_path env st label r hfind horigin hta htv
        hdv with heq | heq
    · rw [heq]
      constructor
      · intro hmem
        rcases startEnumeration_events env label st _ hmem with ⟨t, ht⟩
        cases ht
      · rw [startEnumeration_find_isSome, hfind]
        rfl
    · rw [heq]
      rcases postRequestToUI_spec env label st r hfind with ⟨hev, hsome⟩
      refine ⟨?_, hsome⟩
      rw [hev]
      simp

/-- Counterexample to C6 as stated: a request for loopback audio alone
(no desktop video) involves a loopback audio kind and is not one of the two
allowed combinations, yet `SetupRequest` does not reject it — it dispatches
provider enumerations and leaves the request registered, with no failure
notification. -/
def wLoopReq : DeviceRequest :=
  DeviceRequest.make true
    { security_origin := wOrigin
      request_type := MEDIA_GENERATE_STREAM
      audio_type := MEDIA_LOOPBACK_AUDIO_CAPTURE
      video_type := MEDIA_NO_SERVICE } 1 2 3

/-- The manager state holding only the loopback-audio-only request. -/
def wSt6 : MSMState := { requests_ := [("L6", wLoopReq)] }

/-- Counterexample theorem for C6 (see `wLoopReq`): the claim predicts
rejection with failure before any enumeration, but the setup of the
loopback-audio-only request performs provider enumerations and keeps the
request alive. -/
theorem c6_loopback_alone_not_rejected :
    (setupRequest wEnv "L6" wSt6).2 =
      [Event.EnumerateDevicesCall MEDIA_DEVICE_AUDIO_CAPTURE,
       Event.EnumerateDevicesCall MEDIA_DEVICE_VIDEO_CAPTURE,
       Event.EnumerateDevicesCall MEDIA_LOOPBACK_AUDIO_CAPTURE] ∧
    (findRequest (setupRequest wEnv "L6" wSt6).1.requests_ "L6").isSome =
      true := by
  decide

/-- A desktop-video-only request, used as the concrete witness input. -/
def wDesktopReq : DeviceRequest :=
  DeviceRequest.make true
    { security_origin := wOrigin
      request_type := MEDIA_GENERATE_STREAM
      audio_type := MEDIA_NO_SERVICE
      video_type := MEDIA_DESKTOP_VIDEO_CAPTURE } 1 2 3

/-- The manager state holding only the desktop-video request. -/
def wSt6d : MSMState := { requests_ := [("D", wDesktopReq)] }

/-- Witness for C6 (amended) at a concrete input: the desktop-video-only
request passes setup straight to the permission prompt. -/
theorem c6_screen_capture_combinations_amended_witness :
    (setupRequest wEnv "D" wSt6d).2 = [Event.RequestAccessCall "D"] ∧
    (findRequest (setupRequest wEnv "D" wSt6d).1.requests_ "D").isSome =
      true :=
  ((c6_screen_capture_combinations_amended wEnv wSt6d "D" wDesktopReq rfl
    rfl).1 rfl).1 (Or.inl rfl)

/-- C7 (amended).  Resolving caller-supplied source ids never fails the
request: `TranslateRequestedSourceIdToDeviceId` always reports success and
`PostRequestToUI`'s failure branch is unreachable (on any registered label
it emits exactly the `RequestAccess` call and keeps the request).  When the
requested audio source id cannot be resolved it is cleared to empty — but
translation then returns at once, leaving the requested video id exactly as
it was (even if it is itself unresolvable); the video id is cleared on
resolution failure only when the audio half succeeded or was not
attempted. -/
theorem c7_source_id_resolution_never_fails_amended (env : Env)
    (st : MSMState) (request : DeviceRequest) :
    (translateRequestedSourceIdToDeviceId env st request).1 = true ∧
    (request.request.audio_type = MEDIA_DEVICE_AUDIO_CAPTURE →
      request.request.requested_audio_device_id ≠ "" →
      translateSourceIdToDeviceId env MEDIA_DEVICE_AUDIO_CAPTURE
          request.resource_context request.request.security_origin
          request.request.requested_audio_device_id st = none →
      (translateRequestedSourceIdToDeviceId env st
          request).2.request.requested_audio_device_id = "" ∧
      (translateRequestedSourceIdToDeviceId env st
          request).2.request.requested_video_device_id =
        request.request.requested_video_device_id) ∧
    (¬(request.request.audio_type = MEDIA_DEVICE_AUDIO_CAPTURE ∧
        request.request.requested_audio_device_id ≠ "") →
      request.request.video_type = MEDIA_DEVICE_VIDEO_CAPTURE →
      request.request.requested_video_device_id ≠ "" →
      translateSourceIdToDeviceId env MEDIA_DEVICE_VIDEO_CAPTURE
          request.resource_context request.request.security_origin
          request.request.requested_video_device_id st = none →
      (translateRequestedSourceIdToDeviceId env st
          request).2.request.requested_video_device_id = "") ∧
    (∀ label r, findRequest st.requests_ label = some r →
      (postRequestToUI env label st).2 = [Event.RequestAccessCall label] ∧
      (findRequest (postRequestToUI env label st).1.requests_
        label).isSome = true) := by
  refine ⟨translateRequestedSourceIdToDeviceId_fst env st request,
    fun hA hne hnone => ?_, fun hnA hV hne hnone => ?_,
    fun label r hfind => postRequestToUI_spec env label st r hfind⟩
  · constructor <;>
      simp [translateRequestedSourceIdToDeviceId, hA, hne, hnone]
  · simp [translateRequestedSourceIdToDeviceId, hnA,
      translateRequestedVideoPart, hV, hne, hnone]

/-- A generate-stream request asking for both a specific microphone and a
specific camera by source id. -/
def wBothReq : DeviceRequest :=
  DeviceRequest.make true
    { security_origin := wOrigin
      request_type := MEDIA_GENERATE_STREAM
      requested_audio_device_id := "sa"
      requested_video_device_id := "sv"
      audio_type := MEDIA_DEVICE_AUDIO_CAPTURE
      video_type := MEDIA_DEVICE_VIDEO_CAPTURE } 1 2 3

/-- Counterexample to C7 as stated: with both caches invalid neither source
id resolves; the claim says every unresolvable requested id is cleared to
empty, but while the audio id is cleared, the (equally unresolvable) video
id survives untouched because the audio failure returns early. -/
theorem c7_stale_video_id_counterexample :
    translateSourceIdToDeviceId wEnv MEDIA_DEVICE_VIDEO_CAPTURE 3 wOrigin
      "sv" msmInitial = none ∧
    (translateRequestedSourceIdToDeviceId wEnv msmInitial
      wBothReq).2.request.requested_audio_device_id = "" ∧
    (translateRequestedSourceIdToDeviceId wEnv msmInitial
      wBothReq).2.request.requested_video_device_id = "sv" := by
  decide

/-- Witness for C7 (amended) at a concrete input: the audio-failure clause
applied to `wBothReq` over the freshly constructed manager. -/
theorem c7_source_id_resolution_never_fails_amended_witness :
    (translateRequestedSourceIdToDeviceId wEnv msmInitial wBothReq).1 =
      true ∧
    (translateRequestedSourceIdToDeviceId wEnv msmInitial
        wBothReq).2.request.requested_audio_device_id = "" ∧
    (translateRequestedSourceIdToDeviceId wEnv msmInitial
        wBothReq).2.request.requested_video_device_id =
      wBothReq.request.requested_video_device_id :=
  ⟨(c7_source_id_resolution_never_fails_amended wEnv msmInitial wBothReq).1,
    (c7_source_id_resolution_never_fails_amended wEnv msmInitial
      wBothReq).2.1 rfl (by decide) (by decide)⟩

/-- The linear cache scan of `TranslateSourceIdToDeviceId` resolves the HMAC
of a cached device id back to that id, provided no other cached id collides
with it under the transform. -/
theorem translateSourceIdScan_found (env : Env) (rc : Nat) (o : GURL)
    (target : String) (devices : List StreamDeviceInfo)
    (hmem : ∃ e ∈ devices, e.device.id = target)
    (hinj : ∀ e ∈ devices,
      env.hmac rc o e.device.id = env.hmac rc o target →
      e.device.id = target) :
    translateSourceIdScan env rc o (env.hmac rc o target) devices =
      some target := by
  induction devices with
  | nil => simp at hmem
  | cons d rest ih =>
    by_cases h : doesMediaDeviceIDMatchHMAC env rc o
        (env.hmac rc o target) d.device.id
    · have hd : d.device.id = target := hinj d (List.mem_cons_self d rest) h
      simp only [translateSourceIdScan, if_pos h]
      rw [hd]
    · have hmem' : ∃ e ∈ rest, e.device.id = target := by
        rcases hmem with ⟨e, he, heq⟩
        rcases List.mem_cons.mp he with rfl | hr
        · exact absurd (show doesMediaDeviceIDMatchHMAC env rc o
            (env.hmac rc o target) e.device.id from by
              unfold doesMediaDeviceIDMatchHMAC
              rw [heq]) h
        · exact ⟨e, hr, heq⟩
      simp only [translateSourceIdScan, if_neg h]
      exact ih hmem' (fun e he => hinj e (List.mem_cons_of_mem d he))

/-- C9.  Anonymization round-trip: for a fixed resource context and origin,
the per-origin source id of a true device id present in a valid enumeration
cache of the matching kind (`TranslateDeviceIdToSourceId`, the transform
applied before a descriptor is handed to a requester) resolves back to the
original true device id via `TranslateSourceIdToDeviceId`, provided the
keyed transform does not collide on the cached ids. -/
theorem c9_anonymization_round_trip (env : Env) (st : MSMState)
    (stream_type : MediaStreamType) (request : DeviceRequest)
    (device : MediaStreamDevice)
    (hkind : request.request.audio_type = MEDIA_DEVICE_AUDIO_CAPTURE ∨
      request.request.video_type = MEDIA_DEVICE_VIDEO_CAPTURE)
    (hvalid : (cacheOf st stream_type).valid = true)
    (hmem : ∃ e ∈ (cacheOf st stream_type).devices,
      e.device.id = device.id)
    (hinj : ∀ e ∈ (cacheOf st stream_type).devices,
      env.hmac request.resource_context request.request.security_origin
          e.device.id =
        env.hmac request.resource_context request.request.security_origin
          device.id →
      e.device.id = device.id) :
    translateSourceIdToDeviceId env stream_type request.resource_context
      request.request.security_origin
      (translateDeviceIdToSourceId env request device).id st =
      some device.id := by
  have hid : (translateDeviceIdToSourceId env request device).id =
      env.hmac request.resource_context request.request.security_origin
        device.id := by
    simp only [translateDeviceIdToSourceId]
    rw [if_pos hkind]
  rw [hid]
  simp only [translateSourceIdToDeviceId]
  rw [if_neg (not_not_intro hvalid)]
  exact translateSourceIdScan_found env request.resource_context
    request.request.security_origin device.id
    (cacheOf st stream_type).devices hmem hinj

/-- The audio cache holding one concrete device, for the C9 witness. -/
def wSt9 : MSMState :=
  { audio_enumeration_cache_ :=
      { valid := true
        devices := [{ device :=
          { type := MEDIA_DEVICE_AUDIO_CAPTURE, id := "d1" } }] } }

/-- Witness for C9 at a concrete input: the id "d1" in a valid audio cache
round-trips through the per-origin transform. -/
theorem c9_anonymization_round_trip_witness :
    translateSourceIdToDeviceId wEnv MEDIA_DEVICE_AUDIO_CAPTURE 3 wOrigin
      (translateDeviceIdToSourceId wEnv wBothReq
        { type := MEDIA_DEVICE_AUDIO_CAPTURE, id := "d1" }).id wSt9 =
      some "d1" :=
  c9_anonymization_round_trip wEnv wSt9 MEDIA_DEVICE_AUDIO_CAPTURE wBothReq
    { type := MEDIA_DEVICE_AUDIO_CAPTURE, id := "d1" } (Or.inl rfl)
    (by decide) (by decide) (by decide)

/-! State-vector lemmas for `DeviceRequest.SetState` and
`DeviceRequest.state`. -/

theorem MediaStreamType.toIdx_lt_of_ne :
    ∀ t : MediaStreamType, t ≠ NUM_MEDIA_TYPES → t.toIdx < 7 := by
  intro t ht
  cases t <;> first | decide | exact absurd rfl ht

theorem MediaStreamType.toIdx_inj :
    ∀ t u : MediaStreamType, t.toIdx = u.toIdx → t = u := by
  intro t u h
  cases t <;> cases u <;> first | rfl | exact absurd h (by decide)

theorem devices_SetState (r : DeviceRequest) (t : MediaStreamType)
    (s : MediaRequestState) : (r.SetState t s).devices = r.devices := by
  by_cases ht : t = NUM_MEDIA_TYPES <;> simp [DeviceRequest.SetState, ht]

theorem request_SetState (r : DeviceRequest) (t : MediaStreamType)
    (s : MediaRequestState) : (r.SetState t s).request = r.request := by
  by_cases ht : t = NUM_MEDIA_TYPES <;> simp [DeviceRequest.SetState, ht]

theorem requester_SetState (r : DeviceRequest) (t : MediaStreamType)
    (s : MediaRequestState) : (r.SetState t s).requester = r.requester := by
  by_cases ht : t = NUM_MEDIA_TYPES <;> simp [DeviceRequest.SetState, ht]

theorem length_SetState (r : DeviceRequest) (t : MediaStreamType)
    (s : MediaRequestState) :
    (r.SetState t s).state_.length = r.state_.length := by
  by_cases ht : t = NUM_MEDIA_TYPES
  · subst ht
    simp only [DeviceRequest.SetState, if_pos rfl]
    cases r.state_ <;> simp
  · simp [DeviceRequest.SetState, ht]

theorem state_SetState_self (r : DeviceRequest) (t : MediaStreamType)
    (s : MediaRequestState) (ht : t ≠ NUM_MEDIA_TYPES)
    (hlen : r.state_.length = 7) : (r.SetState t s).state t = s := by
  simp only [DeviceRequest.SetState, if_neg ht, DeviceRequest.state]
  have hb : t.toIdx < r.state_.length := by
    rw [hlen]; exact MediaStreamType.toIdx_lt_of_ne t ht
  simp [List.getD_eq_getElem?_getD, List.getElem?_set_self', hb]

theorem state_SetState_ne (r : DeviceRequest) (t u : MediaStreamType)
    (s : MediaRequestState) (ht : t ≠ NUM_MEDIA_TYPES) (hne : u ≠ t) :
    (r.SetState t s).state u = r.state u := by
  simp only [DeviceRequest.SetState, if_neg ht, DeviceRequest.state]
  have hidx : t.toIdx ≠ u.toIdx :=
    fun e => hne (MediaStreamType.toIdx_inj t u e).symm
  simp [List.getD_eq_getElem?_getD, List.getElem?_set_ne hidx]

/-- Writing a slot either lands (yielding the new state) or, on a
short state vector, is a no-op. -/
theorem state_SetState_self_or (r : DeviceRequest) (t : MediaStreamType)
    (s : MediaRequestState) (ht : t ≠ NUM_MEDIA_TYPES) :
    (r.SetState t s).state t = s ∨ (r.SetState t s).state t = r.state t := by
  simp only [DeviceRequest.SetState, if_neg ht, DeviceRequest.state]
  rcases Nat.lt_or_ge t.toIdx r.state_.length with hb | hb
  · left
    simp [List.getD_eq_getElem?_getD, List.getElem?_set_self', hb]
  · right
    rw [List.set_eq_of_length_le hb]

theorem getD_map_const {α β : Type} (xs : List α) (s : β) (k : Nat) (d : β)
    (h : k < xs.length) : (xs.map (fun _ => s)).getD k d = s := by
  induction xs generalizing k with
  | nil => simp at h
  | cons a rest ih =>
    cases k with
    | zero => rfl
    | succ k => exact ih k (by simpa using h)

/-- The `SetState(NUM_MEDIA_TYPES, s)` broadcast rewrites every slot from
`MEDIA_NO_SERVICE + 1` up (slot 0 untouched). -/
theorem state_SetState_broadcast (r : DeviceRequest) (s : MediaRequestState)
    (u : MediaStreamType) (hu0 : u ≠ MEDIA_NO_SERVICE)
    (huN : u ≠ NUM_MEDIA_TYPES) (hlen : r.state_.length = 7) :
    (r.SetState NUM_MEDIA_TYPES s).state u = s := by
  cases hst : r.state_ with
  | nil => rw [hst] at hlen; simp at hlen
  | cons x xs =>
    have hxs : xs.length = 6 := by
      rw [hst] at hlen; simpa using hlen
    have key : ∀ k, k < 6 → (x :: xs.map (fun _ => s)).getD (k + 1)
        MEDIA_REQUEST_STATE_NOT_REQUESTED = s := by
      intro k hk
      show (xs.map (fun _ => s)).getD k MEDIA_REQUEST_STATE_NOT_REQUESTED = s
      exact getD_map_const xs s k _ (by rw [hxs]; exact hk)
    simp only [DeviceRequest.SetState, if_pos rfl, DeviceRequest.state, hst]
    cases u <;> first
      | exact absurd rfl hu0
      | exact absurd rfl huN
      | exact key _ (by decide)

theorem state_SetState_broadcast_zero (r : DeviceRequest)
    (s : MediaRequestState) :
    (r.SetState NUM_MEDIA_TYPES s).state MEDIA_NO_SERVICE =
      r.state MEDIA_NO_SERVICE := by
  simp only [DeviceRequest.SetState, if_pos rfl, DeviceRequest.state]
  cases r.state_ <;> rfl

/-! Lemmas about `closeDeviceMark`, `closeDevice` and the registry scans. -/

theorem findRequest_map_value (reg : Registry)
    (g : DeviceRequest → DeviceRequest) (l : String) :
    findRequest (reg.map (fun p => (p.1, g p.2))) l =
      (findRequest reg l).map g := by
  induction reg with
  | nil => rfl
  | cons p rest ih =>
    by_cases h : p.1 = l <;> simp [findRequest, h, ih]

theorem findRequest_mem_keys (reg : Registry) (l : String)
    (r : DeviceRequest) (h : findRequest reg l = some r) :
    l ∈ reg.map Prod.fst := by
  induction reg with
  | nil => simp [findRequest] at h
  | cons p rest ih =>
    by_cases hp : p.1 = l
    · simp [hp.symm]
    · simp only [findRequest, if_neg hp] at h
      simp [ih h]

theorem closeDeviceMark_fold_devices (type : MediaStreamType)
    (session_id : Int) (ds : List StreamDeviceInfo) (acc : DeviceRequest) :
    (ds.foldl
      (fun r' d =>
        if d.session_id = session_id ∧ d.device.type = type then
          r'.SetState type MEDIA_REQUEST_STATE_CLOSING
        else r') acc).devices = acc.devices := by
  induction ds generalizing acc with
  | nil => rfl
  | cons d rest ih =>
    simp only [List.foldl_cons]
    by_cases h : d.session_id = session_id ∧ d.device.type = type
    · rw [if_pos h, ih, devices_SetState]
    · rw [if_neg h, ih]

theorem closeDeviceMark_devices (type : MediaStreamType) (session_id : Int)
    (r : DeviceRequest) :
    (closeDeviceMark type session_id r).devices = r.devices :=
  closeDeviceMark_fold_devices type session_id r.devices r

theorem closeDeviceMark_fold_request (type : MediaStreamType)
    (session_id : Int) (ds : List StreamDeviceInfo) (acc : DeviceRequest) :
    (ds.foldl
      (fun r' d =>
        if d.session_id = session_id ∧ d.device.type = type then
          r'.SetState type MEDIA_REQUEST_STATE_CLOSING
        else r') acc).request = acc.request := by
  induction ds generalizing acc with
  | nil => rfl
  | cons d rest ih =>
    simp only [List.foldl_cons]
    by_cases h : d.session_id = session_id ∧ d.device.type = type
    · rw [if_pos h, ih, request_SetState]
    · rw [if_neg h, ih]

theorem closeDeviceMark_request (type : MediaStreamType) (session_id : Int)
    (r : DeviceRequest) :
    (closeDeviceMark type session_id r).request = r.request :=
  closeDeviceMark_fold_request type session_id r.devices r

theorem closeDeviceMark_fold_length (type : MediaStreamType)
    (session_id : Int) (ds : List StreamDeviceInfo) (acc : DeviceRequest) :
    (ds.foldl
      (fun r' d =>
        if d.session_id = session_id ∧ d.device.type = type then
          r'.SetState type MEDIA_REQUEST_STATE_CLOSING
        else r') acc).state_.length = acc.state_.length := by
  induction ds generalizing acc with
  | nil => rfl
  | cons d rest ih =>
    simp only [List.foldl_cons]
    by_cases h : d.session_id = session_id ∧ d.device.type = type
    · rw [if_pos h, ih, length_SetState]
    · rw [if_neg h, ih]

theorem closeDeviceMark_length (type : MediaStreamType) (session_id : Int)
    (r : DeviceRequest) :
    (closeDeviceMark type session_id r).state_.length =
      r.state_.length :=
  closeDeviceMark_fold_length type session_id r.devices r

/-- A single `closeDeviceMark` leaves each state slot unchanged or marks it
`CLOSING` (only the closed type's slot is ever written). -/
theorem closeDeviceMark_fold_state (type : MediaStreamType)
    (session_id : Int) (ds : List StreamDeviceInfo) (acc : DeviceRequest)
    (u : MediaStreamType) (ht : type ≠ NUM_MEDIA_TYPES) :
    (ds.foldl
      (fun r' d =>
        if d.session_id = session_id ∧ d.device.type = type then
          r'.SetState type MEDIA_REQUEST_STATE_CLOSING
        else r') acc).state u = acc.state u ∨
    (u = type ∧
      (ds.foldl
        (fun r' d =>
          if d.session_id = session_id ∧ d.device.type = type then
            r'.SetState type MEDIA_REQUEST_STATE_CLOSING
          else r') acc).state u = MEDIA_REQUEST_STATE_CLOSING) := by
  induction ds generalizing acc with
  | nil => exact Or.inl rfl
  | cons d rest ih =>
    simp only [List.foldl_cons]
    by_cases h : d.session_id = session_id ∧ d.device.type = type
    · rw [if_pos h]
      rcases ih (acc.SetState type MEDIA_REQUEST_STATE_CLOSING) with h1 | h1
      · by_cases hu : u = type
        · subst hu
          rcases state_SetState_self_or acc u
              MEDIA_REQUEST_STATE_CLOSING ht with h2 | h2
          · exact Or.inr ⟨rfl, by rw [h1, h2]⟩
          · exact Or.inl (by rw [h1, h2])
        · exact Or.inl (by rw [h1, state_SetState_ne acc type u _ ht hu])
      · exact Or.inr h1
    · rw [if_neg h]
      exact ih acc

theorem closeDeviceMark_fold_closing (type : MediaStreamType)
    (session_id : Int) (ds : List StreamDeviceInfo) (acc : DeviceRequest)
    (ht : type ≠ NUM_MEDIA_TYPES) (hlen : acc.state_.length = 7)
    (h : (∃ d ∈ ds, d.session_id = session_id ∧ d.device.type = type) ∨
      acc.state type = MEDIA_REQUEST_STATE_CLOSING) :
    (ds.foldl
      (fun r' d =>
        if d.session_id = session_id ∧ d.device.type = type then
          r'.SetState type MEDIA_REQUEST_STATE_CLOSING
        else r') acc).state type = MEDIA_REQUEST_STATE_CLOSING := by
  induction ds generalizing acc with
  | nil =>
    rcases h with ⟨d, hd, _⟩ | h
    · simp at hd
    · exact h
  | cons d rest ih =>
    simp only [List.foldl_cons]
    by_cases hd : d.session_id = session_id ∧ d.device.type = type
    · rw [if_pos hd]
      refine ih (acc.SetState type MEDIA_REQUEST_STATE_CLOSING)
        (by rw [length_SetState]; exact hlen) (Or.inr ?_)
      exact state_SetState_self acc type _ ht hlen
    · rw [if_neg hd]
      refine ih acc hlen ?_
      rcases h with ⟨e, he, hme⟩ | h
      · rcases List.mem_cons.mp he with rfl | hr
        · exact absurd hme hd
        · exact Or.inl ⟨e, hr, hme⟩
      · exact Or.inr h

theorem closeDeviceMark_state_closing (type : MediaStreamType)
    (session_id : Int) (r : DeviceRequest) (ht : type ≠ NUM_MEDIA_TYPES)
    (hlen : r.state_.length = 7)
    (hmatch : ∃ d ∈ r.devices,
      d.session_id = session_id ∧ d.device.type = type) :
    (closeDeviceMark type session_id r).state type =
      MEDIA_REQUEST_STATE_CLOSING :=
  closeDeviceMark_fold_closing type session_id r.devices r ht hlen
    (Or.inl hmatch)

/-- No device entry of the request matches the stopped (type, session). -/
def noMatchEntry (type : MediaStreamType) (session_id : Int)
    (r : DeviceRequest) : Prop :=
  ∀ e ∈ r.devices, ¬(e.device.type = type ∧ e.session_id = session_id)

/-- The device scan of `StopDevice` on one request: the scanned request ends
with exactly its non-matching entries (prefix `kept` plus the non-matching
part of `todo`), and every other request's device list is untouched (only
state marks are applied to it). -/
theorem stopDeviceDevLoop_spec (type : MediaStreamType) (session_id : Int)
    (label : String) (todo kept : List StreamDeviceInfo) (reg : Registry)
    (r : DeviceRequest) (hfind : findRequest reg label = some r)
    (hsync : r.devices = kept ++ todo) :
    (∃ r'', findRequest
        (stopDeviceDevLoop type session_id label kept todo reg).1 label =
        some r'' ∧
      r''.devices = kept ++ todo.filter
        (fun e => decide (¬(e.device.type = type ∧
          e.session_id = session_id)))) ∧
    (∀ l2, l2 ≠ label →
      Option.map (fun r2 => r2.devices)
        (findRequest (stopDeviceDevLoop type session_id label kept todo
          reg).1 l2) =
      Option.map (fun r2 => r2.devices) (findRequest reg l2)) := by
  induction todo generalizing kept reg r with
  | nil =>
    exact ⟨⟨r, hfind, by simpa using hsync⟩, fun l2 _ => rfl⟩
  | cons d rest ih =>
    by_cases hm : d.device.type ≠ type ∨ d.session_id ≠ session_id
    · have hkeep : decide (¬(d.device.type = type ∧
          d.session_id = session_id)) = true := by
        simp only [decide_eq_true_iff]
        tauto
      have hsync' : r.devices = (kept ++ [d]) ++ rest := by
        rw [hsync, List.append_assoc, List.singleton_append]
      have := ih (kept ++ [d]) reg r hfind hsync'
      simp only [stopDeviceDevLoop, if_pos hm]
      refine ⟨?_, this.2⟩
      rcases this.1 with ⟨r'', hr'', hdev⟩
      refine ⟨r'', hr'', ?_⟩
      rw [hdev, List.filter_cons, hkeep, if_pos rfl, List.append_assoc,
        List.singleton_append]
    · have hmm : d.device.type = type ∧ d.session_id = session_id := by
        push_neg at hm
        exact ⟨hm.1, hm.2⟩
      have hdrop : decide (¬(d.device.type = type ∧
          d.session_id = session_id)) = false := by
        simp only [decide_eq_false_iff_not]
        tauto
      simp only [stopDeviceDevLoop, if_neg hm, hfind]
      by_cases hdone : r.state type = MEDIA_REQUEST_STATE_DONE
      · rw [if_pos hdone]
        have hfc : findRequest (closeDevice type session_id reg).1 label =
            some (closeDeviceMark type session_id r) := by
          simp only [closeDevice]
          rw [findRequest_map_value, hfind]
          rfl
        have hfu : findRequest (updateRequest
            (closeDevice type session_id reg).1 label
            (fun r' => { r' with devices := kept ++ rest })) label =
            some { closeDeviceMark type session_id r with
              devices := kept ++ rest } := by
          rw [findRequest_updateRequest, hfc]
          rfl
        have := ih kept _ _ hfu rfl
        refine ⟨?_, ?_⟩
        · rcases this.1 with ⟨r'', hr'', hdev⟩
          exact ⟨r'', hr'', by
            rw [hdev, List.filter_cons, hdrop, if_neg Bool.false_ne_true]⟩
        · intro l2 hl2
          rw [this.2 l2 hl2, findRequest_updateRequest_ne _ _ _ _ hl2]
          simp only [closeDevice]
          rw [findRequest_map_value]
          cases findRequest reg l2 with
          | none => rfl
          | some r2 => simp [closeDeviceMark_devices]
      · rw [if_neg hdone]
        have hfu : findRequest (updateRequest reg label
            (fun r' => { r' with devices := kept ++ rest })) label =
            some { r with devices := kept ++ rest } := by
          rw [findRequest_updateRequest, hfind]
          rfl
        have := ih kept _ _ hfu rfl
        refine ⟨?_, ?_⟩
        · rcases this.1 with ⟨r'', hr'', hdev⟩
          exact ⟨r'', hr'', by
            rw [hdev, List.filter_cons, hdrop, if_neg Bool.false_ne_true]⟩
        · intro l2 hl2
          rw [this.2 l2 hl2, findRequest_updateRequest_ne _ _ _ _ hl2]

/-- The outer request loop of `StopDevice`. A request surviving the loop
under a scanned label has no entry matching the stopped (type, session) left
and a nonempty device list (an emptied request is deleted); a request under
an unscanned label keeps its device list unchanged; no surviving label is
new. -/
theorem stopDeviceReqLoop_spec (type : MediaStreamType) (session_id : Int)
    (labels : List String) (reg : Registry) :
    ∀ l r', findRequest
        (stopDeviceReqLoop type session_id labels reg).1 l = some r' →
      (l ∈ labels → noMatchEntry type session_id r' ∧ r'.devices ≠ []) ∧
      ∃ r0, findRequest reg l = some r0 ∧
        (l ∉ labels → r'.devices = r0.devices) := by
  induction labels generalizing reg with
  | nil =>
    intro l r' h
    exact ⟨fun hl => absurd hl (List.not_mem_nil l), r', h, fun _ => rfl⟩
  | cons label rest ih =>
    intro l r' h
    rcases hfr : findRequest reg label with _ | rr
    · simp only [stopDeviceReqLoop, hfr] at h
      obtain ⟨h1, r0, hr0, h2⟩ := ih reg l r' h
      refine ⟨?_, r0, hr0, ?_⟩
      · intro hl
        rcases List.mem_cons.mp hl with rfl | hl
        · rw [hfr] at hr0
          exact absurd hr0 (by simp)
        · exact h1 hl
      · intro hnl
        exact h2 (fun hr => hnl (List.mem_cons_of_mem _ hr))
    · obtain ⟨⟨r1, hr1, hdev1⟩, hoth⟩ :=
        stopDeviceDevLoop_spec type session_id label rr.devices [] reg rr
          hfr (by simp)
      simp only [stopDeviceReqLoop, hfr, hr1] at h
      have key : ∀ reg2 : Registry,
          (l ≠ label → findRequest reg2 l =
            findRequest (stopDeviceDevLoop type session_id label []
              rr.devices reg).1 l) →
          (l = label → ∀ rx, findRequest reg2 l = some rx →
            rx = r1 ∧ r1.devices.isEmpty = false) →
          findRequest (stopDeviceReqLoop type session_id rest reg2).1 l =
            some r' →
          (l ∈ label :: rest →
            noMatchEntry type session_id r' ∧ r'.devices ≠ []) ∧
          ∃ r0, findRequest reg l = some r0 ∧
            (l ∉ label :: rest → r'.devices = r0.devices) := by
        intro reg2 hne heq hrec
        obtain ⟨h1, r2, hr2, h2⟩ := ih reg2 l r' hrec
        by_cases hll : l = label
        · subst hll
          have hr2' := heq rfl r2 hr2
          refine ⟨?_, rr, hfr, ?_⟩
          · intro _
            by_cases hlr : l ∈ rest
            · exact h1 hlr
            · have hdr : r'.devices = r1.devices := by
                rw [h2 hlr, hr2'.1]
              constructor
              · intro e he hme
                rw [hdr, hdev1] at he
                simp only [List.nil_append, List.mem_filter,
                  decide_eq_true_iff] at he
                exact he.2 hme
              · intro hnil
                have h3 := hr2'.2
                rw [← hdr, hnil] at h3
                exact absurd h3 (by simp)
          · intro hnl
            exact absurd (List.mem_cons_self l rest) hnl
        · refine ⟨?_, ?_⟩
          · intro hl
            rcases List.mem_cons.mp hl with rfl | hl
            · exact absurd rfl hll
            · exact h1 hl
          · have hstep : findRequest (stopDeviceDevLoop type session_id
                label [] rr.devices reg).1 l = some r2 := by
              rw [← hne hll]
              exact hr2
            have hmapped := hoth l hll
            rw [hstep] at hmapped
            rcases hr0 : findRequest reg l with _ | r0
            · rw [hr0] at hmapped
              exact absurd hmapped (by simp)
            · rw [hr0] at hmapped
              simp only [Option.map_some'] at hmapped
              refine ⟨r0, rfl, ?_⟩
              intro hnl
              rw [h2 (fun hr => hnl (List.mem_cons_of_mem _ hr))]
              exact Option.some.inj hmapped
      by_cases hemp : r1.devices.isEmpty = true
      · rw [if_pos hemp] at h
        refine key _ ?_ ?_ h
        · intro hll
          exact findRequest_deleteRequest_ne _ _ _ hll
        · intro hll rx hrx
          subst hll
          rw [findRequest_deleteRequest] at hrx
          exact absurd hrx (by simp)
      · rw [if_neg hemp] at h
        refine key _ ?_ ?_ h
        · intro _
          rfl
        · intro hll rx hrx
          subst hll
          rw [hr1] at hrx
          exact ⟨(Option.some.inj hrx).symm, Bool.eq_false_iff.mpr hemp⟩

/-- Part A of the amended claim: after `StopDevice(type, session_id)` no
surviving request still holds a device entry matching that session. -/
theorem stopDevice_removal (type : MediaStreamType) (session_id : Int)
    (reg : Registry) :
    ∀ l r', findRequest (stopDevice type session_id reg).1 l = some r' →
      noMatchEntry type session_id r' := by
  intro l r' h
  obtain ⟨h1, r0, hr0, _⟩ :=
    stopDeviceReqLoop_spec type session_id (reg.map Prod.fst) reg l r' h
  exact (h1 (findRequest_mem_keys reg l r0 hr0)).1

/-- The device scan emits the provider `Close` call as soon as it meets a
matching entry while the request's live state for the type is `DONE`. -/
theorem stopDeviceDevLoop_close_event (type : MediaStreamType)
    (session_id : Int) (label : String) :
    ∀ (todo kept : List StreamDeviceInfo) (reg : Registry)
      (r : DeviceRequest), findRequest reg label = some r →
      r.state type = MEDIA_REQUEST_STATE_DONE →
      (∃ d ∈ todo, d.device.type = type ∧ d.session_id = session_id) →
      Event.CloseCall type session_id ∈
        (stopDeviceDevLoop type session_id label kept todo reg).2 := by
  intro todo
  induction todo with
  | nil =>
    intro kept reg r _ _ hmatch
    simp at hmatch
  | cons d rest ih =>
    intro kept reg r hfind hdone hmatch
    by_cases hm : d.device.type ≠ type ∨ d.session_id ≠ session_id
    · rcases hmatch with ⟨e, he, hme⟩
      rcases List.mem_cons.mp he with rfl | hr
      · exact absurd hme (by tauto)
      · simp only [stopDeviceDevLoop, if_pos hm]
        exact ih (kept ++ [d]) reg r hfind hdone ⟨e, hr, hme⟩
    · simp only [stopDeviceDevLoop, if_neg hm, hfind]
      rw [if_pos hdone]
      simp [closeDevice]

/-- If the request's live state for the type is anything but `DONE`, the
device scan emits no event at all and leaves that state untouched. -/
theorem stopDeviceDevLoop_no_events (type : MediaStreamType)
    (session_id : Int) (label : String) (s0 : MediaRequestState)
    (hs0 : s0 ≠ MEDIA_REQUEST_STATE_DONE) :
    ∀ (todo kept : List StreamDeviceInfo) (reg : Registry),
      (∀ r0, findRequest reg label = some r0 → r0.state type = s0) →
      (stopDeviceDevLoop type session_id label kept todo reg).2 = [] ∧
      ∀ r', findRequest
        (stopDeviceDevLoop type session_id label kept todo reg).1 label =
        some r' → r'.state type = s0 := by
  intro todo
  induction todo with
  | nil =>
    intro kept reg hstate
    exact ⟨rfl, hstate⟩
  | cons d rest ih =>
    intro kept reg hstate
    by_cases hm : d.device.type ≠ type ∨ d.session_id ≠ session_id
    · simp only [stopDeviceDevLoop, if_pos hm]
      exact ih (kept ++ [d]) reg hstate
    · simp only [stopDeviceDevLoop, if_neg hm]
      rcases hfr : findRequest reg label with _ | r0
      · simp only [hfr]
        refine ih kept _ ?_
        intro r1 hr1
        rw [findRequest_updateRequest, hfr] at hr1
        exact absurd hr1 (by simp)
      · simp only [hfr]
        have hnd : ¬(r0.state type = MEDIA_REQUEST_STATE_DONE) := by
          rw [hstate r0 hfr]
          exact hs0
        rw [if_neg hnd]
        refine ih kept _ ?_
        intro r1 hr1
        rw [findRequest_updateRequest, hfr] at hr1
        simp only [Option.map_some'] at hr1
        rw [← Option.some.inj hr1]
        exact hstate r0 hfr

/-- Once the scanned request's state for the type is `CLOSING`, the rest of
the scan keeps it `CLOSING`. -/
theorem stopDeviceDevLoop_closing_inv (type : MediaStreamType)
    (session_id : Int) (label : String) (ht : type ≠ NUM_MEDIA_TYPES) :
    ∀ (todo kept : List StreamDeviceInfo) (reg : Registry),
      (∀ r0, findRequest reg label = some r0 →
        r0.state type = MEDIA_REQUEST_STATE_CLOSING ∧
        r0.state_.length = 7) →
      ∀ r', findRequest
        (stopDeviceDevLoop type session_id label kept todo reg).1 label =
        some r' → r'.state type = MEDIA_REQUEST_STATE_CLOSING := by
  intro todo
  induction todo with
  | nil =>
    intro kept reg hstate r' h
    exact (hstate r' h).1
  | cons d rest ih =>
    intro kept reg hstate r' h
    by_cases hm : d.device.type ≠ type ∨ d.session_id ≠ session_id
    · simp only [stopDeviceDevLoop, if_pos hm] at h
      exact ih (kept ++ [d]) reg hstate r' h
    · simp only [stopDeviceDevLoop, if_neg hm] at h
      rcases hfr : findRequest reg label with _ | r0
      · simp only [hfr] at h
        refine ih kept _ ?_ r' h
        intro r1 hr1
        rw [findRequest_updateRequest, hfr] at hr1
        exact absurd hr1 (by simp)
      · simp only [hfr] at h
        obtain ⟨hcl, hlen⟩ := hstate r0 hfr
        have hnd : ¬(r0.state type = MEDIA_REQUEST_STATE_DONE) := by
          rw [hcl]
          decide
        rw [if_neg hnd] at h
        refine ih kept _ ?_ r' h
        intro r1 hr1
        rw [findRequest_updateRequest, hfr] at hr1
        simp only [Option.map_some'] at hr1
        rw [← Option.some.inj hr1]
        exact ⟨hcl, hlen⟩

/-- A `DONE` request holding a matching entry ends the device scan marked
`CLOSING` for the stopped type. -/
theorem stopDeviceDevLoop_done_closing (type : MediaStreamType)
    (session_id : Int) (label : String) (ht : type ≠ NUM_MEDIA_TYPES) :
    ∀ (todo kept : List StreamDeviceInfo) (reg : Registry)
      (r : DeviceRequest), findRequest reg label = some r →
      r.devices = kept ++ todo →
      r.state_.length = 7 →
      r.state type = MEDIA_REQUEST_STATE_DONE →
      (∃ d ∈ todo, d.device.type = type ∧ d.session_id = session_id) →
      ∀ r', findRequest
        (stopDeviceDevLoop type session_id label kept todo reg).1 label =
        some r' → r'.state type = MEDIA_REQUEST_STATE_CLOSING := by
  intro todo
  induction todo with
  | nil =>
    intro kept reg r _ _ _ _ hmatch
    simp at hmatch
  | cons d rest ih =>
    intro kept reg r hfind hsync hlen hdone hmatch r' h
    by_cases hm : d.device.type ≠ type ∨ d.session_id ≠ session_id
    · rcases hmatch with ⟨e, he, hme⟩
      rcases List.mem_cons.mp he with rfl | hr
      · exact absurd hme (by tauto)
      · simp only [stopDeviceDevLoop, if_pos hm] at h
        exact ih (kept ++ [d]) reg r hfind
          (by rw [hsync, List.append_assoc, List.singleton_append]) hlen
          hdone ⟨e, hr, hme⟩ r' h
    · have hmm : d.device.type = type ∧ d.session_id = session_id := by
        push_neg at hm
        exact ⟨hm.1, hm.2⟩
      simp only [stopDeviceDevLoop, if_neg hm, hfind] at h
      rw [if_pos hdone] at h
      have hdmem : d ∈ r.devices := by
        rw [hsync]
        simp
      have hmark : (closeDeviceMark type session_id r).state type =
          MEDIA_REQUEST_STATE_CLOSING :=
        closeDeviceMark_state_closing type session_id r ht hlen
          ⟨d, hdmem, hmm.2, hmm.1⟩
      refine stopDeviceDevLoop_closing_inv type session_id label ht rest
        kept _ ?_ r' h
      intro r1 hr1
      rw [findRequest_updateRequest] at hr1
      have hfc : findRequest (closeDevice type session_id reg).1 label =
          some (closeDeviceMark type session_id r) := by
        simp only [closeDevice]
        rw [findRequest_map_value, hfind]
        rfl
      rw [hfc] at hr1
      simp only [Option.map_some'] at hr1
      rw [← Option.some.inj hr1]
      constructor
      · exact hmark
      · rw [closeDeviceMark_length]
        exact hlen

/-- On a registry whose only scan hit is `label`, `StopDevice` behaves as
the device scan of that one request, up to the possible final deletion. -/
theorem stopDeviceReqLoop_single (type : MediaStreamType) (session_id : Int)
    (label : String) (reg : Registry) (r : DeviceRequest)
    (hfr : findRequest reg label = some r) :
    (stopDeviceReqLoop type session_id [label] reg).2 =
      (stopDeviceDevLoop type session_id label [] r.devices reg).2 ∧
    ∀ r', findRequest
        (stopDeviceReqLoop type session_id [label] reg).1 label = some r' →
      findRequest
        (stopDeviceDevLoop type session_id label [] r.devices reg).1 label =
        some r' := by
  constructor
  · simp [stopDeviceReqLoop, hfr]
  · intro r' h
    simp only [stopDeviceReqLoop, hfr] at h
    rcases hfs : findRequest
        (stopDeviceDevLoop type session_id label [] r.devices reg).1 label
      with _ | r1
    · simp only [hfs] at h
      exact h
    · simp only [hfs] at h
      by_cases hemp : r1.devices.isEmpty = true
      · rw [if_pos hemp, findRequest_deleteRequest] at h
        exact absurd h (by simp)
      · rw [if_neg hemp] at h
        rw [hfs] at h
        exact h

/-- `FinalizeEnumerateDevices` always notifies the requester with exactly
one `DevicesEnumerated` callback for its label. -/
theorem finalizeEnumerateDevices_events (env : Env) (l : String)
    (request : DeviceRequest) :
    ∃ ds, (finalizeEnumerateDevices env l request).2 =
      [Event.DevicesEnumeratedEvt l ds] := by
  unfold finalizeEnumerateDevices
  split
  · exact ⟨[], rfl⟩
  · exact ⟨_, rfl⟩

/-- `FinalizeEnumerateDevices` rewrites only the device list, never the
state vector. -/
theorem finalizeEnumerateDevices_state (env : Env) (l : String)
    (request : DeviceRequest) :
    (finalizeEnumerateDevices env l request).1.state_ = request.state_ := by
  unfold finalizeEnumerateDevices
  split <;> rfl

theorem state_congr (r r' : DeviceRequest) (h : r.state_ = r'.state_)
    (t : MediaStreamType) : r.state t = r'.state t := by
  unfold DeviceRequest.state
  rw [h]

theorem setCacheOf_requests (st : MSMState) (t : MediaStreamType)
    (c : EnumerationCache) : (setCacheOf st t c).requests_ = st.requests_ := by
  unfold setCacheOf
  split <;> rfl

/-- When every previously cached device id still appears in the fresh list,
`StopRemovedDevices` tears nothing down. -/
theorem stopRemovedDevices_noop (env : Env)
    (old_devices new_devices : List StreamDeviceInfo) (reg : Registry)
    (h : ∀ d ∈ old_devices,
      new_devices.any (fun nd => nd.device.id == d.device.id) = true) :
    stopRemovedDevices env old_devices new_devices reg = (reg, []) := by
  unfold stopRemovedDevices
  have key : ∀ (ds : List StreamDeviceInfo) (acc : Registry × List Event),
      (∀ d ∈ ds,
        new_devices.any (fun nd => nd.device.id == d.device.id) = true) →
      ds.foldl
        (fun acc old_dev =>
          if new_devices.any
              (fun nd => nd.device.id == old_dev.device.id) then acc
          else
            let step := stopRemovedDevice env old_dev.device acc.1
            (step.1, acc.2 ++ step.2)) acc = acc := by
    intro ds
    induction ds with
    | nil => intro acc _; rfl
    | cons d rest ih =>
      intro acc hall
      simp only [List.foldl_cons]
      rw [if_pos (hall d (List.mem_cons_self d rest))]
      exact ih acc (fun e he => hall e (List.mem_cons_of_mem d he))
  exact key old_devices (reg, []) h

/-- A successful lookup names an actual registry entry. -/
theorem findRequest_mem (reg : Registry) (l : String) (r : DeviceRequest)
    (h : findRequest reg l = some r) : (l, r) ∈ reg := by
  induction reg with
  | nil => simp [findRequest] at h
  | cons p rest ih =>
    by_cases hk : p.1 = l
    · simp only [findRequest, if_pos hk] at h
      have hp : p = (l, r) := by
        rw [← hk, ← Option.some.inj h]
      rw [hp]
      exact List.mem_cons_self _ _
    · simp only [findRequest, if_neg hk] at h
      exact List.mem_cons_of_mem p (ih h)

/-- The `PENDING_APPROVAL` advance of `DevicesEnumerated` leaves an
enumerate-devices request untouched (its kind is excluded from the
advance). -/
theorem findRequest_advanceMap (stream_type : MediaStreamType)
    (reg : Registry) (l : String) (r : DeviceRequest)
    (hfr : findRequest reg l = some r)
    (htype : r.request.request_type = MEDIA_ENUMERATE_DEVICES) :
    findRequest (reg.map (fun p =>
      if p.2.state stream_type = MEDIA_REQUEST_STATE_REQUESTED ∧
          Requested p.2.request stream_type ∧
          p.2.request.request_type ≠ MEDIA_ENUMERATE_DEVICES then
        (p.1, p.2.SetState stream_type
          MEDIA_REQUEST_STATE_PENDING_APPROVAL)
      else p)) l = some r := by
  induction reg with
  | nil => simp [findRequest] at hfr
  | cons p rest ih =>
    by_cases hk : p.1 = l
    · simp only [findRequest, if_pos hk] at hfr
      have hcond : ¬(p.2.state stream_type =
            MEDIA_REQUEST_STATE_REQUESTED ∧
          Requested p.2.request stream_type ∧
          p.2.request.request_type ≠ MEDIA_ENUMERATE_DEVICES) := by
        rw [Option.some.inj hfr]
        intro hc
        exact hc.2.2 htype
      simp only [List.map_cons, findRequest, if_neg hcond, if_pos hk]
      exact hfr
    · simp only [findRequest, if_neg hk] at hfr
      by_cases hcond : p.2.state stream_type =
            MEDIA_REQUEST_STATE_REQUESTED ∧
          Requested p.2.request stream_type ∧
          p.2.request.request_type ≠ MEDIA_ENUMERATE_DEVICES
      · simp only [List.map_cons, findRequest, if_pos hcond, if_neg hk]
        exact ih hfr
      · simp only [List.map_cons, findRequest, if_neg hcond, if_neg hk]
        exact ih hfr

/-- `PostRequestToUI` never deletes any registry entry. -/
theorem postRequestToUI_isSome (env : Env) (l2 : String) (st : MSMState)
    (l : String) :
    (findRequest (postRequestToUI env l2 st).1.requests_ l).isSome =
      (findRequest st.requests_ l).isSome := by
  rcases hfr : findRequest st.requests_ l2 with _ | r
  · simp [postRequestToUI, hfr]
  · have ht := translateRequestedSourceIdToDeviceId_fst env st r
    simp only [postRequestToUI, hfr]
    rw [if_neg (not_not_intro ht)]
    dsimp only
    exact findRequest_updateRequest_isSome _ _ _ _

/-- `PostRequestToUI` on one label leaves every other label's entry
untouched. -/
theorem postRequestToUI_ne (env : Env) (l2 : String) (st : MSMState)
    (l : String) (hne : l ≠ l2) :
    findRequest (postRequestToUI env l2 st).1.requests_ l =
      findRequest st.requests_ l := by
  rcases hfr : findRequest st.requests_ l2 with _ | r
  · simp [postRequestToUI, hfr]
  · have ht := translateRequestedSourceIdToDeviceId_fst env st r
    simp only [postRequestToUI, hfr]
    rw [if_neg (not_not_intro ht)]
    dsimp only
    exact findRequest_updateRequest_ne _ _ _ _ hne

/-- The delivery loop of `DevicesEnumerated` never deletes a registry
entry. -/
theorem devicesEnumeratedSecondLoop_preserves (env : Env)
    (stream_type : MediaStreamType) (devices : List StreamDeviceInfo)
    (nuc : Bool) :
    ∀ (labels : List String) (st : MSMState) (l : String),
      (findRequest st.requests_ l).isSome = true →
      (findRequest (devicesEnumeratedSecondLoop env stream_type devices nuc
        labels st).1.requests_ l).isSome = true := by
  intro labels
  induction labels with
  | nil =>
    intro st l h
    exact h
  | cons l2 rest ih =>
    intro st l h
    rcases hfr : findRequest st.requests_ l2 with _ | r2
    · simp only [devicesEnumeratedSecondLoop, hfr]
      exact ih st l h
    · simp only [devicesEnumeratedSecondLoop, hfr]
      rcases htp : r2.request.request_type with _ | _ | _ | _ <;>
        simp only [htp] <;>
        split
      all_goals first
        | exact ih st l h
        | (refine ih _ l ?_
           rw [findRequest_updateRequest_isSome]
           exact h)
        | (refine ih _ l ?_
           rw [postRequestToUI_isSome]
           exact h)

/-- The delivery loop of `DevicesEnumerated` serves every
requester-attached enumerate-devices request whose label was collected,
when the list content changed, and keeps it registered. -/
theorem devicesEnumeratedSecondLoop_delivers (env : Env)
    (stream_type : MediaStreamType) (devices : List StreamDeviceInfo) :
    ∀ (labels : List String) (st : MSMState) (l : String)
      (r : DeviceRequest), l ∈ labels →
      findRequest st.requests_ l = some r →
      r.request.request_type = MEDIA_ENUMERATE_DEVICES →
      r.requester = true →
      (∃ ds, Event.DevicesEnumeratedEvt l ds ∈
        (devicesEnumeratedSecondLoop env stream_type devices true labels
          st).2) ∧
      (findRequest (devicesEnumeratedSecondLoop env stream_type devices true
        labels st).1.requests_ l).isSome = true := by
  intro labels
  induction labels with
  | nil =>
    intro st l r hl
    simp at hl
  | cons l2 rest ih =>
    intro st l r hl hfr htype hreq
    by_cases hll : l2 = l
    · subst hll
      simp only [devicesEnumeratedSecondLoop, hfr, htype]
      split
      · obtain ⟨ds, hds⟩ := finalizeEnumerateDevices_events env l2
          { r with devices := devices }
        constructor
        · refine ⟨ds, ?_⟩
          rw [hds]
          exact List.mem_append_left _ (List.mem_cons_self _ _)
        · refine devicesEnumeratedSecondLoop_preserves env stream_type
            devices true rest _ l2 ?_
          rw [findRequest_updateRequest_isSome, hfr]
          rfl
      · next hcond =>
          exact absurd ⟨by trivial, hreq⟩ hcond
    · have hl' : l ∈ rest := by
        rcases List.mem_cons.mp hl with rfl | hr
        · exact absurd rfl hll
        · exact hr
      have hne' : l ≠ l2 := fun he => hll he.symm
      rcases hfr2 : findRequest st.requests_ l2 with _ | r2
      · simp only [devicesEnumeratedSecondLoop, hfr2]
        exact ih st l r hl' hfr htype hreq
      · have hkeepP : findRequest (postRequestToUI env l2 st).1.requests_ l =
            some r := by
          rw [postRequestToUI_ne _ _ _ _ hne']
          exact hfr
        have hkeepU : ∀ f, findRequest (updateRequest st.requests_ l2 f) l =
            some r := by
          intro f
          rw [findRequest_updateRequest_ne _ _ _ _ hne']
          exact hfr
        simp only [devicesEnumeratedSecondLoop, hfr2]
        rcases htp : r2.request.request_type with _ | _ | _ | _ <;>
          simp only [htp] <;>
          split
        · exact ih st l r hl' hfr htype hreq
        · obtain ⟨hev, hpres⟩ := ih (postRequestToUI env l2 st).1 l r hl'
            hkeepP htype hreq
          refine ⟨?_, hpres⟩
          rcases hev with ⟨ds, hds⟩
          exact ⟨ds, List.mem_append_right _ hds⟩
        · exact ih st l r hl' hfr htype hreq
        · obtain ⟨hev, hpres⟩ := ih (postRequestToUI env l2 st).1 l r hl'
            hkeepP htype hreq
          refine ⟨?_, hpres⟩
          rcases hev with ⟨ds, hds⟩
          exact ⟨ds, List.mem_append_right _ hds⟩
        · have hkeepU2 : findRequest (updateRequest st.requests_ l2
              (fun _ => (finalizeEnumerateDevices env l2
                { r2 with devices := devices }).1)) l = some r := hkeepU _
          obtain ⟨hev, hpres⟩ := ih
            (MSMState.mk
              (updateRequest st.requests_ l2 (fun _ =>
                (finalizeEnumerateDevices env l2
                  { r2 with devices := devices }).1))
              st.audio_enumeration_cache_ st.video_enumeration_cache_
              st.monitoring_started_ st.active_enumeration_ref_count_)
            l r hl' hkeepU2 htype hreq
          refine ⟨?_, hpres⟩
          rcases hev with ⟨ds, hds⟩
          exact ⟨ds, List.mem_append_right _ hds⟩
        · exact ih st l r hl' hfr htype hreq
        · exact ih st l r hl' hfr htype hreq
        · obtain ⟨hev, hpres⟩ := ih (postRequestToUI env l2 st).1 l r hl'
            hkeepP htype hreq
          refine ⟨?_, hpres⟩
          rcases hev with ⟨ds, hds⟩
          exact ⟨ds, List.mem_append_right _ hds⟩

theorem refSet_requests (st : MSMState) (t : MediaStreamType) (v : Int) :
    (refSet st t v).requests_ = st.requests_ := rfl

/-- C10 (amended).  A served enumerate-devices request is not deleted: the
cached-list delivery of `DoEnumerateDevices` leaves the request registered
with its kind still `REQUESTED` (first conjunct, audio kind), and a later
`DevicesEnumerated` whose list content differs from the cache is delivered
to the same requester again with the request kept registered — provided no
previously delivered device disappeared from the fresh list (second
conjunct).  The restriction is necessary: a removed device tears the
request down (see the counterexample). -/
theorem c10_enumerate_request_persistence_amended (env : Env)
    (stream_type : MediaStreamType) (devices : List StreamDeviceInfo)
    (st : MSMState) (label : String) (r : DeviceRequest) :
    (findRequest st.requests_ label = some r →
      r.request.audio_type = MEDIA_DEVICE_AUDIO_CAPTURE →
      st.audio_enumeration_cache_.valid = true →
      r.state_.length = 7 →
      (∃ ds, (doEnumerateDevices env label st).2 =
        [Event.DevicesEnumeratedEvt label ds]) ∧
      ∃ r', findRequest (doEnumerateDevices env label st).1.requests_
          label = some r' ∧
        r'.state MEDIA_DEVICE_AUDIO_CAPTURE =
          MEDIA_REQUEST_STATE_REQUESTED) ∧
    (findRequest st.requests_ label = some r →
      r.request.request_type = MEDIA_ENUMERATE_DEVICES →
      r.requester = true →
      r.state stream_type = MEDIA_REQUEST_STATE_REQUESTED →
      Requested r.request stream_type →
      devices ≠ (cacheOf st stream_type).devices →
      (∀ d ∈ (cacheOf st stream_type).devices,
        devices.any (fun nd => nd.device.id == d.device.id) = true) →
      (∃ ds, Event.DevicesEnumeratedEvt label ds ∈
        (DevicesEnumerated env stream_type devices st).2) ∧
      (findRequest (DevicesEnumerated env stream_type devices
        st).1.requests_ label).isSome = true) := by
  constructor
  · intro hfind haud hvalid hlen
    simp only [doEnumerateDevices, hfind]
    rw [if_pos haud]
    simp only [doEnumerateDevicesWith]
    rw [if_pos hvalid]
    dsimp only
    constructor
    · exact finalizeEnumerateDevices_events env label _
    · refine ⟨_, by rw [findRequest_updateRequest, hfind]; rfl, ?_⟩
      rw [state_congr _ _ (finalizeEnumerateDevices_state env label _)]
      exact state_SetState_self r MEDIA_DEVICE_AUDIO_CAPTURE
        MEDIA_REQUEST_STATE_REQUESTED (by decide) hlen
  · intro hfind htype hreq hstate hreqd hdiff hnorem
    have hnuc : (!(cacheOf st stream_type).valid ||
        decide (devices ≠ (cacheOf st stream_type).devices)) = true := by
      rw [decide_eq_true hdiff]
      exact Bool.or_true _
    simp only [DevicesEnumerated]
    rw [if_pos hnuc,
      stopRemovedDevices_noop env (cacheOf st stream_type).devices devices
        st.requests_ hnorem]
    rw [hnuc]
    dsimp only
    rw [setCacheOf_requests]
    dsimp only
    have hmem : label ∈ (st.requests_.filter (fun p =>
        decide (p.2.state stream_type = MEDIA_REQUEST_STATE_REQUESTED ∧
          Requested p.2.request stream_type))).map Prod.fst := by
      have hpair := findRequest_mem st.requests_ label r hfind
      exact List.mem_map_of_mem Prod.fst
        (List.mem_filter.mpr ⟨hpair, decide_eq_true ⟨hstate, hreqd⟩⟩)
    have hfind3 := findRequest_advanceMap stream_type st.requests_ label r
      hfind htype
    constructor
    · refine Exists.elim ((devicesEnumeratedSecondLoop_delivers env
          stream_type devices _ _ label r ?_ ?_ htype hreq).1)
        (fun ds hds => ⟨ds, List.mem_append_right _ hds⟩)
      · exact hmem
      · exact hfind3
    · rw [refSet_requests]
      refine (devicesEnumeratedSecondLoop_delivers env stream_type devices
        _ _ label r ?_ ?_ htype hreq).2
      · exact hmem
      · exact hfind3

/-- The anonymized entry a served enumerate-devices request holds: id
HMAC'd in place by `FinalizeEnumerateDevices`, session id still `kNoId`. -/
def wEnumDeliveredInfo : StreamDeviceInfo :=
  { device := { type := MEDIA_DEVICE_AUDIO_CAPTURE, id := "h:o:d1" }
    session_id := -1 }

/-- The cached audio device the enumerate request was served from. -/
def wCacheAudioInfo : StreamDeviceInfo :=
  { device := { type := MEDIA_DEVICE_AUDIO_CAPTURE, id := "d1" } }

/-- A second audio device hot-plugged later. -/
def wNewAudioInfo : StreamDeviceInfo :=
  { device := { type := MEDIA_DEVICE_AUDIO_CAPTURE, id := "d2" } }

/-- A served enumerate-devices request: registered, requester attached,
audio kind still `REQUESTED`, holding the anonymized delivered list. -/
def wEnumReq : DeviceRequest :=
  { requester := true
    request :=
      { security_origin := wOrigin
        request_type := MEDIA_ENUMERATE_DEVICES
        audio_type := MEDIA_DEVICE_AUDIO_CAPTURE
        video_type := MEDIA_NO_SERVICE }
    requesting_process_id := 1
    requesting_view_id := 2
    resource_context := 3
    ui_proxy := false
    devices := [wEnumDeliveredInfo]
    state_ := [MEDIA_REQUEST_STATE_NOT_REQUESTED,
      MEDIA_REQUEST_STATE_REQUESTED, MEDIA_REQUEST_STATE_NOT_REQUESTED,
      MEDIA_REQUEST_STATE_NOT_REQUESTED, MEDIA_REQUEST_STATE_NOT_REQUESTED,
      MEDIA_REQUEST_STATE_NOT_REQUESTED,
      MEDIA_REQUEST_STATE_NOT_REQUESTED] }

/-- The manager state after that request was served: request registered,
valid audio cache holding the one device, monitoring running. -/
def wSt10 : MSMState :=
  { requests_ := [("E", wEnumReq)]
    monitoring_started_ := true
    audio_enumeration_cache_ :=
      { valid := true, devices := [wCacheAudioInfo] } }

/-- C10 counterexample to unconditional redelivery: when the one delivered
device is unplugged, the next `DevicesEnumerated` (content differs from the
cache) does not redeliver — `StopRemovedDevices` erases the request's
anonymized entries (they match the removed id under the HMAC and share
session `kNoId`) and the emptied request is deleted by `StopDevice`; the
requester only sees a `DeviceStopped` notification, and the request is gone
from the registry rather than waiting for its explicit cancel. -/
theorem c10_enumerate_request_deleted_counterexample :
    findRequest wSt10.requests_ "E" = some wEnumReq ∧
    wEnumReq.request.request_type = MEDIA_ENUMERATE_DEVICES ∧
    wEnumReq.requester = true ∧
    wEnumReq.state MEDIA_DEVICE_AUDIO_CAPTURE =
      MEDIA_REQUEST_STATE_REQUESTED ∧
    (cacheOf wSt10 MEDIA_DEVICE_AUDIO_CAPTURE).valid = true ∧
    ([] : List StreamDeviceInfo) ≠
      (cacheOf wSt10 MEDIA_DEVICE_AUDIO_CAPTURE).devices ∧
    (DevicesEnumerated wEnv MEDIA_DEVICE_AUDIO_CAPTURE [] wSt10).2 =
      [Event.DeviceStoppedEvt 2 "E" wEnumDeliveredInfo,
        Event.DevicesChangedNotice MEDIA_DEVICE_AUDIO_CAPTURE []] ∧
    findRequest
      (DevicesEnumerated wEnv MEDIA_DEVICE_AUDIO_CAPTURE []
        wSt10).1.requests_ "E" = none := by
  refine ⟨rfl, rfl, rfl, rfl, rfl, ?_, rfl, rfl⟩
  decide

/-- Witness for C10 (amended) at a concrete input: the initial delivery of
the cached list, and the redelivery when a second device is added with the
first still present. -/
theorem c10_enumerate_request_persistence_amended_witness :
    ((∃ ds, (doEnumerateDevices wEnv "E" wSt10).2 =
        [Event.DevicesEnumeratedEvt "E" ds]) ∧
      ∃ r', findRequest (doEnumerateDevices wEnv "E" wSt10).1.requests_
          "E" = some r' ∧
        r'.state MEDIA_DEVICE_AUDIO_CAPTURE =
          MEDIA_REQUEST_STATE_REQUESTED) ∧
    (∃ ds, Event.DevicesEnumeratedEvt "E" ds ∈
      (DevicesEnumerated wEnv MEDIA_DEVICE_AUDIO_CAPTURE
        [wCacheAudioInfo, wNewAudioInfo] wSt10).2) ∧
    (findRequest (DevicesEnumerated wEnv MEDIA_DEVICE_AUDIO_CAPTURE
      [wCacheAudioInfo, wNewAudioInfo] wSt10).1.requests_ "E").isSome =
      true :=
  ⟨(c10_enumerate_request_persistence_amended wEnv
        MEDIA_DEVICE_AUDIO_CAPTURE [wCacheAudioInfo, wNewAudioInfo] wSt10
        "E" wEnumReq).1 rfl rfl rfl (by decide),
    (c10_enumerate_request_persistence_amended wEnv
        MEDIA_DEVICE_AUDIO_CAPTURE [wCacheAudioInfo, wNewAudioInfo] wSt10
        "E" wEnumReq).2 rfl rfl rfl (by decide) (Or.inl rfl) (by decide)
      (by decide)⟩

/-! Which operations dispatch provider enumerations: the effect catalogue
used by the ref-count invariant. -/

/-- An effect list that contains no provider enumeration dispatch. -/
def NoEnumDispatch (evs : List Event) : Prop :=
  ∀ e ∈ evs, ∀ u : MediaStreamType, e ≠ Event.EnumerateDevicesCall u

theorem noEnum_nil : NoEnumDispatch [] := by
  intro e he
  simp at he

theorem noEnum_append {a b : List Event} (ha : NoEnumDispatch a)
    (hb : NoEnumDispatch b) : NoEnumDispatch (a ++ b) := by
  intro e he u
  rcases List.mem_append.mp he with h | h
  · exact ha e h u
  · exact hb e h u

theorem enumCallCount_eq_zero {evs : List Event} (h : NoEnumDispatch evs)
    (t : MediaStreamType) : enumCallCount t evs = 0 := by
  unfold enumCallCount
  rw [List.countP_eq_zero]
  intro a ha
  simp only [beq_iff_eq]
  exact h a ha t

theorem enumCallCount_append (t : MediaStreamType) (a b : List Event) :
    enumCallCount t (a ++ b) = enumCallCount t a + enumCallCount t b := by
  unfold enumCallCount
  exact List.countP_append _ _ _

theorem noEnum_closeDevice (type : MediaStreamType) (sid : Int)
    (reg : Registry) : NoEnumDispatch (closeDevice type sid reg).2 := by
  intro e he u
  simp only [closeDevice, List.mem_singleton] at he
  subst he
  simp

theorem noEnum_finalizeGenerateStream (label : String)
    (request : DeviceRequest) :
    NoEnumDispatch (finalizeGenerateStream label request) := by
  intro e he u
  simp only [finalizeGenerateStream, List.mem_singleton] at he
  subst he
  simp

theorem noEnum_finalizeOpenDevice (label : String)
    (request : DeviceRequest) :
    NoEnumDispatch (finalizeOpenDevice label request) := by
  intro e he u
  simp only [finalizeOpenDevice, List.mem_singleton] at he
  subst he
  simp

theorem noEnum_finalizeRequestFailed (label : String)
    (request : DeviceRequest) (reg : Registry) :
    NoEnumDispatch (finalizeRequestFailed label request reg).2 := by
  refine noEnum_append ?_ ?_
  · split
    · intro e he u
      simp only [List.mem_singleton] at he
      subst he
      simp
    · exact noEnum_nil
  · split
    · intro e he u
      simp only [List.mem_singleton] at he
      subst he
      simp
    · exact noEnum_nil

theorem noEnum_finalizeMediaAccessRequest (label : String)
    (request : DeviceRequest) (devices : List MediaStreamDevice)
    (reg : Registry) :
    NoEnumDispatch (finalizeMediaAccessRequest label request devices
      reg).2 := by
  unfold finalizeMediaAccessRequest
  split
  · intro e he u
    simp only [List.mem_singleton] at he
    subst he
    simp
  · exact noEnum_nil

theorem noEnum_finalizeEnumerateDevices (env : Env) (label : String)
    (request : DeviceRequest) :
    NoEnumDispatch (finalizeEnumerateDevices env label request).2 := by
  unfold finalizeEnumerateDevices
  split
  all_goals
    intro e he u
  all_goals
    simp only [List.mem_singleton] at he
  all_goals
    subst he
  all_goals
    simp

theorem noEnum_handleRequestDone (label : String) (request : DeviceRequest) :
    NoEnumDispatch (handleRequestDone label request) := by
  unfold handleRequestDone
  refine noEnum_append ?_ ?_
  · split
    · exact noEnum_finalizeOpenDevice _ _
    · exact noEnum_finalizeGenerateStream _ _
    · exact noEnum_nil
  · split
    · intro e he u
      simp only [List.mem_singleton] at he
      subst he
      simp
    · exact noEnum_nil

theorem noEnum_stopDeviceDevLoop (type : MediaStreamType) (sid : Int)
    (label : String) :
    ∀ (todo kept : List StreamDeviceInfo) (reg : Registry),
      NoEnumDispatch (stopDeviceDevLoop type sid label kept todo reg).2 := by
  intro todo
  induction todo with
  | nil =>
    intro kept reg
    exact noEnum_nil
  | cons d rest ih =>
    intro kept reg
    by_cases hm : d.device.type ≠ type ∨ d.session_id ≠ sid
    · simp only [stopDeviceDevLoop, if_pos hm]
      exact ih (kept ++ [d]) reg
    · simp only [stopDeviceDevLoop, if_neg hm]
      rcases hfr : findRequest reg label with _ | r <;> simp only [hfr]
      · exact ih kept _
      · by_cases hdone : r.state type = MEDIA_REQUEST_STATE_DONE
        · rw [if_pos hdone]
          exact noEnum_append (noEnum_closeDevice _ _ _) (ih kept _)
        · rw [if_neg hdone]
          exact ih kept _

theorem noEnum_stopDeviceReqLoop (type : MediaStreamType) (sid : Int) :
    ∀ (labels : List String) (reg : Registry),
      NoEnumDispatch (stopDeviceReqLoop type sid labels reg).2 := by
  intro labels
  induction labels with
  | nil =>
    intro reg
    exact noEnum_nil
  | cons l rest ih =>
    intro reg
    simp only [stopDeviceReqLoop]
    split
    · exact ih reg
    · exact noEnum_append (noEnum_stopDeviceDevLoop _ _ _ _ _ _) (ih _)

theorem noEnum_stopDevice (type : MediaStreamType) (sid : Int)
    (reg : Registry) : NoEnumDispatch (stopDevice type sid reg).2 :=
  noEnum_stopDeviceReqLoop type sid _ reg

theorem noEnum_cancelRequestDevLoop (label : String) :
    ∀ (ds : List StreamDeviceInfo) (reg : Registry),
      NoEnumDispatch (cancelRequestDevLoop label ds reg).2 := by
  intro ds
  induction ds with
  | nil =>
    intro reg
    exact noEnum_nil
  | cons d rest ih =>
    intro reg
    simp only [cancelRequestDevLoop]
    split
    · split
      · exact ih reg
      · exact noEnum_append (noEnum_closeDevice _ _ _) (ih _)
    · exact ih reg

theorem noEnum_cancelRequest (label : String) (reg : Registry) :
    NoEnumDispatch (cancelRequest label reg).2 := by
  unfold cancelRequest
  split
  · exact noEnum_nil
  · split
    · exact noEnum_nil
    · exact noEnum_cancelRequestDevLoop _ _ _

theorem noEnum_cancelAllRequests (pid : Int) (reg : Registry) :
    NoEnumDispatch (cancelAllRequests pid reg).2 := by
  unfold cancelAllRequests
  have key : ∀ (labels : List String) (acc : Registry × List Event),
      NoEnumDispatch acc.2 →
      NoEnumDispatch (labels.foldl
        (fun acc l =>
          let step := cancelRequest l acc.1
          (step.1, acc.2 ++ step.2)) acc).2 := by
    intro labels
    induction labels with
    | nil =>
      intro acc h
      exact h
    | cons l rest ih =>
      intro acc h
      simp only [List.foldl_cons]
      exact ih _ (noEnum_append h (noEnum_cancelRequest l acc.1))
  exact key _ (reg, []) noEnum_nil

theorem noEnum_stopStreamDevice (pid vid : Int) (device_id : String)
    (reg : Registry) :
    NoEnumDispatch (stopStreamDevice pid vid device_id reg).2 := by
  unfold stopStreamDevice
  split
  · exact noEnum_stopDevice _ _ _
  · exact noEnum_nil

theorem noEnum_stopRemovedDeviceScan (env : Env)
    (device : MediaStreamDevice) :
    ∀ reg : Registry,
      NoEnumDispatch (stopRemovedDeviceScan env device reg).2 := by
  intro reg
  induction reg with
  | nil => exact noEnum_nil
  | cons p rest ih =>
    rcases p with ⟨l, r⟩
    simp only [stopRemovedDeviceScan]
    refine noEnum_append ?_ ih
    split
    · intro e he u
      rcases List.mem_map.mp he with ⟨d, _, rfl⟩
      simp
    · exact noEnum_nil

theorem noEnum_stopRemovedDevice (env : Env) (device : MediaStreamDevice)
    (reg : Registry) :
    NoEnumDispatch (stopRemovedDevice env device reg).2 := by
  unfold stopRemovedDevice
  have key : ∀ (sids : List Int) (acc : Registry × List Event),
      NoEnumDispatch acc.2 →
      NoEnumDispatch (sids.foldl
        (fun acc sid =>
          let step := stopDevice device.type sid acc.1
          (step.1, acc.2 ++ step.2)) acc).2 := by
    intro sids
    induction sids with
    | nil =>
      intro acc h
      exact h
    | cons sid rest ih =>
      intro acc h
      simp only [List.foldl_cons]
      exact ih _ (noEnum_append h (noEnum_stopDevice _ _ _))
  exact key _ _ (noEnum_stopRemovedDeviceScan env device reg)

theorem noEnum_stopRemovedDevices (env : Env)
    (old_devices new_devices : List StreamDeviceInfo) (reg : Registry) :
    NoEnumDispatch (stopRemovedDevices env old_devices new_devices
      reg).2 := by
  unfold stopRemovedDevices
  have key : ∀ (ds : List StreamDeviceInfo) (acc : Registry × List Event),
      NoEnumDispatch acc.2 →
      NoEnumDispatch (ds.foldl
        (fun acc old_dev =>
          if new_devices.any
              (fun nd => nd.device.id == old_dev.device.id) then acc
          else
            let step := stopRemovedDevice env old_dev.device acc.1
            (step.1, acc.2 ++ step.2)) acc).2 := by
    intro ds
    induction ds with
    | nil =>
      intro acc h
      exact h
    | cons d rest ih =>
      intro acc h
      simp only [List.foldl_cons]
      split
      · exact ih _ h
      · exact ih _ (noEnum_append h (noEnum_stopRemovedDevice _ _ _))
  exact key _ _ noEnum_nil

theorem noEnum_openedProcessRequest (env : Env)
    (stream_type : MediaStreamType) (sid : Int) (label : String)
    (reg : Registry) :
    NoEnumDispatch (openedProcessRequest env stream_type sid label
      reg).2 := by
  unfold openedProcessRequest
  split
  · exact noEnum_nil
  · split
    · exact noEnum_nil
    · dsimp only
      split
      · exact noEnum_nil
      · split <;> split
        all_goals first
          | exact noEnum_handleRequestDone _ _
          | exact noEnum_nil

theorem noEnum_openedLoop (env : Env) (stream_type : MediaStreamType)
    (sid : Int) :
    ∀ (labels : List String) (reg : Registry),
      NoEnumDispatch (openedLoop env stream_type sid labels reg).2 := by
  intro labels
  induction labels with
  | nil =>
    intro reg
    exact noEnum_nil
  | cons l rest ih =>
    intro reg
    simp only [openedLoop]
    exact noEnum_append (noEnum_openedProcessRequest _ _ _ _ _) (ih _)

theorem noEnum_opened (env : Env) (stream_type : MediaStreamType)
    (sid : Int) (reg : Registry) :
    NoEnumDispatch (opened env stream_type sid reg).2 :=
  noEnum_openedLoop env stream_type sid _ reg

theorem noEnum_harrDeviceLoop (env : Env) (label : String) :
    ∀ (devices : List MediaStreamDevice) (fa fv : Bool) (reg : Registry),
      NoEnumDispatch (harrDeviceLoop env label devices fa fv
        reg).2.2.2 := by
  intro devices
  induction devices with
  | nil =>
    intro fa fv reg
    exact noEnum_nil
  | cons d rest ih =>
    intro fa fv reg
    simp only [harrDeviceLoop]
    split
    · exact noEnum_nil
    · split
      · exact ih _ _ _
      · intro e he u
        rcases List.mem_cons.mp he with rfl | hr
        · simp
        · exact ih _ _ _ e hr u

theorem noEnum_handleAccessRequestResponse (env : Env) (label : String)
    (devices : List MediaStreamDevice) (reg : Registry) :
    NoEnumDispatch (handleAccessRequestResponse env label devices
      reg).2 := by
  unfold handleAccessRequestResponse
  split
  · exact noEnum_nil
  · split
    · exact noEnum_finalizeMediaAccessRequest _ _ _ _
    · split
      · exact noEnum_finalizeRequestFailed _ _ _
      · dsimp only
        split
        · split
          · exact noEnum_append (noEnum_harrDeviceLoop _ _ _ _ _ _)
              (noEnum_handleRequestDone _ _)
          · exact noEnum_harrDeviceLoop _ _ _ _ _ _
        · exact noEnum_harrDeviceLoop _ _ _ _ _ _

theorem noEnum_stopMediaStreamFromBrowser (label : String)
    (reg : Registry) :
    NoEnumDispatch (stopMediaStreamFromBrowser label reg).2 := by
  unfold stopMediaStreamFromBrowser
  split
  · exact noEnum_nil
  · refine noEnum_append ?_ (noEnum_cancelRequest _ _)
    split
    · intro e he u
      rcases List.mem_map.mp he with ⟨d, _, rfl⟩
      simp
    · exact noEnum_nil

theorem noEnum_postRequestToUI (env : Env) (label : String)
    (st : MSMState) : NoEnumDispatch (postRequestToUI env label st).2 := by
  unfold postRequestToUI
  split
  · exact noEnum_nil
  · dsimp only
    split
    · dsimp only
      exact noEnum_finalizeRequestFailed _ _ _
    · intro e he u
      simp only [List.mem_singleton] at he
      subst he
      simp

theorem noEnum_secondLoop (env : Env) (stream_type : MediaStreamType)
    (devices : List StreamDeviceInfo) (nuc : Bool) :
    ∀ (labels : List String) (st : MSMState),
      NoEnumDispatch (devicesEnumeratedSecondLoop env stream_type devices
        nuc labels st).2 := by
  intro labels
  induction labels with
  | nil =>
    intro st
    exact noEnum_nil
  | cons l rest ih =>
    intro st
    simp only [devicesEnumeratedSecondLoop]
    split
    · exact ih _
    · split <;> split
      all_goals first
        | exact ih _
        | exact noEnum_append (noEnum_finalizeEnumerateDevices _ _ _) (ih _)
        | exact noEnum_append (noEnum_postRequestToUI _ _ _) (ih _)

theorem noEnum_DevicesEnumerated (env : Env)
    (stream_type : MediaStreamType) (devices : List StreamDeviceInfo)
    (st : MSMState) :
    NoEnumDispatch (DevicesEnumerated env stream_type devices st).2 := by
  simp only [DevicesEnumerated]
  refine noEnum_append (noEnum_append ?_ ?_) (noEnum_secondLoop _ _ _ _ _ _)
  · dsimp only
    split
    · exact noEnum_stopRemovedDevices _ _ _ _
    · exact noEnum_nil
  · dsimp only
    split <;> split
    all_goals first
      | exact noEnum_nil
      | (intro e he u
         simp only [List.mem_singleton] at he
         subst he
         simp)

/-! Ref-count accounting: each operation changes
`active_enumeration_ref_count_` by exactly the number of enumeration
dispatches it emits (minus the one completion a `DevicesEnumerated`
consumes). -/

theorem refGet_refSet (st : MSMState) (u : MediaStreamType) (v : Int)
    (t : MediaStreamType) :
    refGet (refSet st u v) t = if t = u then v else refGet st t := rfl

theorem refGet_postRequestToUI (env : Env) (label : String) (st : MSMState)
    (t : MediaStreamType) :
    refGet (postRequestToUI env label st).1 t = refGet st t := by
  unfold postRequestToUI
  split
  · rfl
  · dsimp only
    split <;> rfl

theorem refGet_secondLoop (env : Env) (stream_type : MediaStreamType)
    (devices : List StreamDeviceInfo) (nuc : Bool) :
    ∀ (labels : List String) (st : MSMState) (t : MediaStreamType),
      refGet (devicesEnumeratedSecondLoop env stream_type devices nuc
        labels st).1 t = refGet st t := by
  intro labels
  induction labels with
  | nil =>
    intro st t
    rfl
  | cons l rest ih =>
    intro st t
    simp only [devicesEnumeratedSecondLoop]
    split
    · exact ih st t
    · split <;> split
      all_goals first
        | exact ih _ t
        | rw [ih _ t, refGet_postRequestToUI]

theorem setCacheOf_ref (st : MSMState) (u : MediaStreamType)
    (c : EnumerationCache) :
    (setCacheOf st u c).active_enumeration_ref_count_ =
      st.active_enumeration_ref_count_ := by
  unfold setCacheOf
  split <;> rfl

theorem refGet_DevicesEnumerated (env : Env)
    (stream_type : MediaStreamType) (devices : List StreamDeviceInfo)
    (st : MSMState) (t : MediaStreamType) :
    refGet (DevicesEnumerated env stream_type devices st).1 t =
      if t = stream_type then refGet st t - 1 else refGet st t := by
  simp only [DevicesEnumerated]
  split
  all_goals
    rw [refGet_refSet]
  all_goals
    simp only [refGet_secondLoop]
  all_goals
    simp only [refGet]
  all_goals
    try rw [setCacheOf_ref]
  all_goals
    split <;> simp_all [refGet]

theorem refGet_startMonitoring (env : Env) (st : MSMState)
    (t : MediaStreamType) :
    refGet (startMonitoring env st).1 t =
      refGet st t + (enumCallCount t (startMonitoring env st).2 : Int) := by
  unfold startMonitoring
  split
  · simp [enumCallCount]
  · split
    · simp [enumCallCount]
    · dsimp only
      cases t <;>
        simp [refGet_refSet, refGet, refSet, enumCallCount,
          List.countP_cons, List.countP_nil, beq_iff_eq]

theorem refGet_startEnumerationLoop (label : String) (t : MediaStreamType) :
    ∀ (ts : List MediaStreamType) (st : MSMState),
      refGet (startEnumerationLoop label ts st).1 t =
        refGet st t +
          (enumCallCount t (startEnumerationLoop label ts st).2 : Int) := by
  intro ts
  induction ts with
  | nil =>
    intro st
    simp [startEnumerationLoop, enumCallCount]
  | cons u rest ih =>
    intro st
    simp only [startEnumerationLoop]
    split
    · exact ih st
    · split
      · split
        · rw [ih _, refGet_refSet]
          simp only [enumCallCount, List.countP_cons, beq_iff_eq]
          by_cases ht : t = u
          · subst ht
            simp only [if_pos rfl]
            push_cast
            simp [refGet]
            ring
          · have hut : ¬(Event.EnumerateDevicesCall u =
                Event.EnumerateDevicesCall t) := by
              intro hc
              exact ht (by cases hc; rfl)
            simp only [if_neg ht, if_neg hut]
            push_cast
            simp [refGet, enumCallCount]
        · rw [ih _]
          rfl
      · exact ih st

theorem refGet_startEnumeration (env : Env) (label : String)
    (st : MSMState) (t : MediaStreamType) :
    refGet (startEnumeration env label st).1 t =
      refGet st t +
        (enumCallCount t (startEnumeration env label st).2 : Int) := by
  unfold startEnumeration
  dsimp only
  rw [enumCallCount_append, refGet_startEnumerationLoop]
  split
  · rw [refGet_startMonitoring]
    push_cast
    ring
  · dsimp only
    simp [enumCallCount]

theorem refGet_setupRequest (env : Env) (label : String) (st : MSMState)
    (t : MediaStreamType) :
    refGet (setupRequest env label st).1 t =
      refGet st t +
        (enumCallCount t (setupRequest env label st).2 : Int) := by
  unfold setupRequest
  split
  · simp [enumCallCount]
  · dsimp only
    split
    · dsimp only
      rw [enumCallCount_eq_zero (noEnum_finalizeRequestFailed _ _ _)]
      simp [refGet]
    · split
      · dsimp only
        rw [enumCallCount_eq_zero (noEnum_finalizeRequestFailed _ _ _)]
        simp [refGet]
      · split
        · rw [enumCallCount_eq_zero (noEnum_finalizeRequestFailed _ _ _)]
          split <;> simp [refGet]
        · split <;> split
          all_goals first
            | (rw [refGet_startEnumeration] <;> rfl)
            | (rw [refGet_postRequestToUI,
                 enumCallCount_eq_zero (noEnum_postRequestToUI _ _ _)] <;>
               simp [refGet])

theorem refGet_doEnumerateDevices (env : Env) (label : String)
    (st : MSMState) (t : MediaStreamType) :
    refGet (doEnumerateDevices env label st).1 t =
      refGet st t +
        (enumCallCount t (doEnumerateDevices env label st).2 : Int) := by
  unfold doEnumerateDevices
  split
  · simp [enumCallCount]
  · split
    all_goals
      unfold doEnumerateDevicesWith
    all_goals
      split
    · dsimp only
      rw [enumCallCount_eq_zero (noEnum_finalizeEnumerateDevices _ _ _)]
      simp [refGet]
    · exact refGet_startEnumeration _ _ _ _
    · dsimp only
      rw [enumCallCount_eq_zero (noEnum_finalizeEnumerateDevices _ _ _)]
      simp [refGet]
    · exact refGet_startEnumeration _ _ _ _

theorem refGet_onDevicesChanged (dt : SystemMonitorDeviceType)
    (st : MSMState) (t : MediaStreamType) :
    refGet (onDevicesChanged dt st).1 t =
      refGet st t +
        (enumCallCount t (onDevicesChanged dt st).2 : Int) := by
  cases dt <;> cases t <;>
    simp [onDevicesChanged, refGet_refSet, refGet, refSet, enumCallCount,
      List.countP_cons, List.countP_nil, beq_iff_eq]

theorem refGet_ensureDeviceMonitorStarted (env : Env) (st : MSMState)
    (t : MediaStreamType) :
    refGet (ensureDeviceMonitorStarted env st).1 t =
      refGet st t +
        (enumCallCount t (ensureDeviceMonitorStarted env st).2 : Int) := by
  unfold ensureDeviceMonitorStarted
  split
  · exact refGet_startMonitoring _ _ _
  · simp [enumCallCount]

theorem stopMonitoring_ref (st : MSMState) (t : MediaStreamType) :
    refGet (stopMonitoring st).1 t = refGet st t ∧
      (stopMonitoring st).2 = [] := by
  unfold stopMonitoring
  split <;> exact ⟨rfl, rfl⟩

theorem openDevice_ref (requester : Bool) (pid vid : Int) (rc : Nat)
    (prid : Int) (device_id : String) (type : MediaStreamType)
    (origin : GURL) (label : String) (st : MSMState) (t : MediaStreamType) :
    refGet (openDevice requester pid vid rc prid device_id type origin label
      st).1 t = refGet st t ∧
    (openDevice requester pid vid rc prid device_id type origin label
      st).2 = [] := by
  unfold openDevice
  dsimp only
  split <;> exact ⟨rfl, rfl⟩

theorem enumerateDevices_ref (requester : Bool) (pid vid : Int) (rc : Nat)
    (prid : Int) (type : MediaStreamType) (origin : GURL) (label : String)
    (st : MSMState) (t : MediaStreamType) :
    refGet (enumerateDevices requester pid vid rc prid type origin label
      st).1 t = refGet st t ∧
    (enumerateDevices requester pid vid rc prid type origin label
      st).2 = [] := by
  unfold enumerateDevices
  dsimp only
  split <;> exact ⟨rfl, rfl⟩

theorem refGet_liftReg (f : Registry → Registry × List Event)
    (st : MSMState) (t : MediaStreamType) :
    refGet (liftReg f st).1 t = refGet st t := rfl

theorem liftReg_snd (f : Registry → Registry × List Event) (st : MSMState) :
    (liftReg f st).2 = (f st.requests_).2 := rfl

/-- Global accounting invariant: along every reachable trace, each kind's
`active_enumeration_ref_count_` equals the number of in-flight provider
enumerations of that kind. -/
theorem reaches_ref_eq_infl (env : Env) {st : MSMState}
    {infl : MediaStreamType → Nat} (h : Reaches env st infl) :
    ∀ t, refGet st t = (infl t : Int) := by
  induction h with
  | init =>
    intro t
    rfl
  | @step st0 infl0 op hr ha ih =>
    intro t
    cases op with
    | opGenerateStream requester pid vid rc prid options origin label =>
      simp only [msmStep, updateInflight, generateStream]
      simpa [enumCallCount, addRequest, refGet] using ih t
    | opOpenDevice requester pid vid rc prid device_id type origin label =>
      obtain ⟨h1, h2⟩ := openDevice_ref requester pid vid rc prid device_id
        type origin label st0 t
      simp only [msmStep, updateInflight]
      rw [h1, h2]
      simpa [enumCallCount] using ih t
    | opEnumerateDevices requester pid vid rc prid type origin label =>
      obtain ⟨h1, h2⟩ := enumerateDevices_ref requester pid vid rc prid type
        origin label st0 t
      simp only [msmStep, updateInflight]
      rw [h1, h2]
      simpa [enumCallCount] using ih t
    | opMakeMediaAccessRequest pid vid prid options origin has_callback
        label =>
      simp only [msmStep, updateInflight, makeMediaAccessRequest]
      simpa [enumCallCount, addRequest, refGet] using ih t
    | opSetupRequest label =>
      simp only [msmStep, updateInflight]
      rw [refGet_setupRequest, ih t]
      push_cast
      ring
    | opDoEnumerateDevices label =>
      simp only [msmStep, updateInflight]
      rw [refGet_doEnumerateDevices, ih t]
      push_cast
      ring
    | opCancelRequest label =>
      simp only [msmStep, updateInflight]
      rw [refGet_liftReg, liftReg_snd,
        enumCallCount_eq_zero (noEnum_cancelRequest _ _)]
      simpa using ih t
    | opCancelAllRequests pid =>
      simp only [msmStep, updateInflight]
      rw [refGet_liftReg, liftReg_snd,
        enumCallCount_eq_zero (noEnum_cancelAllRequests _ _)]
      simpa using ih t
    | opStopStreamDevice pid vid device_id =>
      simp only [msmStep, updateInflight]
      rw [refGet_liftReg, liftReg_snd,
        enumCallCount_eq_zero (noEnum_stopStreamDevice _ _ _ _)]
      simpa using ih t
    | opStopMediaStreamFromBrowser label =>
      simp only [msmStep, updateInflight]
      rw [refGet_liftReg, liftReg_snd,
        enumCallCount_eq_zero (noEnum_stopMediaStreamFromBrowser _ _)]
      simpa using ih t
    | opHandleAccessRequestResponse label devices =>
      simp only [msmStep, updateInflight]
      rw [refGet_liftReg, liftReg_snd,
        enumCallCount_eq_zero (noEnum_handleAccessRequestResponse _ _ _ _)]
      simpa using ih t
    | opOpened stream_type capture_session_id =>
      simp only [msmStep, updateInflight]
      rw [refGet_liftReg, liftReg_snd,
        enumCallCount_eq_zero (noEnum_opened _ _ _ _)]
      simpa using ih t
    | opDevicesEnumerated stream_type devices =>
      simp only [msmStep, updateInflight]
      rw [refGet_DevicesEnumerated,
        enumCallCount_eq_zero (noEnum_DevicesEnumerated _ _ _ _)]
      have hpos : 0 < infl0 stream_type := ha.1
      have hit := ih t
      by_cases ht : t = stream_type
      · subst ht
        rw [if_pos rfl, if_pos rfl]
        omega
      · rw [if_neg ht, if_neg ht]
        simpa using hit
    | opOnDevicesChanged device_type =>
      simp only [msmStep, updateInflight]
      rw [refGet_onDevicesChanged, ih t]
      push_cast
      ring
    | opEnsureDeviceMonitorStarted =>
      simp only [msmStep, updateInflight]
      rw [refGet_ensureDeviceMonitorStarted, ih t]
      push_cast
      ring
    | opStopMonitoring =>
      obtain ⟨h1, h2⟩ := stopMonitoring_ref st0 t
      simp only [msmStep, updateInflight]
      rw [h1, h2]
      simpa [enumCallCount] using ih t

/-- C4.  For every media kind, along every allowed operation sequence from
construction, the active-enumeration ref count is never negative, and once
every dispatched provider enumeration of the kind (from `StartEnumeration`,
`StartMonitoring` or a hot-plug `OnDevicesChanged`) has had its
`DevicesEnumerated` completion processed — no enumeration in flight — the
count is exactly 0. -/
theorem c4_enumeration_refcount_invariant (env : Env) (st : MSMState)
    (infl : MediaStreamType → Nat) (t : MediaStreamType)
    (h : Reaches env st infl) :
    0 ≤ refGet st t ∧ (infl t = 0 → refGet st t = 0) := by
  have he := reaches_ref_eq_infl env h t
  constructor
  · rw [he]
    exact Int.natCast_nonneg _
  · intro h0
    rw [he, h0]
    rfl

/-- Witness for C4 at a concrete trace: construction followed by
`EnsureDeviceMonitorStarted` (which dispatches one enumeration per device
kind). -/
theorem c4_enumeration_refcount_invariant_witness :
    0 ≤ refGet (msmStep wEnv MSMOp.opEnsureDeviceMonitorStarted
      msmInitial).1 MEDIA_DEVICE_AUDIO_CAPTURE ∧
    (updateInflight MSMOp.opEnsureDeviceMonitorStarted
        (msmStep wEnv MSMOp.opEnsureDeviceMonitorStarted msmInitial).2
        (fun _ => 0) MEDIA_DEVICE_AUDIO_CAPTURE = 0 →
      refGet (msmStep wEnv MSMOp.opEnsureDeviceMonitorStarted
        msmInitial).1 MEDIA_DEVICE_AUDIO_CAPTURE = 0) :=
  c4_enumeration_refcount_invariant wEnv _ _ MEDIA_DEVICE_AUDIO_CAPTURE
    (Reaches.step MSMOp.opEnsureDeviceMonitorStarted Reaches.init trivial)

/-- C5 fixture: the options of an audio-only generate-stream request. -/
def wC5Opts : StreamOptions :=
  { audio_type := MEDIA_DEVICE_AUDIO_CAPTURE }

/-- C5 fixture: the audio-only request `GenerateStream` registers for
`wC5Opts`. -/
def wC5Req : DeviceRequest :=
  DeviceRequest.make true
    { render_process_id := 1, render_view_id := 2, page_request_id := 3,
      security_origin := wOrigin, request_type := MEDIA_GENERATE_STREAM,
      requested_audio_device_id := "", requested_video_device_id := "",
      audio_type := MEDIA_DEVICE_AUDIO_CAPTURE,
      video_type := MEDIA_NO_SERVICE } 1 2 0

/-! The C5 state-vector invariant: what any single `SetState` can do to any
slot, and the per-request shape preserved by every operation. -/

/-- Any `SetState` write leaves a given slot unchanged, sets it to the
written value, or (only through the out-of-range default) reads back
`NOT_REQUESTED`. -/
theorem state_SetState_cases (r : DeviceRequest) (t : MediaStreamType)
    (s : MediaRequestState) (u : MediaStreamType) :
    (r.SetState t s).state u = r.state u ∨ (r.SetState t s).state u = s ∨
      (r.SetState t s).state u = MEDIA_REQUEST_STATE_NOT_REQUESTED := by
  by_cases ht : t = NUM_MEDIA_TYPES
  · subst ht
    simp only [DeviceRequest.SetState, DeviceRequest.state, if_true]
    rcases hst : r.state_ with _ | ⟨x, xs⟩
    · left
      rfl
    · dsimp only
      rcases hidx : u.toIdx with _ | i
      · left
        rfl
      · rw [List.getD_cons_succ, List.getD_cons_succ,
          List.getD_eq_getElem?_getD, List.getD_eq_getElem?_getD,
          List.getElem?_map]
        rcases hxi : xs[i]? with _ | y <;>
          simp only [hxi, Option.map_none', Option.map_some',
            Option.getD_none, Option.getD_some]
        · right
          right
          trivial
        · right
          left
          trivial
  · by_cases hu : u = t
    · subst hu
      rcases state_SetState_self_or r u s ht with h | h
      · right
        left
        exact h
      · left
        exact h
    · left
      exact state_SetState_ne r t u s ht hu

/-- The close-time marking changes each slot at most to `CLOSING` (or the
out-of-range `NOT_REQUESTED` default). -/
theorem closeDeviceMark_fold_cases (type : MediaStreamType)
    (session_id : Int) (ds : List StreamDeviceInfo) (acc : DeviceRequest)
    (u : MediaStreamType) :
    (ds.foldl
      (fun r' d =>
        if d.session_id = session_id ∧ d.device.type = type then
          r'.SetState type MEDIA_REQUEST_STATE_CLOSING
        else r') acc).state u = acc.state u ∨
    (ds.foldl
      (fun r' d =>
        if d.session_id = session_id ∧ d.device.type = type then
          r'.SetState type MEDIA_REQUEST_STATE_CLOSING
        else r') acc).state u = MEDIA_REQUEST_STATE_CLOSING ∨
    (ds.foldl
      (fun r' d =>
        if d.session_id = session_id ∧ d.device.type = type then
          r'.SetState type MEDIA_REQUEST_STATE_CLOSING
        else r') acc).state u = MEDIA_REQUEST_STATE_NOT_REQUESTED := by
  induction ds generalizing acc with
  | nil =>
    left
    rfl
  | cons d rest ih =>
    simp only [List.foldl_cons]
    split
    · rcases ih (acc.SetState type MEDIA_REQUEST_STATE_CLOSING) with
        h | h | h
      · rcases state_SetState_cases acc type MEDIA_REQUEST_STATE_CLOSING u
          with h2 | h2 | h2
        · left
          rw [h, h2]
        · right
          left
          rw [h, h2]
        · right
          right
          rw [h, h2]
      · right
        left
        exact h
      · right
        right
        exact h
    · exact ih acc

/-- Reading the sentinel slot of a full-size vector gives the out-of-range
default. -/
theorem state_NUM (r : DeviceRequest) (hlen : r.state_.length = 7) :
    r.state NUM_MEDIA_TYPES = MEDIA_REQUEST_STATE_NOT_REQUESTED := by
  unfold DeviceRequest.state
  exact List.getD_eq_default _ _ (by rw [hlen]; decide)

/-- The per-request invariant of C5 (amended): a full-size state vector; a
kind absent from the descriptor reads `NOT_REQUESTED`, or `CLOSING` once a
teardown has marked it; an enumerate-devices request asks for microphone
audio or camera video. -/
def ReqInv (r : DeviceRequest) : Prop :=
  r.state_.length = 7 ∧
  (∀ u, ¬Requested r.request u →
    r.state u = MEDIA_REQUEST_STATE_NOT_REQUESTED ∨
    r.state u = MEDIA_REQUEST_STATE_CLOSING) ∧
  (r.request.request_type = MEDIA_ENUMERATE_DEVICES →
    r.request.audio_type = MEDIA_DEVICE_AUDIO_CAPTURE ∨
    r.request.video_type = MEDIA_DEVICE_VIDEO_CAPTURE)

/-- The registry-wide invariant: every registered request satisfies
`ReqInv`. -/
def RegNice (reg : Registry) : Prop :=
  ∀ l r, findRequest reg l = some r → ReqInv r

theorem ReqInv_make (requester : Bool) (request : MediaStreamRequest)
    (pid vid : Int) (rc : Nat)
    (hshape : request.request_type = MEDIA_ENUMERATE_DEVICES →
      request.audio_type = MEDIA_DEVICE_AUDIO_CAPTURE ∨
      request.video_type = MEDIA_DEVICE_VIDEO_CAPTURE) :
    ReqInv (DeviceRequest.make requester request pid vid rc) := by
  refine ⟨rfl, ?_, hshape⟩
  intro u _
  left
  unfold DeviceRequest.state DeviceRequest.make
  rw [List.getD_eq_getElem?_getD, List.getElem?_replicate]
  split <;> rfl

/-- Marking `CLOSING` (through any slot, including the broadcast) keeps the
invariant. -/
theorem ReqInv_SetState_closing (r : DeviceRequest) (t : MediaStreamType)
    (h : ReqInv r) :
    ReqInv (r.SetState t MEDIA_REQUEST_STATE_CLOSING) := by
  obtain ⟨hlen, hstate, hshape⟩ := h
  refine ⟨by rw [length_SetState]; exact hlen, ?_, ?_⟩
  · intro u hu
    rw [request_SetState] at hu
    rcases state_SetState_cases r t MEDIA_REQUEST_STATE_CLOSING u with
      h2 | h2 | h2
    · rw [h2]
      exact hstate u hu
    · right
      exact h2
    · left
      exact h2
  · rw [request_SetState]
    exact hshape

/-- Writing a slot the descriptor names keeps the invariant, whatever the
value. -/
theorem ReqInv_SetState_requested (r : DeviceRequest) (t : MediaStreamType)
    (s : MediaRequestState) (ht : t ≠ NUM_MEDIA_TYPES)
    (hreq : Requested r.request t) (h : ReqInv r) :
    ReqInv (r.SetState t s) := by
  obtain ⟨hlen, hstate, hshape⟩ := h
  refine ⟨by rw [length_SetState]; exact hlen, ?_, ?_⟩
  · intro u hu
    rw [request_SetState] at hu
    have hut : u ≠ t := fun he => hu (he ▸ hreq)
    rw [state_SetState_ne r t u s ht hut]
    exact hstate u hu
  · rw [request_SetState]
    exact hshape

theorem ReqInv_closeDeviceMark (type : MediaStreamType) (session_id : Int)
    (r : DeviceRequest) (h : ReqInv r) :
    ReqInv (closeDeviceMark type session_id r) := by
  obtain ⟨hlen, hstate, hshape⟩ := h
  refine ⟨?_, ?_, ?_⟩
  · rw [closeDeviceMark_length]
    exact hlen
  · intro u hu
    rw [closeDeviceMark_request] at hu
    rcases closeDeviceMark_fold_cases type session_id r.devices r u with
      h2 | h2 | h2
    · rw [show closeDeviceMark type session_id r =
          r.devices.foldl _ r from rfl]
      rw [h2]
      exact hstate u hu
    · right
      exact h2
    · left
      exact h2
  · rw [closeDeviceMark_request]
    exact hshape

theorem RegNice_updateRequest (reg : Registry) (label : String)
    (f : DeviceRequest → DeviceRequest) (h : RegNice reg)
    (hf : ∀ r, findRequest reg label = some r → ReqInv (f r)) :
    RegNice (updateRequest reg label f) := by
  intro l r hr
  by_cases hl : l = label
  · subst hl
    rw [findRequest_updateRequest] at hr
    rcases hfr : findRequest reg l with _ | r0
    · rw [hfr] at hr
      exact absurd hr (by simp)
    · rw [hfr] at hr
      simp only [Option.map_some'] at hr
      rw [← Option.some.inj hr]
      exact hf r0 hfr
  · rw [findRequest_updateRequest_ne _ _ _ _ hl] at hr
    exact h l r hr

theorem RegNice_updateRequest_total (reg : Registry) (label : String)
    (f : DeviceRequest → DeviceRequest) (h : RegNice reg)
    (hf : ∀ r, ReqInv r → ReqInv (f r)) :
    RegNice (updateRequest reg label f) :=
  RegNice_updateRequest reg label f h (fun r hr => hf r (h label r hr))

theorem RegNice_deleteRequest (reg : Registry) (label : String)
    (h : RegNice reg) : RegNice (deleteRequest reg label) := by
  intro l r hr
  by_cases hl : l = label
  · subst hl
    rw [findRequest_deleteRequest] at hr
    exact absurd hr (by simp)
  · rw [findRequest_deleteRequest_ne _ _ _ hl] at hr
    exact h l r hr

theorem RegNice_closeDevice (type : MediaStreamType) (session_id : Int)
    (reg : Registry) (h : RegNice reg) :
    RegNice (closeDevice type session_id reg).1 := by
  intro l r hr
  simp only [closeDevice] at hr
  rw [findRequest_map_value] at hr
  rcases hfr : findRequest reg l with _ | r0
  · rw [hfr] at hr
    exact absurd hr (by simp)
  · rw [hfr] at hr
    simp only [Option.map_some'] at hr
    rw [← Option.some.inj hr]
    exact ReqInv_closeDeviceMark type session_id r0 (h l r0 hfr)

theorem findRequest_append_singleton (reg : Registry) (label l : String)
    (q : DeviceRequest) (r : DeviceRequest)
    (h : findRequest (reg ++ [(label, q)]) l = some r) :
    findRequest reg l = some r ∨ r = q := by
  induction reg with
  | nil =>
    simp only [List.nil_append, findRequest] at h
    split at h
    · exact Or.inr (Option.some.inj h).symm
    · exact absurd h (by simp [findRequest])
  | cons p rest ih =>
    simp only [List.cons_append, findRequest] at h ⊢
    split at h
    · rw [if_pos (by assumption)]
      exact Or.inl h
    · rw [if_neg (by assumption)]
      exact ih h

theorem RegNice_stopDeviceDevLoop (type : MediaStreamType) (sid : Int)
    (label : String) :
    ∀ (todo kept : List StreamDeviceInfo) (reg : Registry),
      RegNice reg →
      RegNice (stopDeviceDevLoop type sid label kept todo reg).1 := by
  intro todo
  induction todo with
  | nil =>
    intro kept reg h
    exact h
  | cons d rest ih =>
    intro kept reg h
    by_cases hm : d.device.type ≠ type ∨ d.session_id ≠ sid
    · simp only [stopDeviceDevLoop, if_pos hm]
      exact ih (kept ++ [d]) reg h
    · simp only [stopDeviceDevLoop, if_neg hm]
      rcases hfr : findRequest reg label with _ | r <;> simp only [hfr]
      · exact ih kept _ (RegNice_updateRequest_total _ _ _ h
          (fun r' hr' => hr'))
      · by_cases hdone : r.state type = MEDIA_REQUEST_STATE_DONE
        · rw [if_pos hdone]
          exact ih kept _ (RegNice_updateRequest_total _ _ _
            (RegNice_closeDevice _ _ _ h) (fun r' hr' => hr'))
        · rw [if_neg hdone]
          exact ih kept _ (RegNice_updateRequest_total _ _ _ h
            (fun r' hr' => hr'))

theorem RegNice_stopDeviceReqLoop (type : MediaStreamType) (sid : Int) :
    ∀ (labels : List String) (reg : Registry), RegNice reg →
      RegNice (stopDeviceReqLoop type sid labels reg).1 := by
  intro labels
  induction labels with
  | nil =>
    intro reg h
    exact h
  | cons l rest ih =>
    intro reg h
    rcases hfr : findRequest reg l with _ | r
    · simp only [stopDeviceReqLoop, hfr]
      exact ih reg h
    · simp only [stopDeviceReqLoop, hfr]
      have h1 := RegNice_stopDeviceDevLoop type sid l r.devices [] reg h
      split
      · split
        · exact ih _ (RegNice_deleteRequest _ _ h1)
        · exact ih _ h1
      · exact ih _ h1

theorem RegNice_stopDevice (type : MediaStreamType) (sid : Int)
    (reg : Registry) (h : RegNice reg) :
    RegNice (stopDevice type sid reg).1 :=
  RegNice_stopDeviceReqLoop type sid _ reg h

theorem RegNice_cancelRequestDevLoop (label : String) :
    ∀ (ds : List StreamDeviceInfo) (reg : Registry), RegNice reg →
      RegNice (cancelRequestDevLoop label ds reg).1 := by
  intro ds
  induction ds with
  | nil =>
    intro reg h
    exact h
  | cons d rest ih =>
    intro reg h
    simp only [cancelRequestDevLoop]
    split
    · split
      · exact ih reg h
      · exact ih _ (RegNice_closeDevice _ _ _ h)
    · exact ih reg h

theorem RegNice_cancelRequest (label : String) (reg : Registry)
    (h : RegNice reg) : RegNice (cancelRequest label reg).1 := by
  unfold cancelRequest
  split
  · exact h
  · split
    · exact RegNice_deleteRequest _ _ h
    · exact RegNice_deleteRequest _ _ (RegNice_updateRequest_total _ _ _
        (RegNice_cancelRequestDevLoop _ _ _ h)
        (fun r' hr' => ReqInv_SetState_closing r' NUM_MEDIA_TYPES hr'))

theorem RegNice_cancelAllRequests (pid : Int) (reg : Registry)
    (h : RegNice reg) : RegNice (cancelAllRequests pid reg).1 := by
  unfold cancelAllRequests
  have key : ∀ (labels : List String) (acc : Registry × List Event),
      RegNice acc.1 →
      RegNice (labels.foldl
        (fun acc l =>
          let step := cancelRequest l acc.1
          (step.1, acc.2 ++ step.2)) acc).1 := by
    intro labels
    induction labels with
    | nil =>
      intro acc ha
      exact ha
    | cons l rest ih =>
      intro acc ha
      simp only [List.foldl_cons]
      exact ih _ (RegNice_cancelRequest l acc.1 ha)
  exact key _ (reg, []) h

theorem RegNice_stopStreamDevice (pid vid : Int) (device_id : String)
    (reg : Registry) (h : RegNice reg) :
    RegNice (stopStreamDevice pid vid device_id reg).1 := by
  unfold stopStreamDevice
  split
  · exact RegNice_stopDevice _ _ _ h
  · exact h

theorem RegNice_stopRemovedDevice (env : Env) (device : MediaStreamDevice)
    (reg : Registry) (h : RegNice reg) :
    RegNice (stopRemovedDevice env device reg).1 := by
  unfold stopRemovedDevice
  have key : ∀ (sids : List Int) (acc : Registry × List Event),
      RegNice acc.1 →
      RegNice (sids.foldl
        (fun acc sid =>
          let step := stopDevice device.type sid acc.1
          (step.1, acc.2 ++ step.2)) acc).1 := by
    intro sids
    induction sids with
    | nil =>
      intro acc ha
      exact ha
    | cons sid rest ih =>
      intro acc ha
      simp only [List.foldl_cons]
      exact ih _ (RegNice_stopDevice _ _ _ ha)
  exact key _ _ h

theorem RegNice_stopRemovedDevices (env : Env)
    (old_devices new_devices : List StreamDeviceInfo) (reg : Registry)
    (h : RegNice reg) :
    RegNice (stopRemovedDevices env old_devices new_devices reg).1 := by
  unfold stopRemovedDevices
  have key : ∀ (ds : List StreamDeviceInfo) (acc : Registry × List Event),
      RegNice acc.1 →
      RegNice (ds.foldl
        (fun acc old_dev =>
          if new_devices.any
              (fun nd => nd.device.id == old_dev.device.id) then acc
          else
            let step := stopRemovedDevice env old_dev.device acc.1
            (step.1, acc.2 ++ step.2)) acc).1 := by
    intro ds
    induction ds with
    | nil =>
      intro acc ha
      exact ha
    | cons d rest ih =>
      intro acc ha
      simp only [List.foldl_cons]
      split
      · exact ih _ ha
      · exact ih _ (RegNice_stopRemovedDevice _ _ _ ha)
  exact key _ _ h

theorem RegNice_stopMediaStreamFromBrowser (label : String)
    (reg : Registry) (h : RegNice reg) :
    RegNice (stopMediaStreamFromBrowser label reg).1 := by
  unfold stopMediaStreamFromBrowser
  split
  · exact h
  · exact RegNice_cancelRequest _ _ h

theorem translateDeviceIdToSourceId_type (env : Env)
    (request : DeviceRequest) (device : MediaStreamDevice) :
    (translateDeviceIdToSourceId env request device).type = device.type := by
  unfold translateDeviceIdToSourceId
  split <;> rfl

theorem finalizeEnumerateDevices_request (env : Env) (l : String)
    (request : DeviceRequest) :
    (finalizeEnumerateDevices env l request).1.request =
      request.request := by
  unfold finalizeEnumerateDevices
  split <;> rfl

/-- A deduplication hit of `FindExistingRequestedDeviceInfo` matches the
probed device's type. -/
theorem findExisting_type (env : Env) (new_request : DeviceRequest)
    (new_device : MediaStreamDevice) :
    ∀ (reg : Registry) (ex : StreamDeviceInfo × MediaRequestState),
      findExistingRequestedDeviceInfo env reg new_request new_device =
        some ex → ex.1.device.type = new_device.type := by
  intro reg
  induction reg with
  | nil =>
    intro ex h
    simp [findExistingRequestedDeviceInfo] at h
  | cons p rest ih =>
    intro ex h
    simp only [findExistingRequestedDeviceInfo, List.findSome?_cons] at h ih
    split at h
    next b heq =>
      have hbe : b = ex := Option.some.inj h
      subst hbe
      split at heq
      · split at heq
        next d hd =>
          have hde := Option.some.inj heq
          have hpred := List.find?_some hd
          simp only [decide_eq_true_iff] at hpred
          rw [← hde]
          exact hpred.2
        next hd =>
          exact absurd heq (by simp)
      · exact absurd heq (by simp)
    next heq =>
      exact ih ex h

theorem setupTabCaptureRequest_shape (env : Env) (r r1 : DeviceRequest)
    (h : setupTabCaptureRequest env r = some r1) :
    r1.state_ = r.state_ ∧
    r1.request.request_type = r.request.request_type ∧
    r1.request.audio_type = r.request.audio_type ∧
    r1.request.video_type = r.request.video_type := by
  unfold setupTabCaptureRequest at h
  dsimp only at h
  split at h
  · exact absurd h (by simp)
  · split at h
    · exact absurd h (by simp)
    · rw [← Option.some.inj h]
      exact ⟨rfl, rfl, rfl, rfl⟩

theorem translateRequested_shape (env : Env) (st : MSMState)
    (r : DeviceRequest) :
    (translateRequestedSourceIdToDeviceId env st r).2.state_ = r.state_ ∧
    (translateRequestedSourceIdToDeviceId env st
      r).2.request.request_type = r.request.request_type ∧
    (translateRequestedSourceIdToDeviceId env st
      r).2.request.audio_type = r.request.audio_type ∧
    (translateRequestedSourceIdToDeviceId env st
      r).2.request.video_type = r.request.video_type := by
  unfold translateRequestedSourceIdToDeviceId translateRequestedVideoPart
  dsimp only
  split
  · split
    · exact ⟨rfl, rfl, rfl, rfl⟩
    · split
      · split <;> exact ⟨rfl, rfl, rfl, rfl⟩
      · exact ⟨rfl, rfl, rfl, rfl⟩
  · split
    · split <;> exact ⟨rfl, rfl, rfl, rfl⟩
    · exact ⟨rfl, rfl, rfl, rfl⟩

theorem isAudio_ne_num {t : MediaStreamType} (h : IsAudioMediaType t) :
    t ≠ NUM_MEDIA_TYPES := by
  rcases h with h | h | h <;> subst h <;> decide

theorem isVideo_ne_num {t : MediaStreamType} (h : IsVideoMediaType t) :
    t ≠ NUM_MEDIA_TYPES := by
  rcases h with h | h | h <;> subst h <;> decide

theorem ReqInv_finalizeEnumerate (env : Env) (l : String)
    (r1 : DeviceRequest) (h : ReqInv r1) :
    ReqInv (finalizeEnumerateDevices env l r1).1 := by
  obtain ⟨hlen, hstate, hshape⟩ := h
  refine ⟨?_, ?_, ?_⟩
  · rw [finalizeEnumerateDevices_state]
    exact hlen
  · intro u hu
    rw [finalizeEnumerateDevices_request] at hu
    rw [state_congr _ _ (finalizeEnumerateDevices_state env l r1)]
    exact hstate u hu
  · rw [finalizeEnumerateDevices_request]
    exact hshape

theorem RegNice_postRequestToUI (env : Env) (label : String)
    (st : MSMState) (h : RegNice st.requests_) :
    RegNice (postRequestToUI env label st).1.requests_ := by
  rcases hfr : findRequest st.requests_ label with _ | r
  · simp only [postRequestToUI, hfr]
    exact h
  · simp only [postRequestToUI, hfr]
    split
    · exact RegNice_deleteRequest _ _ h
    · dsimp only
      refine RegNice_updateRequest _ _ _ h ?_
      intro r0 _
      obtain ⟨hts, htt, hta, htv⟩ := translateRequested_shape env st r
      have hr : ReqInv r := h label r hfr
      have h1 : ReqInv (translateRequestedSourceIdToDeviceId env st
          r).2 := by
        obtain ⟨hlen, hstate, hshape⟩ := hr
        refine ⟨by rw [hts]; exact hlen, ?_, ?_⟩
        · intro u hu
          have hu' : ¬Requested r.request u := by
            intro hc
            apply hu
            unfold Requested at hc ⊢
            rw [hta, htv]
            exact hc
          have hsu : (translateRequestedSourceIdToDeviceId env st
              r).2.state u = r.state u := by
            unfold DeviceRequest.state
            rw [hts]
          rw [hsu]
          exact hstate u hu'
        · rw [htt, hta, htv]
          exact hshape
      by_cases ha : IsAudioMediaType (translateRequestedSourceIdToDeviceId
        env st r).2.request.audio_type
      all_goals by_cases hv : IsVideoMediaType (
        translateRequestedSourceIdToDeviceId env st r).2.request.video_type
      · rw [if_pos ha, if_pos hv]
        exact ReqInv_SetState_requested _ _ _ (isVideo_ne_num hv)
          (by rw [request_SetState]; exact Or.inr rfl)
          (ReqInv_SetState_requested _ _ _ (isAudio_ne_num ha)
            (Or.inl rfl) h1)
      · rw [if_pos ha, if_neg hv]
        exact ReqInv_SetState_requested _ _ _ (isAudio_ne_num ha)
          (Or.inl rfl) h1
      · rw [if_neg ha, if_pos hv]
        exact ReqInv_SetState_requested _ _ _ (isVideo_ne_num hv)
          (Or.inr rfl) h1
      · rw [if_neg ha, if_neg hv]
        exact h1

theorem RegNice_secondLoop (env : Env) (stream_type : MediaStreamType)
    (devices : List StreamDeviceInfo) (nuc : Bool) :
    ∀ (labels : List String) (st : MSMState), RegNice st.requests_ →
      RegNice (devicesEnumeratedSecondLoop env stream_type devices nuc
        labels st).1.requests_ := by
  intro labels
  induction labels with
  | nil =>
    intro st h
    exact h
  | cons l rest ih =>
    intro st h
    rcases hfr : findRequest st.requests_ l with _ | r
    · simp only [devicesEnumeratedSecondLoop, hfr]
      exact ih st h
    · simp only [devicesEnumeratedSecondLoop, hfr]
      rcases htp : r.request.request_type with _ | _ | _ | _ <;>
        simp only [htp] <;>
        split
      all_goals first
        | exact ih st h
        | (refine ih _ ?_
           dsimp only
           refine RegNice_updateRequest _ _ _ h ?_
           intro r0 hr0
           exact ReqInv_finalizeEnumerate env l _ (h l r hfr))
        | exact ih _ (RegNice_postRequestToUI env l st h)

theorem findRequest_advanceMap_cases (stream_type : MediaStreamType) :
    ∀ (reg : Registry) (l : String) (r' : DeviceRequest),
      findRequest (reg.map (fun p =>
        if p.2.state stream_type = MEDIA_REQUEST_STATE_REQUESTED ∧
            Requested p.2.request stream_type ∧
            p.2.request.request_type ≠ MEDIA_ENUMERATE_DEVICES then
          (p.1, p.2.SetState stream_type
            MEDIA_REQUEST_STATE_PENDING_APPROVAL)
        else p)) l = some r' →
      ∃ r0, findRequest reg l = some r0 ∧
        (r' = r0 ∨ (r0.state stream_type = MEDIA_REQUEST_STATE_REQUESTED ∧
          Requested r0.request stream_type ∧
          r' = r0.SetState stream_type
            MEDIA_REQUEST_STATE_PENDING_APPROVAL)) := by
  intro reg
  induction reg with
  | nil =>
    intro l r' h
    simp [findRequest] at h
  | cons p rest ih =>
    intro l r' h
    by_cases hc : p.2.state stream_type = MEDIA_REQUEST_STATE_REQUESTED ∧
        Requested p.2.request stream_type ∧
        p.2.request.request_type ≠ MEDIA_ENUMERATE_DEVICES
    · by_cases hk : p.1 = l
      · simp only [List.map_cons, findRequest, if_pos hc, if_pos hk] at h
        refine ⟨p.2, ?_, Or.inr ⟨hc.1, hc.2.1, (Option.some.inj h).symm⟩⟩
        simp [findRequest, hk]
      · simp only [List.map_cons, findRequest, if_pos hc, if_neg hk] at h
        obtain ⟨r0, hr0, hor⟩ := ih l r' h
        exact ⟨r0, by simp [findRequest, hk, hr0], hor⟩
    · by_cases hk : p.1 = l
      · simp only [List.map_cons, findRequest, if_neg hc, if_pos hk] at h
        refine ⟨p.2, by simp [findRequest, hk],
          Or.inl (Option.some.inj h).symm⟩
      · simp only [List.map_cons, findRequest, if_neg hc, if_neg hk] at h
        obtain ⟨r0, hr0, hor⟩ := ih l r' h
        exact ⟨r0, by simp [findRequest, hk, hr0], hor⟩

theorem RegNice_advanceMap (stream_type : MediaStreamType) (reg : Registry)
    (h : RegNice reg) :
    RegNice (reg.map (fun p =>
      if p.2.state stream_type = MEDIA_REQUEST_STATE_REQUESTED ∧
          Requested p.2.request stream_type ∧
          p.2.request.request_type ≠ MEDIA_ENUMERATE_DEVICES then
        (p.1, p.2.SetState stream_type
          MEDIA_REQUEST_STATE_PENDING_APPROVAL)
      else p)) := by
  intro l r hr
  obtain ⟨r0, hr0, hor⟩ := findRequest_advanceMap_cases stream_type reg l r hr
  have h0 := h l r0 hr0
  rcases hor with rfl | ⟨hst, hreqd, rfl⟩
  · exact h0
  · refine ReqInv_SetState_requested _ _ _ ?_ hreqd h0
    intro hN
    rw [hN, state_NUM r0 h0.1] at hst
    exact absurd hst (by decide)

/-- `ReqInv` depends only on the state vector and the descriptor. -/
theorem ReqInv_congr (r r' : DeviceRequest) (hs : r'.state_ = r.state_)
    (hq : r'.request = r.request) (h : ReqInv r) : ReqInv r' := by
  obtain ⟨hlen, hstate, hshape⟩ := h
  refine ⟨by rw [hs]; exact hlen, ?_, ?_⟩
  · intro u hu
    rw [hq] at hu
    have hsu : r'.state u = r.state u := by
      unfold DeviceRequest.state
      rw [hs]
    rw [hsu]
    exact hstate u hu
  · rw [hq]
    exact hshape

theorem RegNice_startEnumerationLoop (label : String) :
    ∀ (ts : List MediaStreamType) (st : MSMState),
      (∀ t ∈ ts, t ≠ NUM_MEDIA_TYPES) → RegNice st.requests_ →
      RegNice (startEnumerationLoop label ts st).1.requests_ := by
  intro ts
  induction ts with
  | nil =>
    intro st _ h
    exact h
  | cons t rest ih =>
    intro st hts h
    have hrest : ∀ u ∈ rest, u ≠ NUM_MEDIA_TYPES :=
      fun u hu => hts u (List.mem_cons_of_mem _ hu)
    rcases hfr : findRequest st.requests_ label with _ | r
    · simp only [startEnumerationLoop, hfr]
      exact ih st hrest h
    · simp only [startEnumerationLoop, hfr]
      by_cases hreq : Requested r.request t
      · rw [if_pos hreq]
        have h1 : RegNice (updateRequest st.requests_ label
            (fun r' => r'.SetState t MEDIA_REQUEST_STATE_REQUESTED)) := by
          refine RegNice_updateRequest _ _ _ h ?_
          intro r0 hr0
          rw [hfr] at hr0
          rw [← Option.some.inj hr0]
          exact ReqInv_SetState_requested r t _
            (hts t (List.mem_cons_self t rest)) hreq (h label r hfr)
        split
        · dsimp only
          refine ih _ hrest ?_
          rw [refSet_requests]
          exact h1
        · refine ih _ hrest ?_
          exact h1
      · rw [if_neg hreq]
        exact ih st hrest h

theorem RegNice_startEnumeration (env : Env) (label : String)
    (st : MSMState) (h : RegNice st.requests_) :
    RegNice (startEnumeration env label st).1.requests_ := by
  unfold startEnumeration
  dsimp only
  refine RegNice_startEnumerationLoop label allCaptureTypes _ (by decide) ?_
  split
  · rw [startMonitoring_requests]
    exact h
  · exact h

/-- The common tail of `SetupRequest` after the tab-capture special case:
screen-capture screening, then enumeration or the permission step. -/
theorem RegNice_setupRequestTail (env : Env) (label : String)
    (r1 : DeviceRequest) (st1 : MSMState) (c1 c2 : Prop) [Decidable c1]
    [Decidable c2] (h1 : RegNice st1.requests_) :
    RegNice ((if c1 then
        ({ st1 with requests_ :=
            (finalizeRequestFailed label r1 st1.requests_).1 },
          (finalizeRequestFailed label r1 st1.requests_).2)
      else if c2 then startEnumeration env label st1
      else postRequestToUI env label st1).1.requests_) := by
  split
  · exact RegNice_deleteRequest _ _ h1
  · split
    · exact RegNice_startEnumeration env label st1 h1
    · exact RegNice_postRequestToUI env label st1 h1

theorem RegNice_setupRequest (env : Env) (label : String) (st : MSMState)
    (h : RegNice st.requests_) :
    RegNice (setupRequest env label st).1.requests_ := by
  rcases hfr : findRequest st.requests_ label with _ | r
  · simp only [setupRequest, hfr]
    exact h
  · simp only [setupRequest, hfr]
    split
    · exact RegNice_deleteRequest _ _ h
    · split
      · exact RegNice_deleteRequest _ _ h
      next r1 heq =>
        have hr1 : ReqInv r1 := by
          have hr : ReqInv r := h label r hfr
          split at heq
          · obtain ⟨hs, htp, ha2, hv2⟩ :=
              setupTabCaptureRequest_shape env r r1 heq
            refine ⟨hs ▸ hr.1, ?_, ?_⟩
            · intro u hu
              have hu' : ¬Requested r.request u := by
                unfold Requested at hu ⊢
                rw [ha2, hv2] at hu
                exact hu
              have hsu : r1.state u = r.state u := by
                unfold DeviceRequest.state
                rw [hs]
              rw [hsu]
              exact hr.2.1 u hu'
            · rw [htp, ha2, hv2]
              exact hr.2.2
          · rw [← Option.some.inj heq]
            exact hr
        refine RegNice_setupRequestTail env label r1 _ _ _ ?_
        split
        · dsimp only
          exact RegNice_updateRequest _ _ _ h (fun r0 _ => hr1)
        · exact h

theorem RegNice_doEnumerateDevicesWith (env : Env) (label : String)
    (r : DeviceRequest) (type : MediaStreamType) (cache : EnumerationCache)
    (st : MSMState) (ht : type ≠ NUM_MEDIA_TYPES)
    (hreq : Requested r.request type) (h : RegNice st.requests_)
    (hr : ReqInv r) :
    RegNice (doEnumerateDevicesWith env label r type cache st).1.requests_ := by
  unfold doEnumerateDevicesWith
  split
  · dsimp only
    refine RegNice_updateRequest _ _ _ h ?_
    intro r0 _
    refine ReqInv_finalizeEnumerate env label _ ?_
    refine ReqInv_congr _ _ ?_ ?_
      (ReqInv_SetState_requested r type MEDIA_REQUEST_STATE_REQUESTED ht
        hreq hr) <;> rfl
  · exact RegNice_startEnumeration env label st h

theorem RegNice_doEnumerateDevices (env : Env) (label : String)
    (st : MSMState) (h : RegNice st.requests_)
    (hallow : ∀ r, findRequest st.requests_ label = some r →
      r.request.request_type = MEDIA_ENUMERATE_DEVICES) :
    RegNice (doEnumerateDevices env label st).1.requests_ := by
  rcases hfr : findRequest st.requests_ label with _ | r
  · simp only [doEnumerateDevices, hfr]
    exact h
  · simp only [doEnumerateDevices, hfr]
    have hr : ReqInv r := h label r hfr
    have hshape := hr.2.2 (hallow r hfr)
    split
    next ha =>
      exact RegNice_doEnumerateDevicesWith env label r _ _ st (by decide)
        (Or.inl ha) h hr
    next ha =>
      have hv : r.request.video_type = MEDIA_DEVICE_VIDEO_CAPTURE :=
        hshape.resolve_left ha
      exact RegNice_doEnumerateDevicesWith env label r _ _ st (by decide)
        (Or.inr hv) h hr

theorem RegNice_openedProcessRequest (env : Env)
    (stream_type : MediaStreamType) (capture_session_id : Int)
    (label : String) (reg : Registry) (h : RegNice reg) :
    RegNice (openedProcessRequest env stream_type capture_session_id label
      reg).1 := by
  rcases hfr : findRequest reg label with _ | r
  · simp only [openedProcessRequest, hfr]
    exact h
  · simp only [openedProcessRequest, hfr]
    rcases hix : r.devices.findIdx? (fun d =>
        decide (d.device.type = stream_type ∧
          d.session_id = capture_session_id)) with _ | i
    · simp only [hix]
      exact h
    · simp only [hix]
      split
      · exact h
      next hopen =>
        have hO : r.state (r.devices.getD i default).device.type =
            MEDIA_REQUEST_STATE_OPENING := not_not.mp hopen
        have hr : ReqInv r := h label r hfr
        have hne : (r.devices.getD i default).device.type ≠
            NUM_MEDIA_TYPES := by
          intro hN
          rw [hN, state_NUM r hr.1] at hO
          exact absurd hO (by decide)
        have hreqd : Requested r.request
            (r.devices.getD i default).device.type := by
          by_contra hc
          rcases hr.2.1 _ hc with h2 | h2 <;> rw [hO] at h2 <;>
            exact absurd h2 (by decide)
        split <;> split <;>
          (try dsimp only
           refine RegNice_updateRequest _ _ _ h ?_
           intro r0 _
           refine ReqInv_congr _ _ ?_ ?_
             (ReqInv_SetState_requested r _ MEDIA_REQUEST_STATE_DONE hne
               hreqd hr) <;> rfl)

theorem RegNice_openedLoop (env : Env) (stream_type : MediaStreamType)
    (capture_session_id : Int) :
    ∀ (labels : List String) (reg : Registry), RegNice reg →
      RegNice (openedLoop env stream_type capture_session_id labels
        reg).1 := by
  intro labels
  induction labels with
  | nil =>
    intro reg h
    exact h
  | cons l rest ih =>
    intro reg h
    simp only [openedLoop]
    try dsimp only
    exact ih _ (RegNice_openedProcessRequest env stream_type
      capture_session_id l reg h)

theorem RegNice_opened (env : Env) (stream_type : MediaStreamType)
    (capture_session_id : Int) (reg : Registry) (h : RegNice reg) :
    RegNice (opened env stream_type capture_session_id reg).1 :=
  RegNice_openedLoop env stream_type capture_session_id _ reg h

/-- The tab-capture adjustments of `HandleAccessRequestResponse`'s device
loop do not change the device's kind. -/
theorem harr_dev1_type (env : Env) (r : DeviceRequest)
    (d : MediaStreamDevice) :
    (if d.type = MEDIA_TAB_AUDIO_CAPTURE then
      { (if d.type = MEDIA_TAB_VIDEO_CAPTURE ∨
            d.type = MEDIA_TAB_AUDIO_CAPTURE then
          { d with id := r.request.tab_capture_device_id }
        else d) with
        input :=
          { sample_rate := (if env.defaultOutputSampleRate ≤ 0 ∨
                96000 < env.defaultOutputSampleRate then 44100
              else env.defaultOutputSampleRate),
            channel_layout := CHANNEL_LAYOUT_STEREO } }
    else
      if d.type = MEDIA_TAB_VIDEO_CAPTURE ∨
          d.type = MEDIA_TAB_AUDIO_CAPTURE then
        { d with id := r.request.tab_capture_device_id }
      else d).type = d.type := by
  split <;> split <;> (try split) <;> rfl

/-- The device loop of `HandleAccessRequestResponse` keeps the registry
invariant and the processed request's descriptor, given that every approved
device carries a kind the request asked for. -/
theorem RegNice_harrDeviceLoop (env : Env) (label : String)
    (req0 : MediaStreamRequest) :
    ∀ (ds : List MediaStreamDevice) (fa fv : Bool) (reg : Registry),
      (∀ d ∈ ds, (d.type = req0.audio_type ∨ d.type = req0.video_type) ∧
        (IsAudioMediaType d.type ∨ IsVideoMediaType d.type)) →
      (∀ r', findRequest reg label = some r' → r'.request = req0) →
      RegNice reg →
      RegNice (harrDeviceLoop env label ds fa fv reg).1 ∧
      (∀ r', findRequest (harrDeviceLoop env label ds fa fv reg).1 label =
        some r' → r'.request = req0) := by
  intro ds
  induction ds with
  | nil =>
    intro fa fv reg _ hq h
    exact ⟨h, hq⟩
  | cons d rest ih =>
    intro fa fv reg hds hq h
    rcases hfr : findRequest reg label with _ | r
    · simp only [harrDeviceLoop, hfr]
      refine ⟨h, ?_⟩
      intro r' hr'
      exact absurd hr' (by simp)
    · simp only [harrDeviceLoop, hfr]
      have hreqK : r.request = req0 := hq r hfr
      have hd := hds d (List.mem_cons_self d rest)
      split
      next ex heq =>
        have htype : ex.1.device.type = d.type := by
          split at heq
          · have h2 := findExisting_type env r _ reg ex heq
            rw [harr_dev1_type] at h2
            exact h2
          · exact absurd heq (by simp)
        have hnum : ex.1.device.type ≠ NUM_MEDIA_TYPES := by
          rw [htype]
          rcases hd.2 with h' | h'
          · exact isAudio_ne_num h'
          · exact isVideo_ne_num h'
        have hreqd : Requested r.request ex.1.device.type := by
          unfold Requested
          rw [htype, hreqK]
          rcases hd.1 with h' | h'
          · exact Or.inl h'.symm
          · exact Or.inr h'.symm
        refine ih _ _ _ (fun d' hd' => hds d' (List.mem_cons_of_mem _ hd'))
          ?_ ?_
        · intro r' hr'
          rw [findRequest_updateRequest, hfr] at hr'
          simp only [Option.map_some'] at hr'
          rw [← Option.some.inj hr']
          rw [request_SetState]
          exact hreqK
        · refine RegNice_updateRequest _ _ _ h ?_
          intro r0 _
          refine ReqInv_SetState_requested _ _ _ hnum ?_ ?_
          · exact hreqd
          · exact ReqInv_congr _ _ rfl rfl (h label r hfr)
      next heq =>
        try dsimp only
        refine ih _ _ _ (fun d' hd' => hds d' (List.mem_cons_of_mem _ hd'))
          ?_ ?_
        · intro r' hr'
          rw [findRequest_updateRequest, hfr] at hr'
          simp only [Option.map_some'] at hr'
          rw [← Option.some.inj hr']
          rw [request_SetState]
          exact hreqK
        · refine RegNice_updateRequest _ _ _ h ?_
          intro r0 _
          refine ReqInv_SetState_requested _ _ _ ?_ ?_ ?_
          · rw [translateDeviceIdToSourceId_type, harr_dev1_type]
            rcases hd.2 with h' | h'
            · exact isAudio_ne_num h'
            · exact isVideo_ne_num h'
          · show Requested r.request _
            unfold Requested
            rw [translateDeviceIdToSourceId_type, harr_dev1_type, hreqK]
            rcases hd.1 with h' | h'
            · exact Or.inl h'.symm
            · exact Or.inr h'.symm
          · exact ReqInv_congr _ _ rfl rfl (h label r hfr)

/-- Marking a kind `ERROR` under the response guards keeps the registry
invariant and the processed request's descriptor. -/
theorem RegNice_errorMark (label : String) (t : MediaStreamType)
    (reg : Registry) (c : Prop) [Decidable c] (req0 : MediaStreamRequest)
    (hq : ∀ r', findRequest reg label = some r' → r'.request = req0)
    (h : RegNice reg)
    (hc : c → t ≠ NUM_MEDIA_TYPES ∧ Requested req0 t) :
    RegNice (if c then updateRequest reg label
        (fun r' => r'.SetState t MEDIA_REQUEST_STATE_ERROR)
      else reg) ∧
    (∀ r', findRequest (if c then updateRequest reg label
        (fun r' => r'.SetState t MEDIA_REQUEST_STATE_ERROR)
      else reg) label = some r' → r'.request = req0) := by
  split
  next hcc =>
    obtain ⟨ht, hreq⟩ := hc hcc
    constructor
    · refine RegNice_updateRequest _ _ _ h ?_
      intro r0 hr0
      refine ReqInv_SetState_requested r0 t _ ht ?_ (h label r0 hr0)
      rw [hq r0 hr0]
      exact hreq
    · intro r' hr'
      rw [findRequest_updateRequest] at hr'
      rcases hfr0 : findRequest reg label with _ | r0
      · rw [hfr0] at hr'
        exact absurd hr' (by simp)
      · rw [hfr0] at hr'
        simp only [Option.map_some'] at hr'
        rw [← Option.some.inj hr']
        rw [request_SetState]
        exact hq r0 hfr0
  next =>
    exact ⟨h, hq⟩

theorem RegNice_handleAccessRequestResponse (env : Env) (label : String)
    (devices : List MediaStreamDevice) (reg : Registry)
    (hallow : ∀ r, findRequest reg label = some r →
      ∀ d ∈ devices,
        (d.type = r.request.audio_type ∨ d.type = r.request.video_type) ∧
        (IsAudioMediaType d.type ∨ IsVideoMediaType d.type))
    (h : RegNice reg) :
    RegNice (handleAccessRequestResponse env label devices reg).1 := by
  rcases hfr : findRequest reg label with _ | r
  · simp only [handleAccessRequestResponse, hfr]
    exact h
  · simp only [handleAccessRequestResponse, hfr]
    split
    · exact RegNice_deleteRequest _ _ h
    · split
      · exact RegNice_deleteRequest _ _ h
      · obtain ⟨hloop, hq1⟩ := RegNice_harrDeviceLoop env label r.request
          devices false false reg (hallow r hfr)
          (fun r' hr' => by rw [hfr] at hr'; rw [← Option.some.inj hr']) h
        have hA := RegNice_errorMark label r.request.audio_type _
          (¬(harrDeviceLoop env label devices false false reg).2.1 ∧
            IsAudioMediaType r.request.audio_type)
          r.request hq1 hloop
          (fun hcc => ⟨isAudio_ne_num hcc.2, Or.inl rfl⟩)
        have hB := RegNice_errorMark label r.request.video_type _
          (¬(harrDeviceLoop env label devices false false
              reg).2.2.1 ∧ IsVideoMediaType r.request.video_type)
          r.request hA.2 hA.1
          (fun hcc => ⟨isVideo_ne_num hcc.2, Or.inr rfl⟩)
        split
        next r3 heq =>
          split
          · exact hB.1
          · exact hB.1
        next heq =>
          exact hB.1

theorem RegNice_DevicesEnumerated (env : Env)
    (stream_type : MediaStreamType) (devices : List StreamDeviceInfo)
    (st : MSMState) (h : RegNice st.requests_) :
    RegNice (DevicesEnumerated env stream_type devices st).1.requests_ := by
  unfold DevicesEnumerated
  dsimp only
  rw [refSet_requests]
  refine RegNice_secondLoop env stream_type devices _ _ _ ?_
  refine RegNice_advanceMap stream_type _ ?_
  split
  · try dsimp only
    rw [setCacheOf_requests]
    exact RegNice_stopRemovedDevices env _ _ _ h
  · exact h

theorem RegNice_addRequest (label : String) (request : DeviceRequest)
    (st : MSMState) (h : RegNice st.requests_) (hr : ReqInv request) :
    RegNice (addRequest label request st).requests_ := by
  intro l r hfr
  rcases findRequest_append_singleton st.requests_ label l request r hfr with
    h2 | h2
  · exact h l r h2
  · rw [h2]
    exact hr

theorem RegNice_generateStream (requester : Bool) (pid vid : Int) (rc : Nat)
    (prid : Int) (options : StreamOptions) (origin : GURL) (label : String)
    (st : MSMState) (h : RegNice st.requests_) :
    RegNice (generateStream requester pid vid rc prid options origin label
      st).1.requests_ := by
  refine RegNice_addRequest label _ st h ?_
  refine ReqInv_make _ _ _ _ _ ?_
  intro hE
  simp at hE

theorem RegNice_openDevice (requester : Bool) (pid vid : Int) (rc : Nat)
    (prid : Int) (device_id : String) (type : MediaStreamType)
    (origin : GURL) (label : String) (st : MSMState)
    (h : RegNice st.requests_) :
    RegNice (openDevice requester pid vid rc prid device_id type origin
      label st).1.requests_ := by
  unfold openDevice
  dsimp only
  split
  · exact h
  · refine RegNice_addRequest label _ st h ?_
    refine ReqInv_make _ _ _ _ _ ?_
    intro hE
    simp at hE

theorem RegNice_enumerateDevices (requester : Bool) (pid vid : Int)
    (rc : Nat) (prid : Int) (type : MediaStreamType) (origin : GURL)
    (label : String) (st : MSMState) (h : RegNice st.requests_) :
    RegNice (enumerateDevices requester pid vid rc prid type origin label
      st).1.requests_ := by
  unfold enumerateDevices
  dsimp only
  split
  · exact h
  next opts heq =>
    refine RegNice_addRequest label _ st h ?_
    refine ReqInv_make _ _ _ _ _ ?_
    intro _
    split at heq
    next hty =>
      rw [← Option.some.inj heq]
      exact Or.inl hty
    next =>
      split at heq
      next hty =>
        rw [← Option.some.inj heq]
        exact Or.inr hty
      next =>
        exact absurd heq (by simp)

/-- The construction invariant survives storing the access-check
callback. -/
theorem ReqInv_make_callback (requester : Bool)
    (request : MediaStreamRequest) (pid vid : Int) (rc : Nat) (cb : Bool)
    (hshape : request.request_type = MEDIA_ENUMERATE_DEVICES →
      request.audio_type = MEDIA_DEVICE_AUDIO_CAPTURE ∨
      request.video_type = MEDIA_DEVICE_VIDEO_CAPTURE) :
    ReqInv { DeviceRequest.make requester request pid vid rc with
      callback := cb } := by
  refine ReqInv_congr _ _ ?_ ?_
    (ReqInv_make requester request pid vid rc hshape) <;> rfl

theorem RegNice_makeMediaAccessRequest (pid vid prid : Int)
    (options : StreamOptions) (origin : GURL) (has_callback : Bool)
    (label : String) (st : MSMState) (h : RegNice st.requests_) :
    RegNice (makeMediaAccessRequest pid vid prid options origin has_callback
      label st).1.requests_ := by
  refine RegNice_addRequest label _ st h ?_
  refine ReqInv_make_callback _ _ _ _ _ _ ?_
  intro hE
  simp at hE

theorem RegNice_onDevicesChanged (dt : SystemMonitorDeviceType)
    (st : MSMState) (h : RegNice st.requests_) :
    RegNice (onDevicesChanged dt st).1.requests_ := by
  cases dt <;> simp only [onDevicesChanged] <;> (try dsimp only) <;>
    first
      | (rw [refSet_requests]; exact h)
      | exact h

theorem RegNice_ensureDeviceMonitorStarted (env : Env) (st : MSMState)
    (h : RegNice st.requests_) :
    RegNice (ensureDeviceMonitorStarted env st).1.requests_ := by
  unfold ensureDeviceMonitorStarted
  split
  · rw [startMonitoring_requests]
    exact h
  · exact h

theorem RegNice_stopMonitoring (st : MSMState) (h : RegNice st.requests_) :
    RegNice (stopMonitoring st).1.requests_ := by
  unfold stopMonitoring
  split
  · exact h
  · exact h

/-- Every reachable state's registry satisfies the per-request invariant. -/
theorem reaches_RegNice (env : Env) {st : MSMState}
    {infl : MediaStreamType → Nat} (h : Reaches env st infl) :
    RegNice st.requests_ := by
  induction h with
  | init =>
    intro l r hr
    simp [msmInitial, findRequest] at hr
  | @step st0 infl0 op hr ha ih =>
    cases op with
    | opGenerateStream requester pid vid rc prid options origin label =>
      exact RegNice_generateStream requester pid vid rc prid options origin
        label st0 ih
    | opOpenDevice requester pid vid rc prid device_id type origin label =>
      exact RegNice_openDevice requester pid vid rc prid device_id type
        origin label st0 ih
    | opEnumerateDevices requester pid vid rc prid type origin label =>
      exact RegNice_enumerateDevices requester pid vid rc prid type origin
        label st0 ih
    | opMakeMediaAccessRequest pid vid prid options origin has_callback
        label =>
      exact RegNice_makeMediaAccessRequest pid vid prid options origin
        has_callback label st0 ih
    | opSetupRequest label =>
      exact RegNice_setupRequest env label st0 ih
    | opDoEnumerateDevices label =>
      exact RegNice_doEnumerateDevices env label st0 ih ha
    | opCancelRequest label =>
      exact RegNice_cancelRequest label st0.requests_ ih
    | opCancelAllRequests pid =>
      exact RegNice_cancelAllRequests pid st0.requests_ ih
    | opStopStreamDevice pid vid device_id =>
      exact RegNice_stopStreamDevice pid vid device_id st0.requests_ ih
    | opStopMediaStreamFromBrowser label =>
      exact RegNice_stopMediaStreamFromBrowser label st0.requests_ ih
    | opHandleAccessRequestResponse label devices =>
      exact RegNice_handleAccessRequestResponse env label devices
        st0.requests_ ha ih
    | opOpened stream_type capture_session_id =>
      exact RegNice_opened env stream_type capture_session_id st0.requests_
        ih
    | opDevicesEnumerated stream_type devices =>
      exact RegNice_DevicesEnumerated env stream_type devices st0 ih
    | opOnDevicesChanged dt =>
      exact RegNice_onDevicesChanged dt st0 ih
    | opEnsureDeviceMonitorStarted =>
      exact RegNice_ensureDeviceMonitorStarted env st0 ih
    | opStopMonitoring =>
      exact RegNice_stopMonitoring st0 ih

/-- The audio session entry stopped in the C8 scenarios: session 1. -/
def wStopAudioInfo : StreamDeviceInfo :=
  { device := { type := MEDIA_DEVICE_AUDIO_CAPTURE, id := "a" }
    session_id := 1 }

/-- The video session entry surviving the C8 scenarios: session 2. -/
def wStopVideoInfo : StreamDeviceInfo :=
  { device := { type := MEDIA_DEVICE_VIDEO_CAPTURE, id := "v" }
    session_id := 2 }

/-- A generate-stream request holding both session entries, whose audio
session is still being opened (`OPENING`). -/
def wStopReq : DeviceRequest :=
  { requester := true
    request :=
      { security_origin := wOrigin
        request_type := MEDIA_GENERATE_STREAM
        audio_type := MEDIA_DEVICE_AUDIO_CAPTURE
        video_type := MEDIA_DEVICE_VIDEO_CAPTURE }
    requesting_process_id := 1
    requesting_view_id := 2
    resource_context := 3
    ui_proxy := true
    devices := [wStopAudioInfo, wStopVideoInfo]
    state_ := [MEDIA_REQUEST_STATE_NOT_REQUESTED,
      MEDIA_REQUEST_STATE_OPENING, MEDIA_REQUEST_STATE_OPENING,
      MEDIA_REQUEST_STATE_NOT_REQUESTED, MEDIA_REQUEST_STATE_NOT_REQUESTED,
      MEDIA_REQUEST_STATE_NOT_REQUESTED,
      MEDIA_REQUEST_STATE_NOT_REQUESTED] }

/-- The same request after its audio session finished opening (`DONE`). -/
def wStopReqDone : DeviceRequest :=
  { wStopReq with
    state_ := [MEDIA_REQUEST_STATE_NOT_REQUESTED, MEDIA_REQUEST_STATE_DONE,
      MEDIA_REQUEST_STATE_OPENING, MEDIA_REQUEST_STATE_NOT_REQUESTED,
      MEDIA_REQUEST_STATE_NOT_REQUESTED, MEDIA_REQUEST_STATE_NOT_REQUESTED,
      MEDIA_REQUEST_STATE_NOT_REQUESTED] }

/-- C8 (amended).  `StopDevice(type, session_id)` removes every matching
device entry from every registered request's device list and deletes any
request left with no remaining entries (first conjunct, any registry).  But
the provider `Close` call and the `CLOSING` mark are issued only for a
request whose state for the kind is `DONE` at the moment its matching entry
is scanned (second conjunct, single-request registry); a request in any
other state — in particular `OPENING` — has the entry removed silently,
with no event emitted and its state left exactly as it was (third
conjunct). -/
theorem c8_stopDevice_amended (type : MediaStreamType) (session_id : Int)
    (reg : Registry) (l : String) (r : DeviceRequest)
    (ht : type ≠ NUM_MEDIA_TYPES) (hlen : r.state_.length = 7) :
    (∀ l2 r', findRequest (stopDevice type session_id reg).1 l2 = some r' →
      noMatchEntry type session_id r' ∧ r'.devices ≠ []) ∧
    (r.state type = MEDIA_REQUEST_STATE_DONE →
      (∃ d ∈ r.devices, d.device.type = type ∧ d.session_id = session_id) →
      Event.CloseCall type session_id ∈
        (stopDevice type session_id [(l, r)]).2 ∧
      ∀ r', findRequest (stopDevice type session_id [(l, r)]).1 l =
        some r' → r'.state type = MEDIA_REQUEST_STATE_CLOSING) ∧
    (r.state type ≠ MEDIA_REQUEST_STATE_DONE →
      (stopDevice type session_id [(l, r)]).2 = [] ∧
      ∀ r', findRequest (stopDevice type session_id [(l, r)]).1 l =
        some r' → r'.state type = r.state type) := by
  have hfr0 : findRequest [(l, r)] l = some r := by
    simp [findRequest]
  have hsingle := stopDeviceReqLoop_single type session_id l [(l, r)] r hfr0
  have hstop : stopDevice type session_id [(l, r)] =
      stopDeviceReqLoop type session_id [l] [(l, r)] := rfl
  refine ⟨?_, ?_, ?_⟩
  · intro l2 r' h
    simp only [stopDevice] at h
    obtain ⟨h1, r0, hr0, _⟩ :=
      stopDeviceReqLoop_spec type session_id (reg.map Prod.fst) reg l2 r' h
    exact h1 (findRequest_mem_keys reg l2 r0 hr0)
  · intro hdone hmatch
    constructor
    · rw [hstop, hsingle.1]
      exact stopDeviceDevLoop_close_event type session_id l r.devices []
        [(l, r)] r hfr0 hdone hmatch
    · intro r' h
      rw [hstop] at h
      exact stopDeviceDevLoop_done_closing type session_id l ht r.devices
        [] [(l, r)] r hfr0 (by simp) hlen hdone hmatch r' (hsingle.2 r' h)
  · intro hnd
    have hne := stopDeviceDevLoop_no_events type session_id l
      (r.state type) hnd r.devices [] [(l, r)] ?_
    · constructor
      · rw [hstop, hsingle.1]
        exact hne.1
      · intro r' h
        rw [hstop] at h
        exact hne.2 r' (hsingle.2 r' h)
    · intro r0 hr0
      rw [hfr0] at hr0
      rw [← Option.some.inj hr0]

/-- C8 counterexample to "regardless of which state (Opening or Done)":
stopping the audio session of a request still `OPENING` for audio removes
the matching entry (one device left) but issues no provider `Close` call and
leaves the state `OPENING`, not `CLOSING`. -/
theorem c8_opening_state_counterexample :
    wStopReq.state MEDIA_DEVICE_AUDIO_CAPTURE =
      MEDIA_REQUEST_STATE_OPENING ∧
    (stopDevice MEDIA_DEVICE_AUDIO_CAPTURE 1 [("L", wStopReq)]).2 = [] ∧
    (findRequest (stopDevice MEDIA_DEVICE_AUDIO_CAPTURE 1
        [("L", wStopReq)]).1 "L").map
      (fun r' => (r'.devices,
        r'.state MEDIA_DEVICE_AUDIO_CAPTURE)) =
      some ([wStopVideoInfo], MEDIA_REQUEST_STATE_OPENING) :=
  ⟨rfl, rfl, rfl⟩

/-- Witness: on the `DONE` variant the amended theorem yields the provider
`Close` call. -/
theorem c8_stopDevice_amended_witness :
    Event.CloseCall MEDIA_DEVICE_AUDIO_CAPTURE 1 ∈
      (stopDevice MEDIA_DEVICE_AUDIO_CAPTURE 1 [("L", wStopReqDone)]).2 :=
  ((c8_stopDevice_amended MEDIA_DEVICE_AUDIO_CAPTURE 1 [("L", wStopReqDone)]
        "L" wStopReqDone (by decide) (by decide)).2.1 (by decide)
      ⟨wStopAudioInfo, List.mem_cons_self _ _, rfl, rfl⟩).1

/-- **C5 (amended).**  Every `DeviceRequest` is constructed with a state
vector of exactly one entry per possible media kind (`NUM_MEDIA_TYPES` = 7
entries), all `NOT_REQUESTED`; and in every reachable manager state, every
registered request keeps the full-size vector and a kind absent from the
request descriptor reads `NOT_REQUESTED` or — after the broadcast teardown
mark `SetState(NUM_MEDIA_TYPES, MEDIA_REQUEST_STATE_CLOSING)` of
`CancelRequest` — `CLOSING`, never any other state.  (The original claim's
"never advances a kind not present in the descriptor past NotRequested" is
refuted by the broadcast: see the counterexample.) -/
theorem c5_state_vector_invariant_amended (env : Env) (st : MSMState)
    (infl : MediaStreamType → Nat) (h : Reaches env st infl) :
    (∀ (requester : Bool) (request : MediaStreamRequest) (pid vid : Int)
      (rc : Nat),
      (DeviceRequest.make requester request pid vid rc).state_.length = 7 ∧
      ∀ u, (DeviceRequest.make requester request pid vid rc).state u =
        MEDIA_REQUEST_STATE_NOT_REQUESTED) ∧
    (∀ l r, findRequest st.requests_ l = some r →
      r.state_.length = 7 ∧
      ∀ u, ¬Requested r.request u →
        r.state u = MEDIA_REQUEST_STATE_NOT_REQUESTED ∨
        r.state u = MEDIA_REQUEST_STATE_CLOSING) := by
  constructor
  · intro requester request pid vid rc
    constructor
    · rfl
    · intro u
      unfold DeviceRequest.state DeviceRequest.make
      rw [List.getD_eq_getElem?_getD, List.getElem?_replicate]
      split <;> rfl
  · intro l r hr
    obtain ⟨hlen, hstate, _⟩ := reaches_RegNice env h l r hr
    exact ⟨hlen, hstate⟩

/-- C5 counterexample: the broadcast
`SetState(NUM_MEDIA_TYPES, MEDIA_REQUEST_STATE_CLOSING)` performed by
`CancelRequest` (lines 307-309) advances the never-requested camera-video
kind of an audio-only request from `NOT_REQUESTED` to `CLOSING`. -/
theorem c5_nonrequested_kind_advanced_counterexample :
    ¬Requested wC5Req.request MEDIA_DEVICE_VIDEO_CAPTURE ∧
    (wC5Req.SetState NUM_MEDIA_TYPES MEDIA_REQUEST_STATE_CLOSING).state
        MEDIA_DEVICE_VIDEO_CAPTURE = MEDIA_REQUEST_STATE_CLOSING ∧
    MEDIA_REQUEST_STATE_CLOSING ≠ MEDIA_REQUEST_STATE_NOT_REQUESTED := by
  decide

/-- Witness: after one `GenerateStream` step from the initial state, the
registered audio-only request has the full-size vector and its
never-requested camera-video kind reads `NOT_REQUESTED` or `CLOSING`. -/
theorem c5_state_vector_invariant_amended_witness :
    wC5Req.state_.length = 7 ∧
    (wC5Req.state MEDIA_DEVICE_VIDEO_CAPTURE =
        MEDIA_REQUEST_STATE_NOT_REQUESTED ∨
      wC5Req.state MEDIA_DEVICE_VIDEO_CAPTURE =
        MEDIA_REQUEST_STATE_CLOSING) := by
  have h := c5_state_vector_invariant_amended wEnv _ _
    (Reaches.step (MSMOp.opGenerateStream true 1 2 0 3 wC5Opts wOrigin "L")
      Reaches.init rfl)
  exact ⟨(h.2 "L" wC5Req rfl).1,
    (h.2 "L" wC5Req rfl).2 MEDIA_DEVICE_VIDEO_CAPTURE (by decide)⟩

end MediaStream
